import Mathlib

/-!
# OGX-Mini: Xbox One (GIP) class driver and XInput Guitar report translation

A shallow embedding of
`Firmware/RP2040/src/USBDevice/DeviceDriver/XInput/XboxOne.cpp` and
`Firmware/RP2040/src/USBDevice/DeviceDriver/XInput/XInputGuitar.cpp`.

* Bytes and 16-bit fields are natural numbers; a store into a `uint8_t` or
  `uint16_t` object is written with an explicit `% 256` or `% 65536`.
* The file-scope statics of `namespace tud_xboxone` become the fields of
  `tud_xboxone.State`, which is passed explicitly.
* The TinyUSB device stack is outside the repository. The driver only talks to
  it through `tud_ready`, `usbd_edpt_busy`, `usbd_edpt_claim`,
  `usbd_edpt_xfer` and `usbd_edpt_release`; `Usbd` keeps what those calls can
  observe (the ready flag and the busy endpoints) together with the ordered
  log of the calls the driver made.
-/

/-! ## The USB device stack as seen by the driver -/

/-- The memory object whose address is handed to `usbd_edpt_xfer`. -/
inductive Mem where
  | ep_in_buffer_
  | ep_out_buffer_
  | ANNOUNCE_PACKET
  | in_report_
  deriving DecidableEq, Repr

/-- One call of the driver into the endpoint primitives of the stack.
`xfer ep buf len snapshot` is `usbd_edpt_xfer(rhport, ep, buf, len)`;
`snapshot` is the first `len` bytes of `buf` at the time of the call (for an IN
endpoint: the bytes that go on the wire). -/
inductive Call where
  | claim (ep : Nat)
  | xfer (ep : Nat) (buf : Mem) (len : Nat) (snapshot : List Nat)
  | release (ep : Nat)
  deriving DecidableEq, Repr

/-- Modelled from the spec: the TinyUSB device stack (`device/usbd_pvt.h`) is an
external collaborator, specified only by the interface it presents (spec 4.2,
5): `is_ready`, `is_busy`, `claim`, `submit`, `release`, with an endpoint busy
from a submission until its completion. `ready` is the answer of `tud_ready()`,
`busy` the endpoint addresses with a transfer in flight, `calls` the calls made
by the driver so far, oldest first. -/
structure Usbd where
  ready : Bool
  busy : List Nat
  calls : List Call
  deriving DecidableEq, Repr

/-- Answer of `tud_ready()`. -/
def tud_ready (u : Usbd) : Bool := u.ready

/-- Answer of `usbd_edpt_busy(rhport, ep)`. -/
def usbd_edpt_busy (u : Usbd) (ep : Nat) : Bool := decide (ep ∈ u.busy)

/-- Records `usbd_edpt_claim(rhport, ep)`; the driver ignores its result. -/
def usbd_edpt_claim (u : Usbd) (ep : Nat) : Usbd :=
  { u with calls := u.calls ++ [Call.claim ep] }

/-- Records `usbd_edpt_xfer(rhport, ep, buf, len)`: the endpoint has a transfer
in flight from now on. -/
def usbd_edpt_xfer (u : Usbd) (ep : Nat) (buf : Mem) (len : Nat)
    (content : List Nat) : Usbd :=
  { u with
    busy := if ep ∈ u.busy then u.busy else ep :: u.busy
    calls := u.calls ++ [Call.xfer ep buf len (content.take len)] }

/-- Records `usbd_edpt_release(rhport, ep)`. -/
def usbd_edpt_release (u : Usbd) (ep : Nat) : Usbd :=
  { u with calls := u.calls ++ [Call.release ep] }

/-- The `std::memcpy(dst, src, n)` of the first `n` bytes of `src` over the
first `n` bytes of `dst`. -/
def memcpy (dst src : List Nat) (n : Nat) : List Nat :=
  src.take n ++ dst.drop n

/-- The `std::memset(dst, 0, n)` of a buffer of `n` bytes. -/
def memset0 (n : Nat) : List Nat := List.replicate n 0

/-- The transfers submitted on endpoint `ep` among `calls`, in order:
the buffer handed over, the length and the bytes. -/
def xfersOn (ep : Nat) : List Call → List (Mem × Nat × List Nat)
  | [] => []
  | Call.xfer e buf len snap :: rest =>
      if e = ep then (buf, len, snap) :: xfersOn ep rest else xfersOn ep rest
  | _ :: rest => xfersOn ep rest

/-- The claims made on endpoint `ep` among `calls`. -/
def claimsOn (ep : Nat) : List Call → Nat
  | [] => 0
  | Call.claim e :: rest => (if e = ep then 1 else 0) + claimsOn ep rest
  | _ :: rest => claimsOn ep rest

/-! ## `namespace tud_xboxone` -/

namespace tud_xboxone

def ENDPOINT_SIZE : Nat := 64

def GIP_CMD_ACK : Nat := 0x01
def GIP_CMD_ANNOUNCE : Nat := 0x02
def GIP_CMD_IDENTIFY : Nat := 0x04
def GIP_CMD_POWER : Nat := 0x05
def GIP_CMD_AUTHENTICATE : Nat := 0x06
def GIP_CMD_VIRTUAL_KEY : Nat := 0x07
def GIP_CMD_RUMBLE : Nat := 0x09
def GIP_CMD_LED : Nat := 0x0A
def GIP_CMD_INPUT : Nat := 0x20

def GIP_OPT_ACK : Nat := 0x10
def GIP_OPT_INTERNAL : Nat := 0x20

/-- GIP device descriptor response, sent when the host requests identify. -/
def IDENTIFY_RESPONSE : List Nat :=
  [GIP_CMD_IDENTIFY, GIP_OPT_INTERNAL, 0x00, 0x14,
   0x00, 0x01, 0x5E, 0x04, 0xEA, 0x02, 0x19, 0x01, 0x00, 0x01,
   0x01, 0x00, 0x00, 0x00, 0x00, 0x00, 0x00, 0x00, 0x00, 0x00]

/-- GIP announce packet, sent by the device on connection. -/
def ANNOUNCE_PACKET : List Nat :=
  [GIP_CMD_ANNOUNCE, GIP_OPT_INTERNAL, 0x00, 0x14,
   0x00, 0x00, 0x00, 0x00, 0x00, 0x00, 0x00, 0x00,
   0x00, 0x00, 0x00, 0x00, 0x00, 0x01, 0x00, 0x01,
   0x00, 0x00, 0x00, 0x00]

/-- The file-scope statics of the driver, and the stack it runs against. -/
structure State where
  endpoint_in_ : Nat
  endpoint_out_ : Nat
  ep_in_buffer_ : List Nat
  ep_out_buffer_ : List Nat
  announced_ : Bool
  usbd : Usbd
  deriving DecidableEq, Repr

/-- The `init` of the class driver. -/
def init (s : State) : State :=
  { s with
    endpoint_in_ := 0xFF
    endpoint_out_ := 0xFF
    announced_ := false
    ep_out_buffer_ := memset0 ENDPOINT_SIZE
    ep_in_buffer_ := memset0 ENDPOINT_SIZE }

/-- The `control_xfer_cb` of the class driver. -/
def control_xfer_cb (s : State) (_rhport _stage : Nat) : Bool × State := (true, s)

/-- The `case GIP_CMD_IDENTIFY` arm of `xfer_cb`. -/
def xfer_cb_identify (s : State) (seq : Nat) : State :=
  if !usbd_edpt_busy s.usbd s.endpoint_in_ then
    let u1 := usbd_edpt_claim s.usbd s.endpoint_in_
    let b1 := memcpy s.ep_in_buffer_ IDENTIFY_RESPONSE IDENTIFY_RESPONSE.length
    let b2 := b1.set 2 seq
    let u2 := usbd_edpt_xfer u1 s.endpoint_in_ Mem.ep_in_buffer_
                IDENTIFY_RESPONSE.length b2
    let u3 := usbd_edpt_release u2 s.endpoint_in_
    { s with ep_in_buffer_ := b2, usbd := u3 }
  else s

/-- The `default` arm of `xfer_cb`. -/
def xfer_cb_default (s : State) (cmd flags seq : Nat) : State :=
  if flags &&& GIP_OPT_ACK ≠ 0 then
    let ack : List Nat := [GIP_CMD_ACK, GIP_OPT_INTERNAL, seq, 0x01, cmd]
    if !usbd_edpt_busy s.usbd s.endpoint_in_ then
      let u1 := usbd_edpt_claim s.usbd s.endpoint_in_
      let b1 := memcpy s.ep_in_buffer_ ack ack.length
      let u2 := usbd_edpt_xfer u1 s.endpoint_in_ Mem.ep_in_buffer_ ack.length b1
      let u3 := usbd_edpt_release u2 s.endpoint_in_
      { s with ep_in_buffer_ := b1, usbd := u3 }
    else s
  else s

/-- The `xfer_cb` of the class driver: the transfer-completion callback. -/
def xfer_cb (s : State) (_rhport ep_addr _result xferred_bytes : Nat) :
    Bool × State :=
  if ep_addr = s.endpoint_out_ ∧ xferred_bytes > 0 then
    let cmd := s.ep_out_buffer_.getD 0 0
    let flags := s.ep_out_buffer_.getD 1 0
    let seq := s.ep_out_buffer_.getD 2 0
    let s1 :=
      if cmd = GIP_CMD_IDENTIFY then xfer_cb_identify s seq
      else xfer_cb_default s cmd flags seq
    (true, { s1 with
      usbd := usbd_edpt_xfer s1.usbd s1.endpoint_out_ Mem.ep_out_buffer_
                ENDPOINT_SIZE s1.ep_out_buffer_ })
  else (true, s)

/-- The helper `send_report(report, len)`; `src` names the object `report`
points to and `report` is its content. -/
def send_report (s : State) (src : Mem) (report : List Nat) (len : Nat) :
    Bool × State :=
  if tud_ready s.usbd ∧ s.endpoint_in_ ≠ 0xFF ∧
      (!usbd_edpt_busy s.usbd s.endpoint_in_) = true then
    let u1 := usbd_edpt_claim s.usbd s.endpoint_in_
    let u2 := usbd_edpt_xfer u1 s.endpoint_in_ src len report
    let u3 := usbd_edpt_release u2 s.endpoint_in_
    (true, { s with usbd := u3 })
  else (false, s)

/-- The helper `send_announce()`. -/
def send_announce (s : State) : State :=
  if (!s.announced_) = true ∧ tud_ready s.usbd ∧ s.endpoint_in_ ≠ 0xFF then
    let s1 := (send_report s Mem.ANNOUNCE_PACKET ANNOUNCE_PACKET
                ANNOUNCE_PACKET.length).2
    { s1 with announced_ := true }
  else s

/-- The helper `receive_report()`. -/
def receive_report (s : State) : State :=
  if tud_ready s.usbd ∧ s.endpoint_out_ ≠ 0xFF ∧
      (!usbd_edpt_busy s.usbd s.endpoint_out_) = true then
    let u1 := usbd_edpt_claim s.usbd s.endpoint_out_
    let u2 := usbd_edpt_xfer u1 s.endpoint_out_ Mem.ep_out_buffer_ ENDPOINT_SIZE
                s.ep_out_buffer_
    let u3 := usbd_edpt_release u2 s.endpoint_out_
    { s with usbd := u3 }
  else s

end tud_xboxone

/-! ## The canonical gamepad (`Gamepad.h`) -/

namespace Gamepad

/-- The canonical input snapshot `Gamepad::PadIn`: d-pad bitmask, button
bitmask, two 8-bit triggers, four signed stick axes. -/
structure PadIn where
  dpad : Nat
  buttons : Nat
  trigger_l : Nat
  trigger_r : Nat
  joystick_lx : Int
  joystick_ly : Int
  joystick_rx : Int
  joystick_ry : Int
  deriving DecidableEq, Repr

/-- The canonical output `Gamepad::PadOut` (rumble levels). -/
structure PadOut where
  rumble_l : Nat
  rumble_r : Nat
  deriving DecidableEq, Repr

/-- The bit masks `Gamepad::DPAD_*` and `Gamepad::BUTTON_*`. Their values are
declared in `Gamepad.h`; the translators are embedded for arbitrary values. -/
structure Masks where
  DPAD_UP : Nat
  DPAD_DOWN : Nat
  DPAD_LEFT : Nat
  DPAD_RIGHT : Nat
  BUTTON_A : Nat
  BUTTON_B : Nat
  BUTTON_X : Nat
  BUTTON_Y : Nat
  BUTTON_L3 : Nat
  BUTTON_R3 : Nat
  BUTTON_BACK : Nat
  BUTTON_START : Nat
  BUTTON_LB : Nat
  BUTTON_RB : Nat
  BUTTON_SYS : Nat
  BUTTON_MISC : Nat
  deriving DecidableEq, Repr

/-- Every mask is a non-empty set of bits, and two masks of the same field
share no bit. -/
def Masks.Separate (G : Masks) : Prop :=
  (∀ m ∈ [G.DPAD_UP, G.DPAD_DOWN, G.DPAD_LEFT, G.DPAD_RIGHT], m ≠ 0) ∧
  List.Pairwise (fun a b => a &&& b = 0)
    [G.DPAD_UP, G.DPAD_DOWN, G.DPAD_LEFT, G.DPAD_RIGHT] ∧
  (∀ m ∈ [G.BUTTON_A, G.BUTTON_B, G.BUTTON_X, G.BUTTON_Y, G.BUTTON_L3,
          G.BUTTON_R3, G.BUTTON_BACK, G.BUTTON_START, G.BUTTON_LB, G.BUTTON_RB,
          G.BUTTON_SYS, G.BUTTON_MISC], m ≠ 0) ∧
  List.Pairwise (fun a b => a &&& b = 0)
    [G.BUTTON_A, G.BUTTON_B, G.BUTTON_X, G.BUTTON_Y, G.BUTTON_L3,
     G.BUTTON_R3, G.BUTTON_BACK, G.BUTTON_START, G.BUTTON_LB, G.BUTTON_RB,
     G.BUTTON_SYS, G.BUTTON_MISC]

instance (G : Masks) : Decidable G.Separate := by
  unfold Masks.Separate; infer_instance

/-- One bit per mask: a concrete choice of the constants, used to evaluate the
translators on examples. -/
def Masks.oneBitEach : Masks :=
  { DPAD_UP := 0x01, DPAD_DOWN := 0x02, DPAD_LEFT := 0x04, DPAD_RIGHT := 0x08
    BUTTON_A := 0x0001, BUTTON_B := 0x0002, BUTTON_X := 0x0004
    BUTTON_Y := 0x0008, BUTTON_L3 := 0x0010, BUTTON_R3 := 0x0020
    BUTTON_BACK := 0x0040, BUTTON_START := 0x0080, BUTTON_LB := 0x0100
    BUTTON_RB := 0x0200, BUTTON_SYS := 0x0400, BUTTON_MISC := 0x0800 }

end Gamepad

/-- Modelled from the spec: the gamepad state provider (spec 6), whose class
`Gamepad` is declared in a header outside the two files embedded here:
`new_pad_in()` says whether new input is available, `get_pad_in()` reads the
canonical state, and
`set_pad_out` writes the rumble command; `pad_out_writes` lists the commands
written so far, oldest first. -/
structure Gamepad where
  new_pad_in : Bool
  pad_in : Gamepad.PadIn
  pad_out_writes : List Gamepad.PadOut
  deriving DecidableEq, Repr

/-- The call `gamepad.get_pad_in()`. -/
def Gamepad.get_pad_in (g : Gamepad) : Gamepad.PadIn := g.pad_in

/-- The call `gamepad.set_pad_out(gp_out)`. -/
def Gamepad.set_pad_out (g : Gamepad) (gp_out : Gamepad.PadOut) : Gamepad :=
  { g with pad_out_writes := g.pad_out_writes ++ [gp_out] }

/-- The statement `if (cond) field |= mask;` on a `uint8_t` field: the new
value of the field. -/
def orIf (cond : Prop) [Decidable cond] (field mask : Nat) : Nat :=
  if cond then (field ||| mask) % 256 else field

/-- The mask when its source is set, no bit otherwise. -/
def sel (cond : Prop) [Decidable cond] (mask : Nat) : Nat :=
  if cond then mask else 0

/-! ## The Xbox One device (`XboxOne.cpp`) -/

namespace XboxOne

/-- The bits `XboxOne::Buttons0::*` and `XboxOne::Buttons1::*`, declared in
`Descriptors/XboxOne.h`. -/
structure Bits where
  START : Nat
  BACK : Nat
  A : Nat
  B : Nat
  X : Nat
  Y : Nat
  GUIDE : Nat
  SYNC : Nat
  DPAD_UP : Nat
  DPAD_DOWN : Nat
  DPAD_LEFT : Nat
  DPAD_RIGHT : Nat
  LB : Nat
  RB : Nat
  L3 : Nat
  R3 : Nat
  deriving DecidableEq, Repr

/-- Every constant fits the `uint8_t` button byte it is stored in. -/
def Bits.UInt8 (X : Bits) : Prop :=
  ∀ m ∈ [X.START, X.BACK, X.A, X.B, X.X, X.Y, X.GUIDE, X.SYNC, X.DPAD_UP,
         X.DPAD_DOWN, X.DPAD_LEFT, X.DPAD_RIGHT, X.LB, X.RB, X.L3, X.R3],
    m < 256

instance (X : Bits) : Decidable X.UInt8 := by
  unfold Bits.UInt8; infer_instance

/-- The button bits of the GIP input report: a concrete choice of the
constants, used to evaluate the translator on examples. -/
def Bits.gip : Bits :=
  { SYNC := 0x01, GUIDE := 0x02, START := 0x04, BACK := 0x08
    A := 0x10, B := 0x20, X := 0x40, Y := 0x80
    DPAD_UP := 0x01, DPAD_DOWN := 0x02, DPAD_LEFT := 0x04, DPAD_RIGHT := 0x08
    LB := 0x10, RB := 0x20, L3 := 0x40, R3 := 0x80 }

/-- The GIP header at the start of `XboxOne::InReport`. -/
structure Header where
  command : Nat
  client : Nat
  needsAck : Nat
  internal : Nat
  chunkStart : Nat
  chunked : Nat
  sequence : Nat
  length : Nat
  deriving DecidableEq, Repr

/-- The input report `XboxOne::InReport`: header (4 bytes), buttons (2),
triggers (2 x 16 bit), joysticks (4 x 16 bit). -/
structure InReport where
  header : Header
  buttons0 : Nat
  buttons1 : Nat
  trigger_l : Nat
  trigger_r : Nat
  joystick_lx : Int
  joystick_ly : Int
  joystick_rx : Int
  joystick_ry : Int
  deriving DecidableEq, Repr

/-- The two bytes of a 16-bit field, low byte first. -/
def le16 (v : Int) : List Nat :=
  [(v % 65536).toNat % 256, (v % 65536).toNat / 256]

/-- Modelled from the spec: the layout of `XboxOne::InReport` is declared in
`Descriptors/XboxOne.h`; the bytes follow the GIP wire format (spec 3, 6):
header `command, flags, sequence, length` with flag bit 4 = ACK requested and
bit 5 = internal, then the fields in order, multi-byte fields little-endian
(18 bytes: 4 + 2 + 4 + 8). -/
def InReport.bytes (r : InReport) : List Nat :=
  [r.header.command % 256,
   (r.header.client % 16 + 16 * (r.header.needsAck % 2) +
      32 * (r.header.internal % 2) + 64 * (r.header.chunkStart % 2) +
      128 * (r.header.chunked % 2)),
   r.header.sequence % 256,
   r.header.length % 256,
   r.buttons0 % 256,
   r.buttons1 % 256] ++
  le16 r.trigger_l ++ le16 r.trigger_r ++
  le16 r.joystick_lx ++ le16 r.joystick_ly ++
  le16 r.joystick_rx ++ le16 r.joystick_ry

end XboxOne

/-- The members of `class XboxOneDevice`. -/
structure XboxOneDevice where
  sequence_ : Nat
  in_report_ : XboxOne.InReport
  deriving DecidableEq, Repr

/-- The method `XboxOneDevice::initialize()`: the report is cleared and the
GIP header of input packets is set up. -/
def XboxOneDevice.initialize (d : XboxOneDevice) : XboxOneDevice :=
  { d with
    in_report_ :=
      { header :=
          { command := 0x20, client := 0, needsAck := 0, internal := 0,
            chunkStart := 0, chunked := 0, sequence := 0, length := 14 }
        buttons0 := 0, buttons1 := 0, trigger_l := 0, trigger_r := 0
        joystick_lx := 0, joystick_ly := 0, joystick_rx := 0
        joystick_ry := 0 } }

/-- The body of `if (gamepad.new_pad_in())` in `XboxOneDevice::process` up to
the send: the members after the report has been rebuilt from `gp_in`. Each
member of `in_report_` that the block assigns is a local of the same name
(`buttons0` and `buttons1` for `buttons[0]` and `buttons[1]`), stored back at
the end. `invert` is `Range::invert`, declared in a header outside this file. -/
def XboxOneDevice.fill_report (G : Gamepad.Masks) (X : XboxOne.Bits)
    (invert : Int → Int) (d : XboxOneDevice) (gp_in : Gamepad.PadIn) :
    XboxOneDevice :=
  -- Increment Sequence
  let sequence := (d.in_report_.header.sequence + 1) % 256
  let sequence_ := sequence
  -- Clear buttons
  let buttons0 := 0
  let buttons1 := 0
  -- Map D-Pad
  let buttons1 := orIf (gp_in.dpad &&& G.DPAD_UP ≠ 0) buttons1 X.DPAD_UP
  let buttons1 := orIf (gp_in.dpad &&& G.DPAD_DOWN ≠ 0) buttons1 X.DPAD_DOWN
  let buttons1 := orIf (gp_in.dpad &&& G.DPAD_LEFT ≠ 0) buttons1 X.DPAD_LEFT
  let buttons1 := orIf (gp_in.dpad &&& G.DPAD_RIGHT ≠ 0) buttons1 X.DPAD_RIGHT
  -- Map Buttons 0 (Main buttons)
  let buttons0 := orIf (gp_in.buttons &&& G.BUTTON_START ≠ 0) buttons0 X.START
  let buttons0 := orIf (gp_in.buttons &&& G.BUTTON_BACK ≠ 0) buttons0 X.BACK
  let buttons0 := orIf (gp_in.buttons &&& G.BUTTON_A ≠ 0) buttons0 X.A
  let buttons0 := orIf (gp_in.buttons &&& G.BUTTON_B ≠ 0) buttons0 X.B
  let buttons0 := orIf (gp_in.buttons &&& G.BUTTON_X ≠ 0) buttons0 X.X
  let buttons0 := orIf (gp_in.buttons &&& G.BUTTON_Y ≠ 0) buttons0 X.Y
  let buttons0 := orIf (gp_in.buttons &&& G.BUTTON_SYS ≠ 0) buttons0 X.GUIDE
  let buttons0 := orIf (gp_in.buttons &&& G.BUTTON_MISC ≠ 0) buttons0 X.SYNC
  -- Map Buttons 1 (Shoulders / Thumbsticks)
  let buttons1 := orIf (gp_in.buttons &&& G.BUTTON_LB ≠ 0) buttons1 X.LB
  let buttons1 := orIf (gp_in.buttons &&& G.BUTTON_RB ≠ 0) buttons1 X.RB
  let buttons1 := orIf (gp_in.buttons &&& G.BUTTON_L3 ≠ 0) buttons1 X.L3
  let buttons1 := orIf (gp_in.buttons &&& G.BUTTON_R3 ≠ 0) buttons1 X.R3
  -- Axis
  let trigger_l := (gp_in.trigger_l <<< 2) % 65536
  let trigger_r := (gp_in.trigger_r <<< 2) % 65536
  let joystick_lx := gp_in.joystick_lx
  let joystick_ly := invert gp_in.joystick_ly
  let joystick_rx := gp_in.joystick_rx
  let joystick_ry := invert gp_in.joystick_ry
  { sequence_ := sequence_
    in_report_ :=
      { header := { d.in_report_.header with sequence := sequence }
        buttons0 := buttons0, buttons1 := buttons1
        trigger_l := trigger_l, trigger_r := trigger_r
        joystick_lx := joystick_lx, joystick_ly := joystick_ly
        joystick_rx := joystick_rx, joystick_ry := joystick_ry } }

/-- The method `XboxOneDevice::process(idx, gamepad)`. -/
def XboxOneDevice.process (G : Gamepad.Masks) (X : XboxOne.Bits)
    (invert : Int → Int) (d : XboxOneDevice) (s : tud_xboxone.State)
    (_idx : Nat) (gamepad : Gamepad) : XboxOneDevice × tud_xboxone.State :=
  -- Send announce packet on first call (after USB is ready)
  let s := tud_xboxone.send_announce s
  -- Always keep receiving on OUT endpoint
  let s := tud_xboxone.receive_report s
  if gamepad.new_pad_in then
    let gp_in := gamepad.get_pad_in
    let d := XboxOneDevice.fill_report G X invert d gp_in
    -- Send Report (18 bytes)
    let s := (tud_xboxone.send_report s Mem.in_report_ d.in_report_.bytes 18).2
    (d, s)
  else (d, s)

/-! ## The XInput Guitar device (`XInputGuitar.cpp`) -/

namespace XInputGuitar

/-- The bits `XInputGuitar::Buttons0::*` and `XInputGuitar::Buttons1::*`,
declared in `Descriptors/XInputGuitar.h`. -/
structure Bits where
  DPAD_UP : Nat
  DPAD_DOWN : Nat
  DPAD_LEFT : Nat
  DPAD_RIGHT : Nat
  BACK : Nat
  START : Nat
  HOME : Nat
  LB : Nat
  RB : Nat
  A : Nat
  deriving DecidableEq, Repr

/-- Every constant fits the `uint8_t` button byte it is stored in. -/
def Bits.UInt8 (B : Bits) : Prop :=
  ∀ m ∈ [B.DPAD_UP, B.DPAD_DOWN, B.DPAD_LEFT, B.DPAD_RIGHT, B.BACK, B.START,
         B.HOME, B.LB, B.RB, B.A],
    m < 256

instance (B : Bits) : Decidable B.UInt8 := by
  unfold Bits.UInt8; infer_instance

/-- The button bits of the XInput wire format: a concrete choice of the
constants, used to evaluate the translator on examples. -/
def Bits.xinput : Bits :=
  { DPAD_UP := 0x01, DPAD_DOWN := 0x02, DPAD_LEFT := 0x04, DPAD_RIGHT := 0x08
    START := 0x10, BACK := 0x20
    LB := 0x01, RB := 0x02, HOME := 0x04, A := 0x10 }

/-- The members of `XInputGuitar::InReport` that the driver assigns. -/
structure InReport where
  buttons0 : Nat
  buttons1 : Nat
  trigger_l : Nat
  trigger_r : Nat
  joystick_lx : Int
  joystick_ly : Int
  joystick_rx : Int
  joystick_ry : Int
  deriving DecidableEq, Repr

/-- The members of `XInputGuitar::OutReport` that the driver reads. -/
structure OutReport where
  report_id : Nat
  rumble_l : Nat
  rumble_r : Nat
  deriving DecidableEq, Repr

/-- One call of the Guitar device into `tud_xinput` or the stack. -/
inductive Call where
  | remote_wakeup
  | send_report (report : InReport)
  | receive_report
  deriving DecidableEq, Repr

end XInputGuitar

/-- The members of `class XInputGuitarDevice`. -/
structure XInputGuitarDevice where
  in_report_ : XInputGuitar.InReport
  out_report_ : XInputGuitar.OutReport
  deriving DecidableEq, Repr

/-- The method `XInputGuitarDevice::process(idx, gamepad)`. `suspended` is the
answer of `tud_suspended()`; `rx` is what `tud_xinput::receive_report` does
(both defined outside this file): its result and the content of
`out_report_` after the call. Returns the device, the gamepad and the calls
made, in order. -/
def XInputGuitarDevice.process (G : Gamepad.Masks) (B : XInputGuitar.Bits)
    (invert : Int → Int) (suspended : Bool)
    (rx : Bool × XInputGuitar.OutReport) (d : XInputGuitarDevice) (_idx : Nat)
    (gamepad : Gamepad) :
    XInputGuitarDevice × Gamepad × List XInputGuitar.Call :=
  let step1 : XInputGuitarDevice × List XInputGuitar.Call :=
    if gamepad.new_pad_in then
      let buttons0 := 0
      let buttons1 := 0
      let trigger_l := 0
      let trigger_r := 0
      let gp_in := gamepad.get_pad_in
      -- Strum mapping: D-Pad Up/Down -> Strum Up/Down
      let buttons0 := orIf (gp_in.dpad &&& G.DPAD_UP ≠ 0) buttons0 B.DPAD_UP
      let buttons0 := orIf (gp_in.dpad &&& G.DPAD_DOWN ≠ 0) buttons0 B.DPAD_DOWN
      let buttons0 := orIf (gp_in.dpad &&& G.DPAD_LEFT ≠ 0) buttons0 B.DPAD_LEFT
      let buttons0 :=
        orIf (gp_in.dpad &&& G.DPAD_RIGHT ≠ 0) buttons0 B.DPAD_RIGHT
      -- Control buttons
      let buttons0 := orIf (gp_in.buttons &&& G.BUTTON_BACK ≠ 0) buttons0 B.BACK
      let buttons0 :=
        orIf (gp_in.buttons &&& G.BUTTON_START ≠ 0) buttons0 B.START
      let buttons1 := orIf (gp_in.buttons &&& G.BUTTON_SYS ≠ 0) buttons1 B.HOME
      -- PS3 Guitar buttons: Green=A, Red=B, Yellow=Y, Blue=X, Orange=LB
      let trigger_l := if gp_in.buttons &&& G.BUTTON_A ≠ 0 then 255 else trigger_l
      let buttons1 := orIf (gp_in.buttons &&& G.BUTTON_B ≠ 0) buttons1 B.LB
      let trigger_r := if gp_in.buttons &&& G.BUTTON_Y ≠ 0 then 255 else trigger_r
      let buttons1 := orIf (gp_in.buttons &&& G.BUTTON_X ≠ 0) buttons1 B.RB
      let buttons1 := orIf (gp_in.buttons &&& G.BUTTON_LB ≠ 0) buttons1 B.A
      -- Whammy bar
      let joystick_lx := gp_in.joystick_lx
      let joystick_ly := invert gp_in.joystick_ly
      let joystick_rx := gp_in.joystick_rx
      let joystick_ry := invert gp_in.joystick_ry
      let in_report_ : XInputGuitar.InReport :=
        { buttons0 := buttons0, buttons1 := buttons1
          trigger_l := trigger_l, trigger_r := trigger_r
          joystick_lx := joystick_lx, joystick_ly := joystick_ly
          joystick_rx := joystick_rx, joystick_ry := joystick_ry }
      let wake : List XInputGuitar.Call :=
        if suspended then [XInputGuitar.Call.remote_wakeup] else []
      ({ d with in_report_ := in_report_ },
       wake ++ [XInputGuitar.Call.send_report in_report_])
    else (d, [])
  let d := step1.1
  let calls := step1.2 ++ [XInputGuitar.Call.receive_report]
  let d := { d with out_report_ := rx.2 }
  if rx.1 = true ∧ d.out_report_.report_id = 0x00 then
    let gp_out : Gamepad.PadOut :=
      { rumble_l := d.out_report_.rumble_l, rumble_r := d.out_report_.rumble_r }
    (d, gamepad.set_pad_out gp_out, calls)
  else (d, gamepad, calls)

/-! ## Sessions of the Xbox One driver -/

/-- One thing that happens to the Xbox One device between two `init`s. -/
inductive Stimulus where
  /-- A tick: `XboxOneDevice::process(idx, gamepad)`. -/
  | process (idx : Nat) (gamepad : Gamepad)
  /-- The stack reports a completed transfer: `xfer_cb`. -/
  | xfer_cb (rhport ep_addr result xferred_bytes : Nat)
  /-- The stack ran `open`, whose effect on the session is the assignment of
  the endpoint handles. -/
  | opened (endpoint_in endpoint_out : Nat)
  /-- The stack and the host move on: readiness and busy endpoints change, and
  the host's bytes land in `ep_out_buffer_`. -/
  | stack (ready : Bool) (busy : List Nat) (received : List Nat)
  deriving DecidableEq, Repr

/-- The effect of one stimulus on the device and the driver. -/
def Stimulus.apply (G : Gamepad.Masks) (X : XboxOne.Bits) (invert : Int → Int)
    (sys : XboxOneDevice × tud_xboxone.State) :
    Stimulus → XboxOneDevice × tud_xboxone.State
  | Stimulus.process idx gamepad =>
      XboxOneDevice.process G X invert sys.1 sys.2 idx gamepad
  | Stimulus.xfer_cb rhport ep_addr result xferred_bytes =>
      (sys.1, (tud_xboxone.xfer_cb sys.2 rhport ep_addr result xferred_bytes).2)
  | Stimulus.opened a b =>
      (sys.1, { sys.2 with endpoint_in_ := a, endpoint_out_ := b })
  | Stimulus.stack ready busy received =>
      (sys.1, { sys.2 with
        ep_out_buffer_ := received
        usbd := { sys.2.usbd with ready := ready, busy := busy } })

/-- A session: the stimuli applied in order. -/
def session (G : Gamepad.Masks) (X : XboxOne.Bits) (invert : Int → Int)
    (sys : XboxOneDevice × tud_xboxone.State) (stimuli : List Stimulus) :
    XboxOneDevice × tud_xboxone.State :=
  stimuli.foldl (Stimulus.apply G X invert) sys

/-- How often `ANNOUNCE_PACKET` was submitted among `calls`. -/
def announces : List Call → Nat
  | [] => 0
  | Call.xfer _ Mem.ANNOUNCE_PACKET _ _ :: rest => 1 + announces rest
  | _ :: rest => announces rest

/-- The calls the driver made between state `before` and state `after`. -/
def newCalls (before after : tud_xboxone.State) : List Call :=
  after.usbd.calls.drop before.usbd.calls.length

/-- A state used to evaluate the driver on examples: handles 0x82 / 0x02
assigned, the IN endpoint free or busy, `packet` in `ep_out_buffer_`. -/
def sampleState (inBusy : Bool) (packet : List Nat) : tud_xboxone.State :=
  { endpoint_in_ := 0x82, endpoint_out_ := 0x02
    ep_in_buffer_ := memset0 64
    ep_out_buffer_ := packet ++ memset0 (64 - packet.length)
    announced_ := true
    usbd := { ready := true, busy := if inBusy then [0x82] else [], calls := [] } }

/-- A state used to evaluate the announce: the session right after `open`
(latch clear, handles 0x82 / 0x02 assigned), the device ready, and a transfer
in flight on the IN endpoint. -/
def announcePending : tud_xboxone.State :=
  { endpoint_in_ := 0x82, endpoint_out_ := 0x02
    ep_in_buffer_ := memset0 64
    ep_out_buffer_ := memset0 64
    announced_ := false
    usbd := { ready := true, busy := [0x82], calls := [] } }

/-- A gamepad without new input. -/
def idleGamepad : Gamepad :=
  { new_pad_in := false
    pad_in := { dpad := 0, buttons := 0, trigger_l := 0, trigger_r := 0
                joystick_lx := 0, joystick_ly := 0, joystick_rx := 0
                joystick_ry := 0 }
    pad_out_writes := [] }

/-- An Xbox One device whose `initialize()` has run (`sequence_` starts at 0
by its member initialiser). -/
def freshDevice : XboxOneDevice :=
  XboxOneDevice.initialize
    { sequence_ := 0
      in_report_ :=
        { header :=
            { command := 0, client := 0, needsAck := 0, internal := 0,
              chunkStart := 0, chunked := 0, sequence := 0, length := 0 }
          buttons0 := 0, buttons1 := 0, trigger_l := 0, trigger_r := 0
          joystick_lx := 0, joystick_ly := 0, joystick_rx := 0
          joystick_ry := 0 } }

/-! ## Opening the interface (`tud_xboxone::open`) -/

/-- The descriptor type `TUSB_DESC_INTERFACE` of the USB specification. -/
def TUSB_DESC_INTERFACE : Nat := 0x04

/-- The descriptor type `TUSB_DESC_ENDPOINT` of the USB specification. -/
def TUSB_DESC_ENDPOINT : Nat := 0x05

/-- The descriptor type `TUSB_DESC_CONFIGURATION` of the USB specification. -/
def TUSB_DESC_CONFIGURATION : Nat := 0x02

/-- The configuration descriptor `XboxOne::CONFIGURATION_DESCRIPTOR`
(`XboxOne.h`); interface 0 starts at offset 9. -/
def XboxOne.CONFIGURATION_DESCRIPTOR : List Nat :=
  [9, TUSB_DESC_CONFIGURATION, 0x60, 0x00, 0x03, 0x01, 0x00, 0xA0, 0xFA,
   -- Interface 0: Controller
   9, TUSB_DESC_INTERFACE, 0x00, 0x00, 0x02, 0xFF, 0x47, 0xD0, 0x00,
   7, TUSB_DESC_ENDPOINT, 0x02, 0x03, 0x40, 0x00, 0x04,
   7, TUSB_DESC_ENDPOINT, 0x82, 0x03, 0x40, 0x00, 0x01,
   -- Interface 1: Audio Alt 0
   9, TUSB_DESC_INTERFACE, 0x01, 0x00, 0x00, 0xFF, 0x47, 0xD0, 0x00,
   -- Interface 1: Audio Alt 1
   9, TUSB_DESC_INTERFACE, 0x01, 0x01, 0x02, 0xFF, 0x47, 0xD0, 0x00,
   7, TUSB_DESC_ENDPOINT, 0x05, 0x01, 0xE4, 0x00, 0x01,
   7, TUSB_DESC_ENDPOINT, 0x83, 0x01, 0xE4, 0x00, 0x01,
   -- Interface 2: Bulk Alt 0
   9, TUSB_DESC_INTERFACE, 0x02, 0x00, 0x00, 0xFF, 0x47, 0xD0, 0x00,
   -- Interface 2: Bulk Alt 1
   9, TUSB_DESC_INTERFACE, 0x02, 0x01, 0x02, 0xFF, 0x47, 0xD0, 0x00,
   7, TUSB_DESC_ENDPOINT, 0x04, 0x02, 0x40, 0x00, 0x00,
   7, TUSB_DESC_ENDPOINT, 0x84, 0x02, 0x40, 0x00, 0x00]

namespace tud_xboxone

/-- The `while` loop of `open`. `mem` is the memory that holds the
configuration descriptor and `p` the offset `current_descriptor` points to;
`tu_desc_type(p)` is the byte at `p + 1`, `tu_desc_next(p)` is `p` plus the
byte at `p`, `bEndpointAddress` is the byte at `p + 2`, and
`tu_edpt_dir(addr)` is IN when bit 7 of `addr` is set. `edpt_open addr` is the
answer of the stack's `usbd_edpt_open` for the endpoint with that address.
The result is the value returned by `open`, the session, and the addresses
handed to `usbd_edpt_open`, in order; `none` when the loop reads past the end
of `mem` or has not finished after `fuel` rounds. -/
def open_loop (edpt_open : Nat → Bool) (mem : List Nat)
    (bNumEndpoints driver_length max_length : Nat) :
    Nat → Nat → Nat → State → List Nat → Option (Nat × State × List Nat)
  | 0, _, _, _, _ => none
  | fuel + 1, p, found_endpoints, s, opened =>
    if found_endpoints < bNumEndpoints ∧ driver_length ≤ max_length then
      match mem[p + 1]? with
      | none => none
      | some type =>
        if TUSB_DESC_ENDPOINT = type then
          match mem[p + 2]? with
          | none => none
          | some bEndpointAddress =>
            -- TU_ASSERT(usbd_edpt_open(rhport, endpoint_descriptor))
            if edpt_open bEndpointAddress then
              let s1 : State :=
                if bEndpointAddress &&& 0x80 ≠ 0 then
                  { s with endpoint_in_ := bEndpointAddress }
                else { s with endpoint_out_ := bEndpointAddress }
              match mem[p]? with
              | none => none
              | some bLength =>
                open_loop edpt_open mem bNumEndpoints driver_length max_length
                  fuel (p + bLength) (found_endpoints + 1) s1
                  (opened ++ [bEndpointAddress])
            else some (0, s, opened ++ [bEndpointAddress])
        else
          match mem[p]? with
          | none => none
          | some bLength =>
            open_loop edpt_open mem bNumEndpoints driver_length max_length
              fuel (p + bLength) found_endpoints s opened
    else some (driver_length, s, opened)

/-- The `open` of the class driver. `itf` is the offset in `mem` of the
interface descriptor `itf_descriptor` points to (`bInterfaceNumber` at
`itf + 2`, `bNumEndpoints` at `itf + 4`); `sizeof(tusb_desc_interface_t)` is 9
and `sizeof(tusb_desc_endpoint_t)` is 7. See `open_loop` for the result. -/
def open_ (edpt_open : Nat → Bool) (s : State) (_rhport : Nat)
    (mem : List Nat) (itf : Nat) (max_length : Nat) (fuel : Nat) :
    Option (Nat × State × List Nat) :=
  match mem[itf + 4]?, mem[itf]?, mem[itf + 2]? with
  | some bNumEndpoints, some bLength, some bInterfaceNumber =>
    let driver_length := (9 + bNumEndpoints * 7) % 65536
    -- TU_VERIFY(max_length >= driver_length, 0)
    if ¬ (max_length ≥ driver_length) then some (0, s, [])
    else
      let current_descriptor := itf + bLength
      if bInterfaceNumber = 0 then
        open_loop edpt_open mem bNumEndpoints driver_length max_length fuel
          current_descriptor 0 s []
      else some (driver_length, s, [])
  | _, _, _ => none

/-- The handles after the endpoints with the addresses `addrs` have been
visited in order: each address is stored in `endpoint_in_` when its bit 7 is
set and in `endpoint_out_` otherwise. -/
def assignHandles (s : State) : List Nat → State
  | [] => s
  | a :: rest =>
    assignHandles
      (if a &&& 0x80 ≠ 0 then { s with endpoint_in_ := a }
       else { s with endpoint_out_ := a }) rest

end tud_xboxone

/-- A descriptor as it lies in memory: at least two bytes (three for an
endpoint descriptor), the first of which is its length. -/
def IsDescriptor (d : List Nat) : Prop :=
  2 ≤ d.length ∧ d.getD 0 0 = d.length ∧
    (d.getD 1 0 = TUSB_DESC_ENDPOINT → 3 ≤ d.length)

instance (d : List Nat) : Decidable (IsDescriptor d) := by
  unfold IsDescriptor; infer_instance

/-- The addresses of the endpoint descriptors among `descs`, in order. -/
def endpointAddresses : List (List Nat) → List Nat
  | [] => []
  | d :: rest =>
    if d.getD 1 0 = TUSB_DESC_ENDPOINT then d.getD 2 0 :: endpointAddresses rest
    else endpointAddresses rest

/-! ## Observations on the log of calls -/

/-- The submissions in `calls` made on an endpoint that is not claimed at that
moment; `claimed` lists the endpoints claimed and not yet released before the
first call. -/
def unclaimedXfers : List Nat → List Call → List Call
  | _, [] => []
  | claimed, Call.claim ep :: rest => unclaimedXfers (ep :: claimed) rest
  | claimed, Call.release ep :: rest => unclaimedXfers (claimed.erase ep) rest
  | claimed, Call.xfer ep buf len snap :: rest =>
    if ep ∈ claimed then unclaimedXfers claimed rest
    else Call.xfer ep buf len snap :: unclaimedXfers claimed rest

/-- How often `in_report_` was submitted among `calls`. -/
def inputReports : List Call → Nat
  | [] => 0
  | Call.xfer _ Mem.in_report_ _ _ :: rest => 1 + inputReports rest
  | _ :: rest => inputReports rest

/-- A call that, when it submits a GIP packet (any buffer but
`ep_out_buffer_`, which receives), submits a 4-byte header followed by as many
payload bytes as byte 3 says, with the command byte of its kind. -/
def GipFramed : Call → Prop
  | Call.xfer _ Mem.ep_in_buffer_ len snap =>
      snap.length = len ∧ len = 4 + snap.getD 3 0 ∧
      ((snap.getD 0 0 = 0x04 ∧ len = 24) ∨ (snap.getD 0 0 = 0x01 ∧ len = 5))
  | Call.xfer _ Mem.ANNOUNCE_PACKET len snap =>
      snap.length = len ∧ len = 4 + snap.getD 3 0 ∧ snap.getD 0 0 = 0x02 ∧
      len = 24
  | Call.xfer _ Mem.in_report_ len snap =>
      snap.length = len ∧ len = 4 + snap.getD 3 0 ∧ snap.getD 0 0 = 0x20 ∧
      len = 18
  | _ => True

/-- The ticks with new input among `stimuli`. -/
def newInputTicks : List Stimulus → Nat
  | [] => 0
  | Stimulus.process _ gamepad :: rest =>
      (if gamepad.new_pad_in then 1 else 0) + newInputTicks rest
  | _ :: rest => newInputTicks rest

/-- A gamepad with new input: d-pad UP and button A. -/
def pressedGamepad : Gamepad :=
  { new_pad_in := true
    pad_in := { dpad := 0x01, buttons := 0x0001, trigger_l := 0, trigger_r := 0
                joystick_lx := 100, joystick_ly := 200, joystick_rx := -300
                joystick_ry := -400 }
    pad_out_writes := [] }

/-- A Guitar device whose report still holds bits of an earlier tick. -/
def usedGuitar : XInputGuitarDevice :=
  { in_report_ :=
      { buttons0 := 0xFF, buttons1 := 0xFF, trigger_l := 77, trigger_r := 78
        joystick_lx := 0, joystick_ly := 0, joystick_rx := 0, joystick_ry := 0 }
    out_report_ := { report_id := 0, rumble_l := 0, rumble_r := 0 } }

/-- A gamepad with new input whose only pressed buttons are `buttons`. -/
def fretGamepad (buttons : Nat) : Gamepad :=
  { idleGamepad with
    new_pad_in := true
    pad_in := { idleGamepad.pad_in with buttons := buttons } }

/-- The report of a Guitar tick with the frets `buttons` pressed, for
one-bit canonical masks and the XInput button bits. -/
def fretReport (buttons : Nat) : XInputGuitar.InReport :=
  (XInputGuitarDevice.process Gamepad.Masks.oneBitEach XInputGuitar.Bits.xinput
    (fun v => -v) false (false, { report_id := 0, rumble_l := 0, rumble_r := 0 })
    usedGuitar 0 (fretGamepad buttons)).1.in_report_

/-- An Xbox One device that has seen three ticks with new input since its
`initialize()`: both sequence counters are 3. -/
def usedDevice : XboxOneDevice :=
  (session Gamepad.Masks.oneBitEach XboxOne.Bits.gip (fun v => -v)
    (freshDevice, sampleState false [])
    [Stimulus.process 0 pressedGamepad, Stimulus.process 0 pressedGamepad,
     Stimulus.process 0 pressedGamepad]).1

/-! ## Theorems -/

open tud_xboxone

/-- The calls made since `before` when the log of `after` extends it. -/
theorem newCalls_of_append (before after : State) (l : List Call)
    (h : after.usbd.calls = before.usbd.calls ++ l) : newCalls before after = l := by
  simp [newCalls, h]

/-- The test `flags & GIP_OPT_ACK` reads bit 4 of the flags byte. -/
theorem and_opt_ack_ne_zero_iff (flags : Nat) :
    flags &&& 0x10 ≠ 0 ↔ flags.testBit 4 = true := by
  have h : flags &&& 0x10 = (flags.testBit 4).toNat * 2 ^ 4 := Nat.and_two_pow flags 4
  rw [h]
  cases flags.testBit 4 <;> simp

/-- The identify arm with the IN endpoint free. -/
theorem xfer_cb_identify_free (s : State) (seq : Nat)
    (hfree : usbd_edpt_busy s.usbd s.endpoint_in_ = false) :
    xfer_cb_identify s seq =
      { s with
        ep_in_buffer_ := (memcpy s.ep_in_buffer_ IDENTIFY_RESPONSE 24).set 2 seq
        usbd :=
          { s.usbd with
            busy := if s.endpoint_in_ ∈ s.usbd.busy then s.usbd.busy
                    else s.endpoint_in_ :: s.usbd.busy
            calls := s.usbd.calls ++
              [Call.claim s.endpoint_in_,
               Call.xfer s.endpoint_in_ Mem.ep_in_buffer_ 24
                 (IDENTIFY_RESPONSE.set 2 seq),
               Call.release s.endpoint_in_] } } := by
  simp [xfer_cb_identify, hfree, usbd_edpt_claim, usbd_edpt_xfer,
    usbd_edpt_release, memcpy, IDENTIFY_RESPONSE]

/-- The identify arm with the IN endpoint busy. -/
theorem xfer_cb_identify_busy (s : State) (seq : Nat)
    (hbusy : usbd_edpt_busy s.usbd s.endpoint_in_ = true) :
    xfer_cb_identify s seq = s := by
  simp [xfer_cb_identify, hbusy]

/-- The default arm with the IN endpoint busy. -/
theorem xfer_cb_default_busy (s : State) (cmd flags seq : Nat)
    (hbusy : usbd_edpt_busy s.usbd s.endpoint_in_ = true) :
    xfer_cb_default s cmd flags seq = s := by
  simp [xfer_cb_default, hbusy]

/-- The default arm when no ACK is requested. -/
theorem xfer_cb_default_silent (s : State) (cmd flags seq : Nat)
    (hflag : flags.testBit 4 = false) :
    xfer_cb_default s cmd flags seq = s := by
  have hz : flags &&& GIP_OPT_ACK = 0 := by
    by_contra hcon
    rw [(and_opt_ack_ne_zero_iff flags).1 hcon] at hflag
    exact Bool.noConfusion hflag
  simp [xfer_cb_default, hz]

/-- The default arm when an ACK is requested and the IN endpoint is free. -/
theorem xfer_cb_default_ack (s : State) (cmd flags seq : Nat)
    (hflag : flags.testBit 4 = true)
    (hfree : usbd_edpt_busy s.usbd s.endpoint_in_ = false) :
    xfer_cb_default s cmd flags seq =
      { s with
        ep_in_buffer_ := memcpy s.ep_in_buffer_ [0x01, 0x20, seq, 0x01, cmd] 5
        usbd :=
          { s.usbd with
            busy := if s.endpoint_in_ ∈ s.usbd.busy then s.usbd.busy
                    else s.endpoint_in_ :: s.usbd.busy
            calls := s.usbd.calls ++
              [Call.claim s.endpoint_in_,
               Call.xfer s.endpoint_in_ Mem.ep_in_buffer_ 5
                 [0x01, 0x20, seq, 0x01, cmd],
               Call.release s.endpoint_in_] } } := by
  have h : ¬ (flags &&& GIP_OPT_ACK = 0) := (and_opt_ack_ne_zero_iff flags).2 hflag
  simp [xfer_cb_default, h, hfree, usbd_edpt_claim, usbd_edpt_xfer,
    usbd_edpt_release, memcpy, GIP_CMD_ACK, GIP_OPT_INTERNAL]

/-- A completed OUT transfer of at least one byte: dispatch, then re-arm. -/
theorem xfer_cb_out (s : State) (rhport result n : Nat) (hn : 0 < n) :
    xfer_cb s rhport s.endpoint_out_ result n =
      (true,
        let s1 :=
          if s.ep_out_buffer_.getD 0 0 = GIP_CMD_IDENTIFY then
            xfer_cb_identify s (s.ep_out_buffer_.getD 2 0)
          else xfer_cb_default s (s.ep_out_buffer_.getD 0 0)
                 (s.ep_out_buffer_.getD 1 0) (s.ep_out_buffer_.getD 2 0)
        { s1 with
          usbd := usbd_edpt_xfer s1.usbd s1.endpoint_out_ Mem.ep_out_buffer_
                    ENDPOINT_SIZE s1.ep_out_buffer_ }) := by
  unfold xfer_cb
  rw [if_pos ⟨rfl, hn⟩]

/-- The calls of `xfer_cb` for IDENTIFY with the IN endpoint free. -/
theorem xfer_cb_calls_identify (s : State) (rhport result n flags S : Nat)
    (rest : List Nat) (hn : 0 < n)
    (hbuf : s.ep_out_buffer_ = 0x04 :: flags :: S :: rest)
    (hfree : usbd_edpt_busy s.usbd s.endpoint_in_ = false) :
    newCalls s (xfer_cb s rhport s.endpoint_out_ result n).2 =
      [Call.claim s.endpoint_in_,
       Call.xfer s.endpoint_in_ Mem.ep_in_buffer_ 24 (IDENTIFY_RESPONSE.set 2 S),
       Call.release s.endpoint_in_,
       Call.xfer s.endpoint_out_ Mem.ep_out_buffer_ 64
         (s.ep_out_buffer_.take 64)] := by
  have hcmd : s.ep_out_buffer_.getD 0 0 = GIP_CMD_IDENTIFY := by rw [hbuf]; rfl
  have hseq : s.ep_out_buffer_.getD 2 0 = S := by rw [hbuf]; rfl
  apply newCalls_of_append
  rw [xfer_cb_out s rhport result n hn]
  simp only [hcmd, if_true, hseq, xfer_cb_identify_free s S hfree]
  simp [usbd_edpt_xfer, ENDPOINT_SIZE]

/-- The calls of `xfer_cb` for another command that requests an ACK, with the
IN endpoint free. -/
theorem xfer_cb_calls_ack (s : State) (rhport result n C flags S : Nat)
    (rest : List Nat) (hn : 0 < n)
    (hbuf : s.ep_out_buffer_ = C :: flags :: S :: rest)
    (hC : C ≠ 0x04) (hflag : flags.testBit 4 = true)
    (hfree : usbd_edpt_busy s.usbd s.endpoint_in_ = false) :
    newCalls s (xfer_cb s rhport s.endpoint_out_ result n).2 =
      [Call.claim s.endpoint_in_,
       Call.xfer s.endpoint_in_ Mem.ep_in_buffer_ 5 [0x01, 0x20, S, 0x01, C],
       Call.release s.endpoint_in_,
       Call.xfer s.endpoint_out_ Mem.ep_out_buffer_ 64
         (s.ep_out_buffer_.take 64)] := by
  have hcmd : s.ep_out_buffer_.getD 0 0 = C := by rw [hbuf]; rfl
  have hfl : s.ep_out_buffer_.getD 1 0 = flags := by rw [hbuf]; rfl
  have hseq : s.ep_out_buffer_.getD 2 0 = S := by rw [hbuf]; rfl
  have hne : ¬ (C = GIP_CMD_IDENTIFY) := hC
  apply newCalls_of_append
  rw [xfer_cb_out s rhport result n hn]
  simp only [hcmd, hfl, hseq, if_neg hne, xfer_cb_default_ack s C flags S hflag hfree]
  simp [usbd_edpt_xfer, ENDPOINT_SIZE]

/-- The effect of `xfer_cb` for another command that requests no ACK. -/
theorem xfer_cb_calls_silent (s : State) (rhport result n C flags S : Nat)
    (rest : List Nat) (hn : 0 < n)
    (hbuf : s.ep_out_buffer_ = C :: flags :: S :: rest)
    (hC : C ≠ 0x04) (hflag : flags.testBit 4 = false) :
    newCalls s (xfer_cb s rhport s.endpoint_out_ result n).2 =
      [Call.xfer s.endpoint_out_ Mem.ep_out_buffer_ 64
         (s.ep_out_buffer_.take 64)] ∧
    (xfer_cb s rhport s.endpoint_out_ result n).2.ep_in_buffer_ =
      s.ep_in_buffer_ := by
  have hcmd : s.ep_out_buffer_.getD 0 0 = C := by rw [hbuf]; rfl
  have hfl : s.ep_out_buffer_.getD 1 0 = flags := by rw [hbuf]; rfl
  have hne : ¬ (C = GIP_CMD_IDENTIFY) := hC
  rw [xfer_cb_out s rhport result n hn]
  simp only [hcmd, hfl, if_neg hne, xfer_cb_default_silent s C flags _ hflag]
  refine ⟨?_, trivial⟩
  apply newCalls_of_append
  simp [usbd_edpt_xfer, ENDPOINT_SIZE]

/-- The effect of `xfer_cb` on a completed OUT transfer while the IN endpoint
is busy: whatever the packet, only the OUT endpoint is re-armed. -/
theorem xfer_cb_calls_busy (s : State) (rhport result n : Nat) (hn : 0 < n)
    (hbusy : usbd_edpt_busy s.usbd s.endpoint_in_ = true) :
    newCalls s (xfer_cb s rhport s.endpoint_out_ result n).2 =
      [Call.xfer s.endpoint_out_ Mem.ep_out_buffer_ 64
         (s.ep_out_buffer_.take 64)] ∧
    (xfer_cb s rhport s.endpoint_out_ result n).2.ep_in_buffer_ =
      s.ep_in_buffer_ := by
  rw [xfer_cb_out s rhport result n hn]
  simp only [xfer_cb_identify_busy s _ hbusy, xfer_cb_default_busy s _ _ _ hbusy,
    ite_self]
  refine ⟨?_, trivial⟩
  apply newCalls_of_append
  simp [usbd_edpt_xfer, ENDPOINT_SIZE]

/-- C1: on a completed OUT transfer of at least one byte whose command byte is
0x04 (IDENTIFY), whatever the flags byte and the sequence byte `S`, with the IN
endpoint not busy, `xfer_cb` returns true and makes exactly these calls: claim
IN, submit on IN the 24 bytes of `IDENTIFY_RESPONSE` with byte 2 replaced by
`S`, release IN, then re-arm OUT. It is the only submission on the IN
endpoint. -/
theorem C1_identify_response (s : State) (rhport result n flags S : Nat)
    (rest : List Nat) (hn : 0 < n)
    (hbuf : s.ep_out_buffer_ = 0x04 :: flags :: S :: rest)
    (hfree : usbd_edpt_busy s.usbd s.endpoint_in_ = false) :
    (xfer_cb s rhport s.endpoint_out_ result n).1 = true ∧
    newCalls s (xfer_cb s rhport s.endpoint_out_ result n).2 =
      [Call.claim s.endpoint_in_,
       Call.xfer s.endpoint_in_ Mem.ep_in_buffer_ 24
         [0x04, 0x20, S, 0x14, 0x00, 0x01, 0x5E, 0x04, 0xEA, 0x02, 0x19, 0x01,
          0x00, 0x01, 0x01, 0x00, 0x00, 0x00, 0x00, 0x00, 0x00, 0x00, 0x00, 0x00],
       Call.release s.endpoint_in_,
       Call.xfer s.endpoint_out_ Mem.ep_out_buffer_ 64
         (s.ep_out_buffer_.take 64)] ∧
    (s.endpoint_in_ ≠ s.endpoint_out_ →
      xfersOn s.endpoint_in_
          (newCalls s (xfer_cb s rhport s.endpoint_out_ result n).2) =
        [(Mem.ep_in_buffer_, 24, IDENTIFY_RESPONSE.set 2 S)]) ∧
    (IDENTIFY_RESPONSE.set 2 S).length = 24 ∧
    (IDENTIFY_RESPONSE.set 2 S).getD 2 0 = S ∧
    (∀ i, i ≠ 2 →
      (IDENTIFY_RESPONSE.set 2 S).getD i 0 = IDENTIFY_RESPONSE.getD i 0) := by
  have hcalls := xfer_cb_calls_identify s rhport result n flags S rest hn hbuf hfree
  refine ⟨?_, ?_, ?_, ?_, ?_, ?_⟩
  · rw [xfer_cb_out s rhport result n hn]
  · rw [hcalls]; rfl
  · intro hne
    rw [hcalls]
    simp [xfersOn, hne, Ne.symm hne]
  · simp [IDENTIFY_RESPONSE]
  · simp [IDENTIFY_RESPONSE]
  · intro i hi
    simp only [List.getD_eq_getElem?_getD]
    rw [List.getElem?_set_ne (Ne.symm hi)]

/-- C1 at a concrete input: IDENTIFY with sequence 7 and the ACK flag clear. -/
theorem C1_identify_response_witness :
    (xfer_cb (sampleState false [0x04, 0x00, 7]) 0 0x02 0 3).1 = true ∧
    xfersOn 0x82 (newCalls (sampleState false [0x04, 0x00, 7])
        (xfer_cb (sampleState false [0x04, 0x00, 7]) 0 0x02 0 3).2) =
      [(Mem.ep_in_buffer_, 24, IDENTIFY_RESPONSE.set 2 7)] :=
  have h := C1_identify_response (sampleState false [0x04, 0x00, 7]) 0 0 3 0x00 7
    (memset0 61) (by decide) (by decide) (by decide)
  ⟨h.1, h.2.2.1 (by decide)⟩

/-- C2, as stated, fails for the command byte 0x04: with flags bit 4 set,
sequence 7 and the IN endpoint free, `xfer_cb` submits the 24-byte identify
response on the IN endpoint, not the 5 bytes 01 20 07 01 04. -/
theorem C2_counterexample :
    (sampleState false [0x04, 0x10, 7]).ep_out_buffer_.getD 0 0 = 0x04 ∧
    Nat.testBit ((sampleState false [0x04, 0x10, 7]).ep_out_buffer_.getD 1 0) 4 = true ∧
    usbd_edpt_busy (sampleState false [0x04, 0x10, 7]).usbd 0x82 = false ∧
    xfersOn 0x82 (newCalls (sampleState false [0x04, 0x10, 7])
        (xfer_cb (sampleState false [0x04, 0x10, 7]) 0 0x02 0 3).2) =
      [(Mem.ep_in_buffer_, 24,
        [0x04, 0x20, 7, 0x14, 0x00, 0x01, 0x5E, 0x04, 0xEA, 0x02, 0x19, 0x01,
         0x00, 0x01, 0x01, 0x00, 0x00, 0x00, 0x00, 0x00, 0x00, 0x00, 0x00, 0x00])] ∧
    xfersOn 0x82 (newCalls (sampleState false [0x04, 0x10, 7])
        (xfer_cb (sampleState false [0x04, 0x10, 7]) 0 0x02 0 3).2) ≠
      [(Mem.ep_in_buffer_, 5, [0x01, 0x20, 7, 0x01, 0x04])] := by
  decide

/-- C2, amended: on a completed OUT transfer of at least one byte whose flags
byte has bit 4 (0x10) set, for every command byte `C` other than 0x04
(IDENTIFY) and every sequence byte `S`, with the IN endpoint free, `xfer_cb`
makes exactly these calls: claim IN, submit on IN the 5 bytes
01 20 S 01 C, release IN, then re-arm OUT. -/
theorem C2_ack_for_other_commands (s : State) (rhport result n C flags S : Nat)
    (rest : List Nat) (hn : 0 < n)
    (hbuf : s.ep_out_buffer_ = C :: flags :: S :: rest)
    (hC : C ≠ 0x04) (hflag : flags.testBit 4 = true)
    (hfree : usbd_edpt_busy s.usbd s.endpoint_in_ = false) :
    newCalls s (xfer_cb s rhport s.endpoint_out_ result n).2 =
      [Call.claim s.endpoint_in_,
       Call.xfer s.endpoint_in_ Mem.ep_in_buffer_ 5 [0x01, 0x20, S, 0x01, C],
       Call.release s.endpoint_in_,
       Call.xfer s.endpoint_out_ Mem.ep_out_buffer_ 64
         (s.ep_out_buffer_.take 64)] ∧
    (s.endpoint_in_ ≠ s.endpoint_out_ →
      xfersOn s.endpoint_in_
          (newCalls s (xfer_cb s rhport s.endpoint_out_ result n).2) =
        [(Mem.ep_in_buffer_, 5, [0x01, 0x20, S, 0x01, C])]) := by
  have hcalls :=
    xfer_cb_calls_ack s rhport result n C flags S rest hn hbuf hC hflag hfree
  refine ⟨hcalls, ?_⟩
  intro hio
  rw [hcalls]
  simp [xfersOn, hio, Ne.symm hio]

/-- C2 (amended) at a concrete input: POWER (0x05) with the ACK flag set and
sequence 9. -/
theorem C2_ack_for_other_commands_witness :
    xfersOn 0x82 (newCalls (sampleState false [0x05, 0x10, 9])
        (xfer_cb (sampleState false [0x05, 0x10, 9]) 0 0x02 0 3).2) =
      [(Mem.ep_in_buffer_, 5, [0x01, 0x20, 9, 0x01, 0x05])] :=
  (C2_ack_for_other_commands (sampleState false [0x05, 0x10, 9]) 0 0 3 0x05 0x10 9
    (memset0 61) (by decide) (by decide) (by decide) (by decide) (by decide)).2
    (by decide)

/-- C3: on a completed OUT transfer of at least one byte whose command byte is
not 0x04 (known or unknown), with the IN endpoint free, `xfer_cb` returns true;
if flags bit 4 is set it claims the IN endpoint and submits on it, and if the
bit is clear its only call is the re-arm of the OUT endpoint (no claim, no
submission on IN) and `ep_in_buffer_` is unchanged. With distinct handles, it
submits on the IN endpoint if and only if bit 4 is set. -/
theorem C3_ack_or_silence (s : State) (rhport result n C flags S : Nat)
    (rest : List Nat) (hn : 0 < n)
    (hbuf : s.ep_out_buffer_ = C :: flags :: S :: rest)
    (hC : C ≠ 0x04)
    (hfree : usbd_edpt_busy s.usbd s.endpoint_in_ = false) :
    (xfer_cb s rhport s.endpoint_out_ result n).1 = true ∧
    (flags.testBit 4 = true →
      newCalls s (xfer_cb s rhport s.endpoint_out_ result n).2 =
        [Call.claim s.endpoint_in_,
         Call.xfer s.endpoint_in_ Mem.ep_in_buffer_ 5 [0x01, 0x20, S, 0x01, C],
         Call.release s.endpoint_in_,
         Call.xfer s.endpoint_out_ Mem.ep_out_buffer_ 64
           (s.ep_out_buffer_.take 64)]) ∧
    (flags.testBit 4 = false →
      newCalls s (xfer_cb s rhport s.endpoint_out_ result n).2 =
        [Call.xfer s.endpoint_out_ Mem.ep_out_buffer_ 64
           (s.ep_out_buffer_.take 64)] ∧
      (xfer_cb s rhport s.endpoint_out_ result n).2.ep_in_buffer_ =
        s.ep_in_buffer_) ∧
    (s.endpoint_in_ ≠ s.endpoint_out_ →
      (xfersOn s.endpoint_in_
          (newCalls s (xfer_cb s rhport s.endpoint_out_ result n).2) ≠ [] ↔
        flags.testBit 4 = true) ∧
      (flags.testBit 4 = false →
        claimsOn s.endpoint_in_
          (newCalls s (xfer_cb s rhport s.endpoint_out_ result n).2) = 0)) := by
  have hset := xfer_cb_calls_ack s rhport result n C flags S rest hn hbuf hC
  have hclear := xfer_cb_calls_silent s rhport result n C flags S rest hn hbuf hC
  refine ⟨?_, fun h => hset h hfree, hclear, ?_⟩
  · rw [xfer_cb_out s rhport result n hn]
  · intro hio
    constructor
    · constructor
      · intro hx
        by_contra hflag
        have hf : flags.testBit 4 = false := by simpa using hflag
        rw [(hclear hf).1] at hx
        simp [xfersOn, Ne.symm hio] at hx
      · intro hflag
        rw [hset hflag hfree]
        simp [xfersOn, hio, Ne.symm hio]
    · intro hf
      rw [(hclear hf).1]
      simp [claimsOn]

/-- C3 at a concrete input: the unknown command 0x7E with the ACK flag clear
leaves the IN endpoint alone. -/
theorem C3_ack_or_silence_witness :
    (xfer_cb (sampleState false [0x7E, 0x20, 3]) 0 0x02 0 3).1 = true ∧
    newCalls (sampleState false [0x7E, 0x20, 3])
        (xfer_cb (sampleState false [0x7E, 0x20, 3]) 0 0x02 0 3).2 =
      [Call.xfer 0x02 Mem.ep_out_buffer_ 64 ([0x7E, 0x20, 3] ++ memset0 61)] :=
  have h := C3_ack_or_silence (sampleState false [0x7E, 0x20, 3]) 0 0 3 0x7E 0x20 3
    (memset0 61) (by decide) (by decide) (by decide) (by decide)
  ⟨h.1, (h.2.2.1 (by decide)).1⟩

/-- C4: on every completed OUT transfer of at least one byte, whatever the
packet and whether the IN endpoint is busy or free, the last call of `xfer_cb`
is the submission of a receive on the OUT endpoint into `ep_out_buffer_` with
length 64; before it `xfer_cb` made either no call or the claim, submission
(of `ep_in_buffer_`) and release of its response on the IN endpoint, so it is
the only submission of `ep_out_buffer_`. -/
theorem C4_rearm_out (s : State) (rhport result n : Nat) (hn : 0 < n) :
    ∃ pre : List Call,
      newCalls s (xfer_cb s rhport s.endpoint_out_ result n).2 =
        pre ++ [Call.xfer s.endpoint_out_ Mem.ep_out_buffer_ ENDPOINT_SIZE
                  (s.ep_out_buffer_.take 64)] ∧
      ENDPOINT_SIZE = 64 ∧
      (pre = [] ∨
        ∃ len data, pre =
          [Call.claim s.endpoint_in_,
           Call.xfer s.endpoint_in_ Mem.ep_in_buffer_ len data,
           Call.release s.endpoint_in_]) ∧
      (usbd_edpt_busy s.usbd s.endpoint_in_ = true → pre = []) := by
  rw [xfer_cb_out s rhport result n hn]
  cases hb : usbd_edpt_busy s.usbd s.endpoint_in_
  · -- IN endpoint free
    by_cases hcmd : s.ep_out_buffer_.getD 0 0 = GIP_CMD_IDENTIFY
    · refine ⟨[Call.claim s.endpoint_in_,
          Call.xfer s.endpoint_in_ Mem.ep_in_buffer_ 24
            (IDENTIFY_RESPONSE.set 2 (s.ep_out_buffer_.getD 2 0)),
          Call.release s.endpoint_in_], ?_, rfl, Or.inr ⟨_, _, rfl⟩, ?_⟩
      · apply newCalls_of_append
        simp only [hcmd, if_true, xfer_cb_identify_free s _ hb]
        simp [usbd_edpt_xfer, ENDPOINT_SIZE]
      · intro h; exact Bool.noConfusion h
    · cases hf : (s.ep_out_buffer_.getD 1 0).testBit 4
      · refine ⟨[], ?_, rfl, Or.inl rfl, fun _ => rfl⟩
        apply newCalls_of_append
        simp only [if_neg hcmd, xfer_cb_default_silent s _ _ _ hf]
        simp [usbd_edpt_xfer, ENDPOINT_SIZE]
      · refine ⟨[Call.claim s.endpoint_in_,
            Call.xfer s.endpoint_in_ Mem.ep_in_buffer_ 5
              [0x01, 0x20, s.ep_out_buffer_.getD 2 0, 0x01,
               s.ep_out_buffer_.getD 0 0],
            Call.release s.endpoint_in_], ?_, rfl, Or.inr ⟨_, _, rfl⟩, ?_⟩
        · apply newCalls_of_append
          simp only [if_neg hcmd, xfer_cb_default_ack s _ _ _ hf hb]
          simp [usbd_edpt_xfer, ENDPOINT_SIZE]
        · intro h; exact Bool.noConfusion h
  · -- IN endpoint busy
    refine ⟨[], ?_, rfl, Or.inl rfl, fun _ => rfl⟩
    apply newCalls_of_append
    simp only [xfer_cb_identify_busy s _ hb, xfer_cb_default_busy s _ _ _ hb, ite_self]
    simp [usbd_edpt_xfer, ENDPOINT_SIZE]

/-- C4 at a concrete input: IDENTIFY while the IN endpoint is busy still
re-arms the OUT endpoint, and that is all it does. -/
theorem C4_rearm_out_witness :
    newCalls (sampleState true [0x04, 0x10, 7])
        (xfer_cb (sampleState true [0x04, 0x10, 7]) 0 0x02 0 3).2 =
      [Call.xfer 0x02 Mem.ep_out_buffer_ 64 ([0x04, 0x10, 7] ++ memset0 61)] :=
  match C4_rearm_out (sampleState true [0x04, 0x10, 7]) 0 0 3 (by decide) with
  | ⟨_, h1, _, _, h4⟩ => h1.trans (by rw [h4 (by decide)]; rfl)

/-- C5: while the IN endpoint is busy, (a) `xfer_cb` on a completed OUT
transfer, whatever the packet, only re-arms the OUT endpoint (no claim, no
submission on IN) and leaves `ep_in_buffer_` unchanged, and (b) `send_report`
returns false and changes nothing. After such a dropped response, once the
stack has freed the IN endpoint and the host's next packet has landed, `xfer_cb`
submits exactly the response of that packet: the identify response with its
sequence, or the ACK with its sequence and command. -/
theorem C5_busy_is_noop (s : State) (rhport result n : Nat) (hn : 0 < n)
    (hbusy : usbd_edpt_busy s.usbd s.endpoint_in_ = true)
    (src : Mem) (report : List Nat) (len : Nat) :
    (newCalls s (xfer_cb s rhport s.endpoint_out_ result n).2 =
        [Call.xfer s.endpoint_out_ Mem.ep_out_buffer_ 64
           (s.ep_out_buffer_.take 64)] ∧
      (xfer_cb s rhport s.endpoint_out_ result n).2.ep_in_buffer_ =
        s.ep_in_buffer_) ∧
    send_report s src report len = (false, s) ∧
    (∀ (ready : Bool) (busy received : List Nat) (rhport2 result2 n2 : Nat),
      0 < n2 → s.endpoint_in_ ∉ busy →
      ∀ s2 : State,
        s2 = { (xfer_cb s rhport s.endpoint_out_ result n).2 with
                ep_out_buffer_ := received
                usbd := { (xfer_cb s rhport s.endpoint_out_ result n).2.usbd with
                          ready := ready, busy := busy } } →
        (∀ flags S rest, received = 0x04 :: flags :: S :: rest →
          newCalls s2 (xfer_cb s2 rhport2 s2.endpoint_out_ result2 n2).2 =
            [Call.claim s.endpoint_in_,
             Call.xfer s.endpoint_in_ Mem.ep_in_buffer_ 24
               (IDENTIFY_RESPONSE.set 2 S),
             Call.release s.endpoint_in_,
             Call.xfer s.endpoint_out_ Mem.ep_out_buffer_ 64
               (received.take 64)]) ∧
        (∀ C flags S rest, received = C :: flags :: S :: rest → C ≠ 0x04 →
          flags.testBit 4 = true →
          newCalls s2 (xfer_cb s2 rhport2 s2.endpoint_out_ result2 n2).2 =
            [Call.claim s.endpoint_in_,
             Call.xfer s.endpoint_in_ Mem.ep_in_buffer_ 5
               [0x01, 0x20, S, 0x01, C],
             Call.release s.endpoint_in_,
             Call.xfer s.endpoint_out_ Mem.ep_out_buffer_ 64
               (received.take 64)])) := by
  refine ⟨xfer_cb_calls_busy s rhport result n hn hbusy, ?_, ?_⟩
  · have hb : s.endpoint_in_ ∈ s.usbd.busy := by
      simpa [usbd_edpt_busy] using hbusy
    simp [send_report, usbd_edpt_busy, hb]
  · intro ready busy received rhport2 result2 n2 hn2 hfree s2 hs2
    have hin : s2.endpoint_in_ = s.endpoint_in_ := by
      rw [hs2, xfer_cb_out s rhport result n hn]
      simp only [xfer_cb_identify_busy s _ hbusy, xfer_cb_default_busy s _ _ _ hbusy,
        ite_self]
    have hout : s2.endpoint_out_ = s.endpoint_out_ := by
      rw [hs2, xfer_cb_out s rhport result n hn]
      simp only [xfer_cb_identify_busy s _ hbusy, xfer_cb_default_busy s _ _ _ hbusy,
        ite_self]
    have hrecv : s2.ep_out_buffer_ = received := by rw [hs2]
    have hfree2 : usbd_edpt_busy s2.usbd s2.endpoint_in_ = false := by
      rw [hin, hs2]
      simpa [usbd_edpt_busy] using hfree
    constructor
    · intro flags S rest hpkt
      have h := xfer_cb_calls_identify s2 rhport2 result2 n2 flags S rest hn2
        (hrecv.trans hpkt) hfree2
      rw [hin, hout, hrecv] at h
      rw [hout]
      exact h
    · intro C flags S rest hpkt hC hflag
      have h := xfer_cb_calls_ack s2 rhport2 result2 n2 C flags S rest hn2
        (hrecv.trans hpkt) hC hflag hfree2
      rw [hin, hout, hrecv] at h
      rw [hout]
      exact h

/-- C5 at a concrete input: an ACK-requesting POWER packet arrives while the
IN endpoint is busy, and an input report cannot be sent either. -/
theorem C5_busy_is_noop_witness :
    newCalls (sampleState true [0x05, 0x10, 9])
        (xfer_cb (sampleState true [0x05, 0x10, 9]) 0 0x02 0 3).2 =
      [Call.xfer 0x02 Mem.ep_out_buffer_ 64 ([0x05, 0x10, 9] ++ memset0 61)] ∧
    send_report (sampleState true [0x05, 0x10, 9]) Mem.in_report_ [0x20, 0, 1, 14] 4 =
      (false, sampleState true [0x05, 0x10, 9]) :=
  have h := C5_busy_is_noop (sampleState true [0x05, 0x10, 9]) 0 0 3 (by decide)
    (by decide) Mem.in_report_ [0x20, 0, 1, 14] 4
  ⟨h.1.1, h.2.1⟩

/-- Counting announce submissions distributes over concatenation. -/
theorem announces_append (l₁ l₂ : List Call) :
    announces (l₁ ++ l₂) = announces l₁ + announces l₂ := by
  induction l₁ with
  | nil => simp [announces]
  | cons c l ih =>
    cases c with
    | claim ep => simpa [announces] using ih
    | release ep => simpa [announces] using ih
    | xfer ep buf len snap =>
      cases buf <;> simp [announces, ih]
      omega

/-- What `send_report` does to the latch and to the number of announce
submissions: none unless it is handed `ANNOUNCE_PACKET`. -/
theorem send_report_announces (s : State) (src : Mem) (report : List Nat)
    (len : Nat) :
    (send_report s src report len).2.announced_ = s.announced_ ∧
    announces s.usbd.calls ≤ announces (send_report s src report len).2.usbd.calls ∧
    announces (send_report s src report len).2.usbd.calls ≤
      announces s.usbd.calls + 1 ∧
    (src ≠ Mem.ANNOUNCE_PACKET →
      announces (send_report s src report len).2.usbd.calls =
        announces s.usbd.calls) := by
  unfold send_report
  split
  · cases src <;>
      simp [usbd_edpt_claim, usbd_edpt_xfer, usbd_edpt_release, announces_append,
        announces]
  · simp

/-- The potential that `send_announce` never increases: submissions so far,
plus one while the latch is clear. -/
theorem send_announce_announces (s : State) :
    announces (send_announce s).usbd.calls +
        (if (send_announce s).announced_ then 0 else 1) ≤
      announces s.usbd.calls + (if s.announced_ then 0 else 1) ∧
    announces s.usbd.calls ≤ announces (send_announce s).usbd.calls ∧
    (s.announced_ = true → (send_announce s).announced_ = true) := by
  have h := send_report_announces s Mem.ANNOUNCE_PACKET ANNOUNCE_PACKET
    ANNOUNCE_PACKET.length
  unfold send_announce
  split
  · rename_i hc
    have hl : s.announced_ = false := by simpa using hc.1
    simp only [hl, if_true]
    refine ⟨?_, h.2.1, ?_⟩
    · simpa using h.2.2.1
    · intro hcon; exact Bool.noConfusion hcon
  · exact ⟨le_refl _, le_refl _, fun h => h⟩

/-- The helper `receive_report` submits no announce and keeps the latch. -/
theorem receive_report_announces (s : State) :
    (receive_report s).announced_ = s.announced_ ∧
    announces (receive_report s).usbd.calls = announces s.usbd.calls := by
  unfold receive_report
  split
  · simp [usbd_edpt_claim, usbd_edpt_xfer, usbd_edpt_release, announces_append,
      announces]
  · simp

/-- The callback `xfer_cb` submits no announce and keeps the latch. -/
theorem xfer_cb_announces (s : State) (rhport ep_addr result n : Nat) :
    (xfer_cb s rhport ep_addr result n).2.announced_ = s.announced_ ∧
    announces (xfer_cb s rhport ep_addr result n).2.usbd.calls =
      announces s.usbd.calls := by
  have hid : ∀ seq, (xfer_cb_identify s seq).announced_ = s.announced_ ∧
      (xfer_cb_identify s seq).endpoint_out_ = s.endpoint_out_ ∧
      announces (xfer_cb_identify s seq).usbd.calls = announces s.usbd.calls := by
    intro seq
    unfold xfer_cb_identify
    split
    · simp [usbd_edpt_claim, usbd_edpt_xfer, usbd_edpt_release, announces_append,
        announces]
    · simp
  have hdf : ∀ cmd flags seq,
      (xfer_cb_default s cmd flags seq).announced_ = s.announced_ ∧
      (xfer_cb_default s cmd flags seq).endpoint_out_ = s.endpoint_out_ ∧
      announces (xfer_cb_default s cmd flags seq).usbd.calls =
        announces s.usbd.calls := by
    intro cmd flags seq
    unfold xfer_cb_default
    split
    · split
      · simp [usbd_edpt_claim, usbd_edpt_xfer, usbd_edpt_release, announces_append,
          announces]
      · simp
    · simp
  unfold xfer_cb
  split
  · by_cases hc : s.ep_out_buffer_.getD 0 0 = GIP_CMD_IDENTIFY
    · simp only [hc, if_true]
      simp [usbd_edpt_xfer, announces_append, announces, hid]
    · simp only [if_neg hc]
      simp [usbd_edpt_xfer, announces_append, announces, hdf]
  · simp

/-- One stimulus never increases the potential, never removes a submission
and never clears the latch. -/
theorem apply_announces (G : Gamepad.Masks) (X : XboxOne.Bits)
    (invert : Int → Int) (sys : XboxOneDevice × State) (st : Stimulus) :
    announces (Stimulus.apply G X invert sys st).2.usbd.calls +
        (if (Stimulus.apply G X invert sys st).2.announced_ then 0 else 1) ≤
      announces sys.2.usbd.calls + (if sys.2.announced_ then 0 else 1) ∧
    announces sys.2.usbd.calls ≤
      announces (Stimulus.apply G X invert sys st).2.usbd.calls ∧
    (sys.2.announced_ = true →
      (Stimulus.apply G X invert sys st).2.announced_ = true) := by
  cases st with
  | process idx gamepad =>
    have ha := send_announce_announces sys.2
    have hr := receive_report_announces (send_announce sys.2)
    have hs := send_report_announces (receive_report (send_announce sys.2))
      Mem.in_report_
      (XboxOneDevice.fill_report G X invert sys.1 gamepad.get_pad_in).in_report_.bytes
      18
    have hs4 := hs.2.2.2 (by decide)
    simp only [Stimulus.apply, XboxOneDevice.process]
    split
    · simp only [hs.1, hs4, hr.1, hr.2]
      exact ha
    · simp only [hr.1, hr.2]
      exact ha
  | xfer_cb rhport ep_addr result n =>
    have h := xfer_cb_announces sys.2 rhport ep_addr result n
    simp only [Stimulus.apply, h.1, h.2]
    exact ⟨le_refl _, le_refl _, fun h => h⟩
  | opened a b =>
    simp only [Stimulus.apply]
    exact ⟨le_refl _, le_refl _, fun h => h⟩
  | stack ready busy received =>
    simp only [Stimulus.apply]
    exact ⟨le_refl _, le_refl _, fun h => h⟩

/-- A whole session never increases the potential, never removes a submission
and never clears the latch. -/
theorem session_announces (G : Gamepad.Masks) (X : XboxOne.Bits)
    (invert : Int → Int) (stimuli : List Stimulus) :
    ∀ sys : XboxOneDevice × State,
      announces (session G X invert sys stimuli).2.usbd.calls +
          (if (session G X invert sys stimuli).2.announced_ then 0 else 1) ≤
        announces sys.2.usbd.calls + (if sys.2.announced_ then 0 else 1) ∧
      announces sys.2.usbd.calls ≤
        announces (session G X invert sys stimuli).2.usbd.calls ∧
      (sys.2.announced_ = true →
        (session G X invert sys stimuli).2.announced_ = true) := by
  induction stimuli with
  | nil =>
    intro sys
    exact ⟨le_refl _, le_refl _, fun h => h⟩
  | cons st rest ih =>
    intro sys
    have h1 := apply_announces G X invert sys st
    have h2 := ih (Stimulus.apply G X invert sys st)
    have e : session G X invert sys (st :: rest) =
        session G X invert (Stimulus.apply G X invert sys st) rest := rfl
    rw [e]
    exact ⟨le_trans h2.1 h1.1, le_trans h1.2.1 h2.2.1, fun h => h2.2.2 (h1.2.2 h)⟩

/-- C7, as stated, fails: `send_announce` runs with the latch clear, the device
ready and the IN handle assigned while the IN endpoint is busy. Nothing is
submitted, yet the latch does not stay clear: it is set, and the following
ticks, which find the IN endpoint free, do not attempt the announce again. -/
theorem C7_counterexample :
    announcePending.announced_ = false ∧
    tud_ready announcePending.usbd = true ∧
    announcePending.endpoint_in_ ≠ 0xFF ∧
    usbd_edpt_busy announcePending.usbd announcePending.endpoint_in_ = true ∧
    (send_announce announcePending).usbd.calls = [] ∧
    (send_announce announcePending).announced_ = true ∧
    announces (session Gamepad.Masks.oneBitEach XboxOne.Bits.gip (fun v => -v)
      (freshDevice, announcePending)
      [Stimulus.process 0 idleGamepad, Stimulus.stack true [] (memset0 64),
       Stimulus.process 1 idleGamepad,
       Stimulus.process 2 idleGamepad]).2.usbd.calls = 0 := by
  decide

/-- C7, amended: if `send_announce` runs while not yet announced, with the
device ready and the IN endpoint assigned but busy, nothing is submitted and
`announced_` is set all the same; the announce is then not submitted in the
rest of the session, whatever happens (until `init`, `deinit` or `reset`
clears the latch). In general `announced_` is true after `send_announce`
exactly when it was true before or the device was ready with the IN endpoint
assigned, and whenever `send_announce` submits `ANNOUNCE_PACKET` it started
with the latch clear and sets it. -/
theorem C7_announce_attempted_once (G : Gamepad.Masks) (X : XboxOne.Bits)
    (invert : Int → Int) (s : State) (hl : s.announced_ = false)
    (hr : tud_ready s.usbd = true) (ha : s.endpoint_in_ ≠ 0xFF)
    (hb : usbd_edpt_busy s.usbd s.endpoint_in_ = true) :
    send_announce s = { s with announced_ := true } ∧
    newCalls s (send_announce s) = [] ∧
    (∀ (d : XboxOneDevice) (stimuli : List Stimulus),
      announces (session G X invert (d, send_announce s) stimuli).2.usbd.calls =
        announces s.usbd.calls) ∧
    (∀ t : State,
      (send_announce t).announced_ = true ↔
        (t.announced_ = true ∨
          (tud_ready t.usbd = true ∧ t.endpoint_in_ ≠ 0xFF))) ∧
    (∀ t : State,
      announces (send_announce t).usbd.calls ≠ announces t.usbd.calls →
      t.announced_ = false ∧ (send_announce t).announced_ = true) := by
  have hm : s.endpoint_in_ ∈ s.usbd.busy := by simpa [usbd_edpt_busy] using hb
  have hrr : s.usbd.ready = true := hr
  have e : send_announce s = { s with announced_ := true } := by
    simp [send_announce, send_report, tud_ready, usbd_edpt_busy, hl, hrr, ha, hm]
  refine ⟨e, ?_, ?_, ?_, ?_⟩
  · rw [e]
    simp [newCalls]
  · intro d stimuli
    have h := session_announces G X invert stimuli (d, send_announce s)
    have hlatch : (send_announce s).announced_ = true := by rw [e]
    have hcalls : (send_announce s).usbd.calls = s.usbd.calls := by rw [e]
    have h3 := h.2.2 hlatch
    have h1 := h.1
    have h2 := h.2.1
    simp only [hlatch, h3, if_true, hcalls] at h1 h2
    omega
  · intro t
    unfold send_announce
    split
    · rename_i hc
      simp only [true_iff]
      exact Or.inr hc.2
    · rename_i hc
      constructor
      · intro h; exact Or.inl h
      · intro h
        rcases h with h | h
        · exact h
        · cases hlt : t.announced_
          · exact absurd ⟨by simp [hlt], h⟩ hc
          · rfl
  · intro t hne
    have hpot := send_announce_announces t
    cases hlt : t.announced_
    · refine ⟨rfl, ?_⟩
      by_contra hcon
      have hf : (send_announce t).announced_ = false := by simpa using hcon
      have hsame : send_announce t = t := by
        unfold send_announce
        split
        · rename_i hc
          unfold send_announce at hf
          rw [if_pos hc] at hf
          exact Bool.noConfusion hf
        · rfl
      rw [hsame] at hne
      exact hne rfl
    · exfalso
      have h1 := hpot.1
      have h2 := hpot.2.1
      have h3 := hpot.2.2 hlt
      simp only [hlt, h3, if_true] at h1
      omega

/-- C7 (amended) at a concrete input: the announce attempted on a busy IN
endpoint only sets the latch. -/
theorem C7_announce_attempted_once_witness :
    announcePending.announced_ = false ∧
    tud_ready announcePending.usbd = true ∧
    announcePending.endpoint_in_ ≠ 0xFF ∧
    usbd_edpt_busy announcePending.usbd announcePending.endpoint_in_ = true ∧
    send_announce announcePending = { announcePending with announced_ := true } ∧
    newCalls announcePending (send_announce announcePending) = [] ∧
    announces (session Gamepad.Masks.oneBitEach XboxOne.Bits.gip (fun v => -v)
      (freshDevice, send_announce announcePending)
      [Stimulus.stack true [] (memset0 64), Stimulus.process 0 pressedGamepad,
       Stimulus.process 1 idleGamepad]).2.usbd.calls =
      announces announcePending.usbd.calls :=
  have h := C7_announce_attempted_once Gamepad.Masks.oneBitEach XboxOne.Bits.gip
    (fun v => -v) announcePending rfl rfl (by decide) (by decide)
  ⟨rfl, rfl, by decide, by decide, h.1, h.2.1,
    h.2.2.1 freshDevice
      [Stimulus.stack true [] (memset0 64), Stimulus.process 0 pressedGamepad,
       Stimulus.process 1 idleGamepad]⟩

/-- A conditional OR into a byte that holds a byte, with a byte-sized mask. -/
theorem orIf_eq (c : Prop) [Decidable c] (v m : Nat) (hv : v < 256)
    (hm : m < 256) : orIf c v m = v ||| sel c m := by
  unfold orIf sel
  split
  · exact Nat.mod_eq_of_lt (Nat.or_lt_two_pow (n := 8) hv hm)
  · simp

/-- The OR of a byte and a selected byte-sized mask is a byte. -/
theorem or_sel_lt (c : Prop) [Decidable c] (v m : Nat) (hv : v < 256)
    (hm : m < 256) : v ||| sel c m < 256 := by
  unfold sel
  split
  · exact Nat.or_lt_two_pow (n := 8) hv hm
  · simpa using hv

/-- A mask that shares no bit with the pressed one is not selected. -/
theorem sel_disjoint (a b m : Nat) (h : a &&& b = 0) : sel (a &&& b ≠ 0) m = 0 := by
  simp [sel, h]

/-- The pressed mask itself is selected. -/
theorem sel_self (a m : Nat) (h : a ≠ 0) : sel (a &&& a ≠ 0) m = m := by
  simp [sel, h]

/-- The report built by a Guitar tick with new input. -/
theorem guitar_report_eq (G : Gamepad.Masks) (B : XInputGuitar.Bits)
    (invert : Int → Int) (suspended : Bool)
    (rx : Bool × XInputGuitar.OutReport) (d : XInputGuitarDevice) (idx : Nat)
    (gamepad : Gamepad) (hnew : gamepad.new_pad_in = true) :
    (XInputGuitarDevice.process G B invert suspended rx d idx
        gamepad).1.in_report_ =
      { buttons0 :=
          orIf (gamepad.pad_in.buttons &&& G.BUTTON_START ≠ 0)
            (orIf (gamepad.pad_in.buttons &&& G.BUTTON_BACK ≠ 0)
              (orIf (gamepad.pad_in.dpad &&& G.DPAD_RIGHT ≠ 0)
                (orIf (gamepad.pad_in.dpad &&& G.DPAD_LEFT ≠ 0)
                  (orIf (gamepad.pad_in.dpad &&& G.DPAD_DOWN ≠ 0)
                    (orIf (gamepad.pad_in.dpad &&& G.DPAD_UP ≠ 0) 0 B.DPAD_UP)
                    B.DPAD_DOWN) B.DPAD_LEFT) B.DPAD_RIGHT) B.BACK) B.START
        buttons1 :=
          orIf (gamepad.pad_in.buttons &&& G.BUTTON_LB ≠ 0)
            (orIf (gamepad.pad_in.buttons &&& G.BUTTON_X ≠ 0)
              (orIf (gamepad.pad_in.buttons &&& G.BUTTON_B ≠ 0)
                (orIf (gamepad.pad_in.buttons &&& G.BUTTON_SYS ≠ 0) 0 B.HOME)
                B.LB) B.RB) B.A
        trigger_l := if gamepad.pad_in.buttons &&& G.BUTTON_A ≠ 0 then 255 else 0
        trigger_r := if gamepad.pad_in.buttons &&& G.BUTTON_Y ≠ 0 then 255 else 0
        joystick_lx := gamepad.pad_in.joystick_lx
        joystick_ly := invert gamepad.pad_in.joystick_ly
        joystick_rx := gamepad.pad_in.joystick_rx
        joystick_ry := invert gamepad.pad_in.joystick_ry } := by
  simp only [XInputGuitarDevice.process, hnew, if_true, Gamepad.get_pad_in]
  split <;> rfl

/-- C8: for every canonical input and every prior content of the device, after
a tick of `XInputGuitarDevice::process` with new input the first four report
fields depend on the input only: `buttons[0]` is the OR of the Guitar
DPAD_UP/DOWN/LEFT/RIGHT, BACK and START bits whose canonical source is set,
`buttons[1]` the OR of HOME (SYS), LB (canonical B), RB (canonical X) and A
(canonical LB), `trigger_l` is 255 if canonical A is set and 0 otherwise,
`trigger_r` is 255 if canonical Y is set and 0 otherwise. With d-pad UP and
button A only, the four fields are DPAD_UP, 0, 255, 0. -/
theorem C8_guitar_report (G : Gamepad.Masks) (B : XInputGuitar.Bits)
    (invert : Int → Int) (suspended : Bool)
    (rx : Bool × XInputGuitar.OutReport) (d : XInputGuitarDevice) (idx : Nat)
    (gamepad : Gamepad) (hnew : gamepad.new_pad_in = true) (hB : B.UInt8) :
    (XInputGuitarDevice.process G B invert suspended rx d idx
        gamepad).1.in_report_.buttons0 =
      sel (gamepad.pad_in.dpad &&& G.DPAD_UP ≠ 0) B.DPAD_UP |||
      sel (gamepad.pad_in.dpad &&& G.DPAD_DOWN ≠ 0) B.DPAD_DOWN |||
      sel (gamepad.pad_in.dpad &&& G.DPAD_LEFT ≠ 0) B.DPAD_LEFT |||
      sel (gamepad.pad_in.dpad &&& G.DPAD_RIGHT ≠ 0) B.DPAD_RIGHT |||
      sel (gamepad.pad_in.buttons &&& G.BUTTON_BACK ≠ 0) B.BACK |||
      sel (gamepad.pad_in.buttons &&& G.BUTTON_START ≠ 0) B.START ∧
    (XInputGuitarDevice.process G B invert suspended rx d idx
        gamepad).1.in_report_.buttons1 =
      sel (gamepad.pad_in.buttons &&& G.BUTTON_SYS ≠ 0) B.HOME |||
      sel (gamepad.pad_in.buttons &&& G.BUTTON_B ≠ 0) B.LB |||
      sel (gamepad.pad_in.buttons &&& G.BUTTON_X ≠ 0) B.RB |||
      sel (gamepad.pad_in.buttons &&& G.BUTTON_LB ≠ 0) B.A ∧
    (XInputGuitarDevice.process G B invert suspended rx d idx
        gamepad).1.in_report_.trigger_l =
      (if gamepad.pad_in.buttons &&& G.BUTTON_A ≠ 0 then 255 else 0) ∧
    (XInputGuitarDevice.process G B invert suspended rx d idx
        gamepad).1.in_report_.trigger_r =
      (if gamepad.pad_in.buttons &&& G.BUTTON_Y ≠ 0 then 255 else 0) ∧
    (G.Separate → gamepad.pad_in.dpad = G.DPAD_UP →
      gamepad.pad_in.buttons = G.BUTTON_A →
      (XInputGuitarDevice.process G B invert suspended rx d idx
          gamepad).1.in_report_.buttons0 = B.DPAD_UP ∧
      (XInputGuitarDevice.process G B invert suspended rx d idx
          gamepad).1.in_report_.buttons1 = 0x00 ∧
      (XInputGuitarDevice.process G B invert suspended rx d idx
          gamepad).1.in_report_.trigger_l = 255 ∧
      (XInputGuitarDevice.process G B invert suspended rx d idx
          gamepad).1.in_report_.trigger_r = 0) := by
  simp only [XInputGuitar.Bits.UInt8, List.mem_cons, List.mem_singleton,
    forall_eq_or_imp, forall_eq, List.not_mem_nil, false_imp_iff, implies_true,
    and_true] at hB
  obtain ⟨h1, h2, h3, h4, h5, h6, h7, h8, h9, h10⟩ := hB
  have hz : (0 : Nat) < 256 := by norm_num
  have hrep := guitar_report_eq G B invert suspended rx d idx gamepad hnew
  have a1 := or_sel_lt (gamepad.pad_in.dpad &&& G.DPAD_UP ≠ 0) 0 B.DPAD_UP hz h1
  have a2 := or_sel_lt (gamepad.pad_in.dpad &&& G.DPAD_DOWN ≠ 0) _ _ a1 h2
  have a3 := or_sel_lt (gamepad.pad_in.dpad &&& G.DPAD_LEFT ≠ 0) _ _ a2 h3
  have a4 := or_sel_lt (gamepad.pad_in.dpad &&& G.DPAD_RIGHT ≠ 0) _ _ a3 h4
  have a5 := or_sel_lt (gamepad.pad_in.buttons &&& G.BUTTON_BACK ≠ 0) _ _ a4 h5
  have b1 := or_sel_lt (gamepad.pad_in.buttons &&& G.BUTTON_SYS ≠ 0) 0 B.HOME hz h7
  have b2 := or_sel_lt (gamepad.pad_in.buttons &&& G.BUTTON_B ≠ 0) _ _ b1 h8
  have b3 := or_sel_lt (gamepad.pad_in.buttons &&& G.BUTTON_X ≠ 0) _ _ b2 h9
  rw [orIf_eq _ _ _ hz h1, orIf_eq _ _ _ a1 h2, orIf_eq _ _ _ a2 h3,
    orIf_eq _ _ _ a3 h4, orIf_eq _ _ _ a4 h5, orIf_eq _ _ _ a5 h6,
    orIf_eq _ _ _ hz h7, orIf_eq _ _ _ b1 h8, orIf_eq _ _ _ b2 h9,
    orIf_eq _ _ _ b3 h10] at hrep
  simp only [Nat.zero_or] at hrep
  rw [hrep]
  refine ⟨rfl, rfl, rfl, rfl, ?_⟩
  intro hsep hd hb
  simp only [Gamepad.Masks.Separate, List.mem_cons, List.mem_singleton,
    forall_eq_or_imp, forall_eq, List.not_mem_nil, false_imp_iff, implies_true,
    and_true, List.pairwise_cons, List.Pairwise.nil] at hsep
  obtain ⟨⟨u0, -⟩, ⟨⟨u1, u2, u3⟩, -⟩, ⟨p0, -⟩,
    ⟨⟨q1, q2, q3, q4, q5, q6, q7, q8, q9, q10, q11⟩, -⟩⟩ := hsep
  simp only [hd, hb, sel_self _ _ u0, sel_disjoint _ _ _ u1, sel_disjoint _ _ _ u2,
    sel_disjoint _ _ _ u3, sel_disjoint _ _ _ q1, sel_disjoint _ _ _ q2,
    sel_disjoint _ _ _ q3, sel_disjoint _ _ _ q6, sel_disjoint _ _ _ q7,
    sel_disjoint _ _ _ q8, sel_disjoint _ _ _ q10, Nat.or_zero, Nat.zero_or]
  have hA : G.BUTTON_A &&& G.BUTTON_A ≠ 0 := by rw [Nat.and_self]; exact p0
  have hY : ¬ (G.BUTTON_A &&& G.BUTTON_Y ≠ 0) := by rw [q3]; exact fun h => h rfl
  rw [if_pos hA, if_neg hY]
  refine ⟨?_, ?_, ?_, ?_⟩ <;> first | rfl | trivial

/-- C8 at a concrete input: d-pad UP and button A only, over a report that
still holds other bits, gives the fields 0x01 (DPAD_UP), 0x00, 255, 0. -/
theorem C8_guitar_report_witness :
    (XInputGuitarDevice.process Gamepad.Masks.oneBitEach XInputGuitar.Bits.xinput
        (fun v => -v) true (false, { report_id := 0, rumble_l := 0, rumble_r := 0 })
        { in_report_ :=
            { buttons0 := 0xFF, buttons1 := 0xFF, trigger_l := 77, trigger_r := 78
              joystick_lx := 0, joystick_ly := 0, joystick_rx := 0
              joystick_ry := 0 }
          out_report_ := { report_id := 0, rumble_l := 0, rumble_r := 0 } }
        0 { idleGamepad with
            new_pad_in := true
            pad_in := { idleGamepad.pad_in with dpad := 0x01, buttons := 0x0001 } }
      ).1.in_report_.buttons0 = 0x01 ∧
    (XInputGuitarDevice.process Gamepad.Masks.oneBitEach XInputGuitar.Bits.xinput
        (fun v => -v) true (false, { report_id := 0, rumble_l := 0, rumble_r := 0 })
        { in_report_ :=
            { buttons0 := 0xFF, buttons1 := 0xFF, trigger_l := 77, trigger_r := 78
              joystick_lx := 0, joystick_ly := 0, joystick_rx := 0
              joystick_ry := 0 }
          out_report_ := { report_id := 0, rumble_l := 0, rumble_r := 0 } }
        0 { idleGamepad with
            new_pad_in := true
            pad_in := { idleGamepad.pad_in with dpad := 0x01, buttons := 0x0001 } }
      ).1.in_report_.buttons1 = 0x00 ∧
    (XInputGuitarDevice.process Gamepad.Masks.oneBitEach XInputGuitar.Bits.xinput
        (fun v => -v) true (false, { report_id := 0, rumble_l := 0, rumble_r := 0 })
        { in_report_ :=
            { buttons0 := 0xFF, buttons1 := 0xFF, trigger_l := 77, trigger_r := 78
              joystick_lx := 0, joystick_ly := 0, joystick_rx := 0
              joystick_ry := 0 }
          out_report_ := { report_id := 0, rumble_l := 0, rumble_r := 0 } }
        0 { idleGamepad with
            new_pad_in := true
            pad_in := { idleGamepad.pad_in with dpad := 0x01, buttons := 0x0001 } }
      ).1.in_report_.trigger_l = 255 ∧
    (XInputGuitarDevice.process Gamepad.Masks.oneBitEach XInputGuitar.Bits.xinput
        (fun v => -v) true (false, { report_id := 0, rumble_l := 0, rumble_r := 0 })
        { in_report_ :=
            { buttons0 := 0xFF, buttons1 := 0xFF, trigger_l := 77, trigger_r := 78
              joystick_lx := 0, joystick_ly := 0, joystick_rx := 0
              joystick_ry := 0 }
          out_report_ := { report_id := 0, rumble_l := 0, rumble_r := 0 } }
        0 { idleGamepad with
            new_pad_in := true
            pad_in := { idleGamepad.pad_in with dpad := 0x01, buttons := 0x0001 } }
      ).1.in_report_.trigger_r = 0 :=
  (C8_guitar_report Gamepad.Masks.oneBitEach XInputGuitar.Bits.xinput
        (fun v => -v) true (false, { report_id := 0, rumble_l := 0, rumble_r := 0 })
        { in_report_ :=
            { buttons0 := 0xFF, buttons1 := 0xFF, trigger_l := 77, trigger_r := 78
              joystick_lx := 0, joystick_ly := 0, joystick_rx := 0
              joystick_ry := 0 }
          out_report_ := { report_id := 0, rumble_l := 0, rumble_r := 0 } }
        0 { idleGamepad with
            new_pad_in := true
            pad_in := { idleGamepad.pad_in with dpad := 0x01, buttons := 0x0001 } }
        rfl (by decide)).2.2.2.2 (by decide) rfl rfl

/-- The members after an Xbox One tick with new input. -/
theorem xboxone_process_new (G : Gamepad.Masks) (X : XboxOne.Bits)
    (invert : Int → Int) (d : XboxOneDevice) (s : State) (idx : Nat)
    (gamepad : Gamepad) (hnew : gamepad.new_pad_in = true) :
    (XboxOneDevice.process G X invert d s idx gamepad).1 =
      XboxOneDevice.fill_report G X invert d gamepad.pad_in := by
  simp only [XboxOneDevice.process, hnew, if_true, Gamepad.get_pad_in]

/-- C9: for every canonical input and every prior content of the device, after
a tick of `XboxOneDevice::process` with new input `buttons[0]` is the OR of the
START, BACK, A, B, X, Y, GUIDE (from SYS) and SYNC (from MISC) bits whose
canonical source is set, and `buttons[1]` the OR of the DPAD_UP/DOWN/LEFT/RIGHT,
LB, RB, L3 and R3 bits whose canonical source is set; neither depends on the
previous report. With d-pad UP, button A only and both triggers released,
`buttons[1]` is DPAD_UP, `buttons[0]` is A and both trigger fields are 0. -/
theorem C9_xboxone_buttons (G : Gamepad.Masks) (X : XboxOne.Bits)
    (invert : Int → Int) (d : XboxOneDevice) (s : State) (idx : Nat)
    (gamepad : Gamepad) (hnew : gamepad.new_pad_in = true) (hX : X.UInt8) :
    (XboxOneDevice.process G X invert d s idx gamepad).1.in_report_.buttons0 =
      sel (gamepad.pad_in.buttons &&& G.BUTTON_START ≠ 0) X.START |||
      sel (gamepad.pad_in.buttons &&& G.BUTTON_BACK ≠ 0) X.BACK |||
      sel (gamepad.pad_in.buttons &&& G.BUTTON_A ≠ 0) X.A |||
      sel (gamepad.pad_in.buttons &&& G.BUTTON_B ≠ 0) X.B |||
      sel (gamepad.pad_in.buttons &&& G.BUTTON_X ≠ 0) X.X |||
      sel (gamepad.pad_in.buttons &&& G.BUTTON_Y ≠ 0) X.Y |||
      sel (gamepad.pad_in.buttons &&& G.BUTTON_SYS ≠ 0) X.GUIDE |||
      sel (gamepad.pad_in.buttons &&& G.BUTTON_MISC ≠ 0) X.SYNC ∧
    (XboxOneDevice.process G X invert d s idx gamepad).1.in_report_.buttons1 =
      sel (gamepad.pad_in.dpad &&& G.DPAD_UP ≠ 0) X.DPAD_UP |||
      sel (gamepad.pad_in.dpad &&& G.DPAD_DOWN ≠ 0) X.DPAD_DOWN |||
      sel (gamepad.pad_in.dpad &&& G.DPAD_LEFT ≠ 0) X.DPAD_LEFT |||
      sel (gamepad.pad_in.dpad &&& G.DPAD_RIGHT ≠ 0) X.DPAD_RIGHT |||
      sel (gamepad.pad_in.buttons &&& G.BUTTON_LB ≠ 0) X.LB |||
      sel (gamepad.pad_in.buttons &&& G.BUTTON_RB ≠ 0) X.RB |||
      sel (gamepad.pad_in.buttons &&& G.BUTTON_L3 ≠ 0) X.L3 |||
      sel (gamepad.pad_in.buttons &&& G.BUTTON_R3 ≠ 0) X.R3 ∧
    (G.Separate → gamepad.pad_in.dpad = G.DPAD_UP →
      gamepad.pad_in.buttons = G.BUTTON_A →
      gamepad.pad_in.trigger_l = 0 → gamepad.pad_in.trigger_r = 0 →
      (XboxOneDevice.process G X invert d s idx gamepad).1.in_report_.buttons1 =
        X.DPAD_UP ∧
      (XboxOneDevice.process G X invert d s idx gamepad).1.in_report_.buttons0 =
        X.A ∧
      (XboxOneDevice.process G X invert d s idx gamepad).1.in_report_.trigger_l =
        0 ∧
      (XboxOneDevice.process G X invert d s idx gamepad).1.in_report_.trigger_r =
        0) := by
  simp only [XboxOne.Bits.UInt8, List.mem_cons, List.mem_singleton,
    forall_eq_or_imp, forall_eq, List.not_mem_nil, false_imp_iff, implies_true,
    and_true] at hX
  obtain ⟨h1, h2, h3, h4, h5, h6, h7, h8, h9, h10, h11, h12, h13, h14, h15, h16⟩ := hX
  have hz : (0 : Nat) < 256 := by norm_num
  have a1 := or_sel_lt (gamepad.pad_in.buttons &&& G.BUTTON_START ≠ 0) 0 X.START hz h1
  have a2 := or_sel_lt (gamepad.pad_in.buttons &&& G.BUTTON_BACK ≠ 0) _ _ a1 h2
  have a3 := or_sel_lt (gamepad.pad_in.buttons &&& G.BUTTON_A ≠ 0) _ _ a2 h3
  have a4 := or_sel_lt (gamepad.pad_in.buttons &&& G.BUTTON_B ≠ 0) _ _ a3 h4
  have a5 := or_sel_lt (gamepad.pad_in.buttons &&& G.BUTTON_X ≠ 0) _ _ a4 h5
  have a6 := or_sel_lt (gamepad.pad_in.buttons &&& G.BUTTON_Y ≠ 0) _ _ a5 h6
  have a7 := or_sel_lt (gamepad.pad_in.buttons &&& G.BUTTON_SYS ≠ 0) _ _ a6 h7
  have b1 := or_sel_lt (gamepad.pad_in.dpad &&& G.DPAD_UP ≠ 0) 0 X.DPAD_UP hz h9
  have b2 := or_sel_lt (gamepad.pad_in.dpad &&& G.DPAD_DOWN ≠ 0) _ _ b1 h10
  have b3 := or_sel_lt (gamepad.pad_in.dpad &&& G.DPAD_LEFT ≠ 0) _ _ b2 h11
  have b4 := or_sel_lt (gamepad.pad_in.dpad &&& G.DPAD_RIGHT ≠ 0) _ _ b3 h12
  have b5 := or_sel_lt (gamepad.pad_in.buttons &&& G.BUTTON_LB ≠ 0) _ _ b4 h13
  have b6 := or_sel_lt (gamepad.pad_in.buttons &&& G.BUTTON_RB ≠ 0) _ _ b5 h14
  have b7 := or_sel_lt (gamepad.pad_in.buttons &&& G.BUTTON_L3 ≠ 0) _ _ b6 h15
  have e0 : (XboxOneDevice.process G X invert d s idx gamepad).1.in_report_.buttons0 =
      sel (gamepad.pad_in.buttons &&& G.BUTTON_START ≠ 0) X.START |||
      sel (gamepad.pad_in.buttons &&& G.BUTTON_BACK ≠ 0) X.BACK |||
      sel (gamepad.pad_in.buttons &&& G.BUTTON_A ≠ 0) X.A |||
      sel (gamepad.pad_in.buttons &&& G.BUTTON_B ≠ 0) X.B |||
      sel (gamepad.pad_in.buttons &&& G.BUTTON_X ≠ 0) X.X |||
      sel (gamepad.pad_in.buttons &&& G.BUTTON_Y ≠ 0) X.Y |||
      sel (gamepad.pad_in.buttons &&& G.BUTTON_SYS ≠ 0) X.GUIDE |||
      sel (gamepad.pad_in.buttons &&& G.BUTTON_MISC ≠ 0) X.SYNC := by
    rw [xboxone_process_new G X invert d s idx gamepad hnew]
    simp only [XboxOneDevice.fill_report]
    rw [orIf_eq _ _ _ hz h1, orIf_eq _ _ _ a1 h2, orIf_eq _ _ _ a2 h3,
      orIf_eq _ _ _ a3 h4, orIf_eq _ _ _ a4 h5, orIf_eq _ _ _ a5 h6,
      orIf_eq _ _ _ a6 h7, orIf_eq _ _ _ a7 h8]
    simp only [Nat.zero_or]
  have e1 : (XboxOneDevice.process G X invert d s idx gamepad).1.in_report_.buttons1 =
      sel (gamepad.pad_in.dpad &&& G.DPAD_UP ≠ 0) X.DPAD_UP |||
      sel (gamepad.pad_in.dpad &&& G.DPAD_DOWN ≠ 0) X.DPAD_DOWN |||
      sel (gamepad.pad_in.dpad &&& G.DPAD_LEFT ≠ 0) X.DPAD_LEFT |||
      sel (gamepad.pad_in.dpad &&& G.DPAD_RIGHT ≠ 0) X.DPAD_RIGHT |||
      sel (gamepad.pad_in.buttons &&& G.BUTTON_LB ≠ 0) X.LB |||
      sel (gamepad.pad_in.buttons &&& G.BUTTON_RB ≠ 0) X.RB |||
      sel (gamepad.pad_in.buttons &&& G.BUTTON_L3 ≠ 0) X.L3 |||
      sel (gamepad.pad_in.buttons &&& G.BUTTON_R3 ≠ 0) X.R3 := by
    rw [xboxone_process_new G X invert d s idx gamepad hnew]
    simp only [XboxOneDevice.fill_report]
    rw [orIf_eq _ _ _ hz h9, orIf_eq _ _ _ b1 h10, orIf_eq _ _ _ b2 h11,
      orIf_eq _ _ _ b3 h12, orIf_eq _ _ _ b4 h13, orIf_eq _ _ _ b5 h14,
      orIf_eq _ _ _ b6 h15, orIf_eq _ _ _ b7 h16]
    simp only [Nat.zero_or]
  refine ⟨e0, e1, ?_⟩
  intro hsep hd hb hl hr
  simp only [Gamepad.Masks.Separate, List.mem_cons, List.mem_singleton,
    forall_eq_or_imp, forall_eq, List.not_mem_nil, false_imp_iff, implies_true,
    and_true, List.pairwise_cons, List.Pairwise.nil] at hsep
  obtain ⟨⟨u0, -⟩, ⟨⟨u1, u2, u3⟩, -⟩, ⟨p0, -⟩,
    ⟨⟨q1, q2, q3, q4, q5, q6, q7, q8, q9, q10, q11⟩, -⟩⟩ := hsep
  refine ⟨?_, ?_, ?_, ?_⟩
  · rw [e1]
    simp only [hd, hb, sel_self _ _ u0, sel_disjoint _ _ _ u1, sel_disjoint _ _ _ u2,
      sel_disjoint _ _ _ u3, sel_disjoint _ _ _ q4, sel_disjoint _ _ _ q5,
      sel_disjoint _ _ _ q8, sel_disjoint _ _ _ q9, Nat.or_zero]
  · rw [e0]
    simp only [hb, sel_self _ _ p0, sel_disjoint _ _ _ q1, sel_disjoint _ _ _ q2,
      sel_disjoint _ _ _ q3, sel_disjoint _ _ _ q6, sel_disjoint _ _ _ q7,
      sel_disjoint _ _ _ q10, sel_disjoint _ _ _ q11, Nat.or_zero, Nat.zero_or]
  · rw [xboxone_process_new G X invert d s idx gamepad hnew]
    simp [XboxOneDevice.fill_report, hl]
  · rw [xboxone_process_new G X invert d s idx gamepad hnew]
    simp [XboxOneDevice.fill_report, hr]

/-- C9 at a concrete input: d-pad UP and button A only, over a report whose
button bytes were all ones, gives `buttons[1]` = 0x01 (DPAD_UP),
`buttons[0]` = 0x10 (A) and both trigger fields 0. -/
theorem C9_xboxone_buttons_witness :
    (XboxOneDevice.process Gamepad.Masks.oneBitEach XboxOne.Bits.gip (fun v => -v)
        { freshDevice with
          in_report_ := { freshDevice.in_report_ with
                          buttons0 := 0xFF, buttons1 := 0xFF } }
        (sampleState false []) 0
        { idleGamepad with
          new_pad_in := true
          pad_in := { idleGamepad.pad_in with dpad := 0x01, buttons := 0x0001 } }
      ).1.in_report_.buttons1 = 0x01 ∧
    (XboxOneDevice.process Gamepad.Masks.oneBitEach XboxOne.Bits.gip (fun v => -v)
        { freshDevice with
          in_report_ := { freshDevice.in_report_ with
                          buttons0 := 0xFF, buttons1 := 0xFF } }
        (sampleState false []) 0
        { idleGamepad with
          new_pad_in := true
          pad_in := { idleGamepad.pad_in with dpad := 0x01, buttons := 0x0001 } }
      ).1.in_report_.buttons0 = 0x10 ∧
    (XboxOneDevice.process Gamepad.Masks.oneBitEach XboxOne.Bits.gip (fun v => -v)
        { freshDevice with
          in_report_ := { freshDevice.in_report_ with
                          buttons0 := 0xFF, buttons1 := 0xFF } }
        (sampleState false []) 0
        { idleGamepad with
          new_pad_in := true
          pad_in := { idleGamepad.pad_in with dpad := 0x01, buttons := 0x0001 } }
      ).1.in_report_.trigger_l = 0 ∧
    (XboxOneDevice.process Gamepad.Masks.oneBitEach XboxOne.Bits.gip (fun v => -v)
        { freshDevice with
          in_report_ := { freshDevice.in_report_ with
                          buttons0 := 0xFF, buttons1 := 0xFF } }
        (sampleState false []) 0
        { idleGamepad with
          new_pad_in := true
          pad_in := { idleGamepad.pad_in with dpad := 0x01, buttons := 0x0001 } }
      ).1.in_report_.trigger_r = 0 :=
  (C9_xboxone_buttons Gamepad.Masks.oneBitEach XboxOne.Bits.gip (fun v => -v)
        { freshDevice with
          in_report_ := { freshDevice.in_report_ with
                          buttons0 := 0xFF, buttons1 := 0xFF } }
        (sampleState false []) 0
        { idleGamepad with
          new_pad_in := true
          pad_in := { idleGamepad.pad_in with dpad := 0x01, buttons := 0x0001 } }
        rfl (by decide)).2.2 (by decide) rfl rfl rfl rfl

/-- C10: for every 8-bit canonical trigger value, the 16-bit trigger field
written by a tick of `XboxOneDevice::process` with new input is the value
shifted left by 2, which is 4 times the value with no bit lost; it is at most
1023, it is 0 for the value 0, and a larger trigger value gives a strictly
larger field (stated for two ticks). The same holds for both triggers. -/
theorem C10_trigger_scaling (G : Gamepad.Masks) (X : XboxOne.Bits)
    (invert : Int → Int) (d d2 : XboxOneDevice) (s s2 : State) (idx idx2 : Nat)
    (gamepad gamepad2 : Gamepad) (hnew : gamepad.new_pad_in = true)
    (hnew2 : gamepad2.new_pad_in = true)
    (hl : gamepad.pad_in.trigger_l < 256) (hr : gamepad.pad_in.trigger_r < 256)
    (hl2 : gamepad2.pad_in.trigger_l < 256)
    (hr2 : gamepad2.pad_in.trigger_r < 256) :
    ((XboxOneDevice.process G X invert d s idx gamepad).1.in_report_.trigger_l =
        gamepad.pad_in.trigger_l <<< 2 ∧
      (XboxOneDevice.process G X invert d s idx gamepad).1.in_report_.trigger_l =
        4 * gamepad.pad_in.trigger_l ∧
      (XboxOneDevice.process G X invert d s idx gamepad).1.in_report_.trigger_l ≤
        1023 ∧
      (gamepad.pad_in.trigger_l = 0 →
        (XboxOneDevice.process G X invert d s idx gamepad).1.in_report_.trigger_l =
          0) ∧
      (gamepad.pad_in.trigger_l < gamepad2.pad_in.trigger_l →
        (XboxOneDevice.process G X invert d s idx gamepad).1.in_report_.trigger_l <
          (XboxOneDevice.process G X invert d2 s2 idx2
            gamepad2).1.in_report_.trigger_l)) ∧
    ((XboxOneDevice.process G X invert d s idx gamepad).1.in_report_.trigger_r =
        gamepad.pad_in.trigger_r <<< 2 ∧
      (XboxOneDevice.process G X invert d s idx gamepad).1.in_report_.trigger_r =
        4 * gamepad.pad_in.trigger_r ∧
      (XboxOneDevice.process G X invert d s idx gamepad).1.in_report_.trigger_r ≤
        1023 ∧
      (gamepad.pad_in.trigger_r = 0 →
        (XboxOneDevice.process G X invert d s idx gamepad).1.in_report_.trigger_r =
          0) ∧
      (gamepad.pad_in.trigger_r < gamepad2.pad_in.trigger_r →
        (XboxOneDevice.process G X invert d s idx gamepad).1.in_report_.trigger_r <
          (XboxOneDevice.process G X invert d2 s2 idx2
            gamepad2).1.in_report_.trigger_r)) := by
  rw [xboxone_process_new G X invert d s idx gamepad hnew,
    xboxone_process_new G X invert d2 s2 idx2 gamepad2 hnew2]
  have el : ∀ (dd : XboxOneDevice) (p : Gamepad.PadIn),
      (XboxOneDevice.fill_report G X invert dd p).in_report_.trigger_l =
        (p.trigger_l <<< 2) % 65536 := fun _ _ => rfl
  have er : ∀ (dd : XboxOneDevice) (p : Gamepad.PadIn),
      (XboxOneDevice.fill_report G X invert dd p).in_report_.trigger_r =
        (p.trigger_r <<< 2) % 65536 := fun _ _ => rfl
  have sh : ∀ t : Nat, t < 256 → (t <<< 2) % 65536 = 4 * t ∧ t <<< 2 = 4 * t := by
    intro t ht
    have h2 : t <<< 2 = 4 * t := by rw [Nat.shiftLeft_eq]; omega
    rw [h2]
    exact ⟨Nat.mod_eq_of_lt (by omega), rfl⟩
  rw [el, el, er, er]
  have a1 := sh _ hl
  have a2 := sh _ hr
  have a3 := sh _ hl2
  have a4 := sh _ hr2
  rw [a1.1, a2.1, a3.1, a4.1, a1.2, a2.2]
  refine ⟨⟨rfl, rfl, by omega, fun h => by omega, fun h => by omega⟩,
    ⟨rfl, rfl, by omega, fun h => by omega, fun h => by omega⟩⟩

/-- C10 at a concrete input: full left trigger (255) gives 1020, above the
field of the released right trigger, which is 0. -/
theorem C10_trigger_scaling_witness :
    (XboxOneDevice.process Gamepad.Masks.oneBitEach XboxOne.Bits.gip (fun v => -v)
        freshDevice (sampleState false []) 0
        { idleGamepad with
          new_pad_in := true
          pad_in := { idleGamepad.pad_in with trigger_l := 255 } }
      ).1.in_report_.trigger_l = 4 * 255 ∧
    (XboxOneDevice.process Gamepad.Masks.oneBitEach XboxOne.Bits.gip (fun v => -v)
        freshDevice (sampleState false []) 0
        { idleGamepad with
          new_pad_in := true
          pad_in := { idleGamepad.pad_in with trigger_l := 255 } }
      ).1.in_report_.trigger_r = 0 :=
  have h := C10_trigger_scaling Gamepad.Masks.oneBitEach XboxOne.Bits.gip
    (fun v => -v) freshDevice freshDevice (sampleState false [])
    (sampleState false []) 0 0
    { idleGamepad with
      new_pad_in := true
      pad_in := { idleGamepad.pad_in with trigger_l := 255 } }
    { idleGamepad with
      new_pad_in := true
      pad_in := { idleGamepad.pad_in with trigger_l := 255 } }
    rfl rfl (by decide) (by decide) (by decide) (by decide)
  ⟨h.1.2.1, h.2.2.2.2.1 rfl⟩

/-- C11: for both variants and every canonical input, after a tick with new
input the report's `joystick_lx` and `joystick_rx` are the canonical values
unchanged and `joystick_ly` and `joystick_ry` are `Range::invert` applied once
to the canonical values; the Guitar and the Xbox One report hold the same four
stick values for the same input. -/
theorem C11_sticks (G : Gamepad.Masks) (B : XInputGuitar.Bits)
    (X : XboxOne.Bits) (invert : Int → Int) (suspended : Bool)
    (rx : Bool × XInputGuitar.OutReport) (dg : XInputGuitarDevice)
    (dx : XboxOneDevice) (s : State) (idx : Nat) (gamepad : Gamepad)
    (hnew : gamepad.new_pad_in = true) :
    ((XInputGuitarDevice.process G B invert suspended rx dg idx
          gamepad).1.in_report_.joystick_lx = gamepad.pad_in.joystick_lx ∧
      (XInputGuitarDevice.process G B invert suspended rx dg idx
          gamepad).1.in_report_.joystick_ly = invert gamepad.pad_in.joystick_ly ∧
      (XInputGuitarDevice.process G B invert suspended rx dg idx
          gamepad).1.in_report_.joystick_rx = gamepad.pad_in.joystick_rx ∧
      (XInputGuitarDevice.process G B invert suspended rx dg idx
          gamepad).1.in_report_.joystick_ry = invert gamepad.pad_in.joystick_ry) ∧
    ((XboxOneDevice.process G X invert dx s idx gamepad).1.in_report_.joystick_lx =
        gamepad.pad_in.joystick_lx ∧
      (XboxOneDevice.process G X invert dx s idx gamepad).1.in_report_.joystick_ly =
        invert gamepad.pad_in.joystick_ly ∧
      (XboxOneDevice.process G X invert dx s idx gamepad).1.in_report_.joystick_rx =
        gamepad.pad_in.joystick_rx ∧
      (XboxOneDevice.process G X invert dx s idx gamepad).1.in_report_.joystick_ry =
        invert gamepad.pad_in.joystick_ry) ∧
    ((XInputGuitarDevice.process G B invert suspended rx dg idx
          gamepad).1.in_report_.joystick_lx =
        (XboxOneDevice.process G X invert dx s idx gamepad).1.in_report_.joystick_lx ∧
      (XInputGuitarDevice.process G B invert suspended rx dg idx
          gamepad).1.in_report_.joystick_ly =
        (XboxOneDevice.process G X invert dx s idx gamepad).1.in_report_.joystick_ly ∧
      (XInputGuitarDevice.process G B invert suspended rx dg idx
          gamepad).1.in_report_.joystick_rx =
        (XboxOneDevice.process G X invert dx s idx gamepad).1.in_report_.joystick_rx ∧
      (XInputGuitarDevice.process G B invert suspended rx dg idx
          gamepad).1.in_report_.joystick_ry =
        (XboxOneDevice.process G X invert dx s idx
          gamepad).1.in_report_.joystick_ry) := by
  rw [guitar_report_eq G B invert suspended rx dg idx gamepad hnew,
    xboxone_process_new G X invert dx s idx gamepad hnew]
  exact ⟨⟨rfl, rfl, rfl, rfl⟩, ⟨rfl, rfl, rfl, rfl⟩, ⟨rfl, rfl, rfl, rfl⟩⟩

/-- C11 at a concrete input, with negation as the inversion: the sticks
(100, 200, -300, -400) become (100, -200, -300, 400) in the Xbox One report. -/
theorem C11_sticks_witness :
    (XboxOneDevice.process Gamepad.Masks.oneBitEach XboxOne.Bits.gip (fun v => -v)
        freshDevice (sampleState false []) 0 pressedGamepad).1.in_report_.joystick_lx =
      100 ∧
    (XboxOneDevice.process Gamepad.Masks.oneBitEach XboxOne.Bits.gip (fun v => -v)
        freshDevice (sampleState false []) 0 pressedGamepad).1.in_report_.joystick_ly =
      -200 ∧
    (XboxOneDevice.process Gamepad.Masks.oneBitEach XboxOne.Bits.gip (fun v => -v)
        freshDevice (sampleState false []) 0 pressedGamepad).1.in_report_.joystick_rx =
      -300 ∧
    (XboxOneDevice.process Gamepad.Masks.oneBitEach XboxOne.Bits.gip (fun v => -v)
        freshDevice (sampleState false []) 0 pressedGamepad).1.in_report_.joystick_ry =
      400 :=
  (C11_sticks Gamepad.Masks.oneBitEach XInputGuitar.Bits.xinput XboxOne.Bits.gip
    (fun v => -v) false (false, { report_id := 0, rumble_l := 0, rumble_r := 0 })
    { in_report_ :=
        { buttons0 := 0, buttons1 := 0, trigger_l := 0, trigger_r := 0
          joystick_lx := 0, joystick_ly := 0, joystick_rx := 0, joystick_ry := 0 }
      out_report_ := { report_id := 0, rumble_l := 0, rumble_r := 0 } }
    freshDevice (sampleState false []) 0 pressedGamepad rfl).2.1

/-- Counting input-report submissions distributes over concatenation. -/
theorem inputReports_append (l₁ l₂ : List Call) :
    inputReports (l₁ ++ l₂) = inputReports l₁ + inputReports l₂ := by
  induction l₁ with
  | nil => simp [inputReports]
  | cons c l ih =>
    cases c with
    | claim ep => simpa [inputReports] using ih
    | release ep => simpa [inputReports] using ih
    | xfer ep buf len snap =>
      cases buf <;> simp [inputReports, ih]
      omega

/-- The two outcomes of `send_report`: nothing happens, or the report is
claimed, submitted and released on the IN endpoint. -/
theorem send_report_cases (s : State) (src : Mem) (report : List Nat)
    (len : Nat) :
    (usbd_edpt_busy s.usbd s.endpoint_in_ = true →
      send_report s src report len = (false, s)) ∧
    (send_report s src report len = (false, s) ∨
      ((send_report s src report len).1 = true ∧
        usbd_edpt_busy s.usbd s.endpoint_in_ = false ∧
        (send_report s src report len).2 =
          { s with usbd :=
            { s.usbd with
              busy := s.endpoint_in_ :: s.usbd.busy
              calls := s.usbd.calls ++
                [Call.claim s.endpoint_in_,
                 Call.xfer s.endpoint_in_ src len (report.take len),
                 Call.release s.endpoint_in_] } })) := by
  constructor
  · intro hb
    have hm : s.endpoint_in_ ∈ s.usbd.busy := by simpa [usbd_edpt_busy] using hb
    simp [send_report, usbd_edpt_busy, hm]
  · unfold send_report
    split
    · rename_i h
      have hf : s.endpoint_in_ ∉ s.usbd.busy := by
        simpa [usbd_edpt_busy] using h.2.2
      right
      simp [usbd_edpt_claim, usbd_edpt_xfer, usbd_edpt_release, usbd_edpt_busy, hf]
    · left; rfl

/-- The two outcomes of `receive_report`: nothing happens, or a receive into
`ep_out_buffer_` is claimed, submitted and released on the OUT endpoint. -/
theorem receive_report_cases (s : State) :
    (usbd_edpt_busy s.usbd s.endpoint_out_ = true → receive_report s = s) ∧
    (receive_report s = s ∨
      (usbd_edpt_busy s.usbd s.endpoint_out_ = false ∧
        receive_report s =
          { s with usbd :=
            { s.usbd with
              busy := s.endpoint_out_ :: s.usbd.busy
              calls := s.usbd.calls ++
                [Call.claim s.endpoint_out_,
                 Call.xfer s.endpoint_out_ Mem.ep_out_buffer_ 64
                   (s.ep_out_buffer_.take 64),
                 Call.release s.endpoint_out_] } })) := by
  constructor
  · intro hb
    have hm : s.endpoint_out_ ∈ s.usbd.busy := by simpa [usbd_edpt_busy] using hb
    simp [receive_report, usbd_edpt_busy, hm]
  · unfold receive_report
    split
    · rename_i h
      have hf : s.endpoint_out_ ∉ s.usbd.busy := by
        simpa [usbd_edpt_busy] using h.2.2
      right
      simp [usbd_edpt_claim, usbd_edpt_xfer, usbd_edpt_release, usbd_edpt_busy, hf,
        ENDPOINT_SIZE]
    · left; rfl

/-- The two outcomes of `send_announce` on the log: nothing is appended, or
the claim, submission and release of `ANNOUNCE_PACKET` on the IN endpoint. The
handles, the buffers and the readiness are kept. -/
theorem send_announce_cases (s : State) :
    (send_announce s).endpoint_in_ = s.endpoint_in_ ∧
    (send_announce s).endpoint_out_ = s.endpoint_out_ ∧
    (send_announce s).ep_in_buffer_ = s.ep_in_buffer_ ∧
    (send_announce s).ep_out_buffer_ = s.ep_out_buffer_ ∧
    (usbd_edpt_busy s.usbd s.endpoint_in_ = true →
      (send_announce s).usbd = s.usbd) ∧
    ((send_announce s).usbd = s.usbd ∨
      (send_announce s).usbd =
        { s.usbd with
          busy := s.endpoint_in_ :: s.usbd.busy
          calls := s.usbd.calls ++
            [Call.claim s.endpoint_in_,
             Call.xfer s.endpoint_in_ Mem.ANNOUNCE_PACKET 24 ANNOUNCE_PACKET,
             Call.release s.endpoint_in_] }) := by
  have h := send_report_cases s Mem.ANNOUNCE_PACKET ANNOUNCE_PACKET
    ANNOUNCE_PACKET.length
  unfold send_announce
  split
  · rcases h.2 with h2 | ⟨_, _, h2⟩
    · simp [h2]
    · refine ⟨by rw [h2], by rw [h2], by rw [h2], by rw [h2], ?_, ?_⟩
      · intro hb
        rw [(h.1 hb)]
      · right
        rw [h2]
        rfl
  · exact ⟨rfl, rfl, rfl, rfl, fun _ => rfl, Or.inl rfl⟩

/-- The calls of one tick of `XboxOneDevice::process`, in order: the announce
(or nothing), the arming of the OUT endpoint (or nothing), the input report
(or nothing). Without new input no input report is submitted; while the IN
endpoint is busy nothing is submitted on it. The tick keeps the handles and
`ep_in_buffer_`. -/
theorem process_calls (G : Gamepad.Masks) (X : XboxOne.Bits)
    (invert : Int → Int) (d : XboxOneDevice) (s : State) (idx : Nat)
    (gamepad : Gamepad) :
    ∃ la lr li : List Call,
      (XboxOneDevice.process G X invert d s idx gamepad).2.usbd.calls =
        s.usbd.calls ++ (la ++ (lr ++ li)) ∧
      (la = [] ∨ la =
        [Call.claim s.endpoint_in_,
         Call.xfer s.endpoint_in_ Mem.ANNOUNCE_PACKET 24 ANNOUNCE_PACKET,
         Call.release s.endpoint_in_]) ∧
      (lr = [] ∨ lr =
        [Call.claim s.endpoint_out_,
         Call.xfer s.endpoint_out_ Mem.ep_out_buffer_ 64 (s.ep_out_buffer_.take 64),
         Call.release s.endpoint_out_]) ∧
      (li = [] ∨ li =
        [Call.claim s.endpoint_in_,
         Call.xfer s.endpoint_in_ Mem.in_report_ 18
           ((XboxOneDevice.fill_report G X invert d
              gamepad.pad_in).in_report_.bytes.take 18),
         Call.release s.endpoint_in_]) ∧
      (gamepad.new_pad_in = false → li = []) ∧
      (usbd_edpt_busy s.usbd s.endpoint_in_ = true → la = [] ∧ li = []) ∧
      (usbd_edpt_busy s.usbd s.endpoint_in_ = true →
        s.endpoint_in_ = s.endpoint_out_ → lr = []) ∧
      (XboxOneDevice.process G X invert d s idx gamepad).2.ep_in_buffer_ =
        s.ep_in_buffer_ ∧
      (XboxOneDevice.process G X invert d s idx gamepad).2.endpoint_in_ =
        s.endpoint_in_ ∧
      (XboxOneDevice.process G X invert d s idx gamepad).2.endpoint_out_ =
        s.endpoint_out_ := by
  obtain ⟨ai, ao, abi, abo, abusy, acases⟩ := send_announce_cases s
  obtain ⟨rbusy, rcases_⟩ := receive_report_cases (send_announce s)
  -- the announce step
  have hA : ∃ la, (send_announce s).usbd.calls = s.usbd.calls ++ la ∧
      (la = [] ∨ la =
        [Call.claim s.endpoint_in_,
         Call.xfer s.endpoint_in_ Mem.ANNOUNCE_PACKET 24 ANNOUNCE_PACKET,
         Call.release s.endpoint_in_]) ∧
      (usbd_edpt_busy s.usbd s.endpoint_in_ = true → la = []) ∧
      (usbd_edpt_busy s.usbd s.endpoint_in_ = true →
        usbd_edpt_busy (send_announce s).usbd s.endpoint_in_ = true) := by
    rcases acases with h | h
    · exact ⟨[], by rw [h]; simp, Or.inl rfl, fun _ => rfl, fun hb => by rw [h]; exact hb⟩
    · refine ⟨_, by rw [h], Or.inr rfl, ?_, ?_⟩
      · intro hb
        have h' := abusy hb
        rw [h] at h'
        have hc := congrArg Usbd.calls h'
        simp at hc
      · intro hb
        rw [abusy hb]
        exact hb
  obtain ⟨la, hla, hlashape, hlabusy, hbusy1⟩ := hA
  -- the receive step
  have hR : ∃ lr, (receive_report (send_announce s)).usbd.calls =
        (send_announce s).usbd.calls ++ lr ∧
      (lr = [] ∨ lr =
        [Call.claim s.endpoint_out_,
         Call.xfer s.endpoint_out_ Mem.ep_out_buffer_ 64 (s.ep_out_buffer_.take 64),
         Call.release s.endpoint_out_]) ∧
      (usbd_edpt_busy s.usbd s.endpoint_in_ = true →
        s.endpoint_in_ = s.endpoint_out_ → lr = []) ∧
      (usbd_edpt_busy s.usbd s.endpoint_in_ = true →
        usbd_edpt_busy (receive_report (send_announce s)).usbd s.endpoint_in_ = true) ∧
      (receive_report (send_announce s)).endpoint_in_ = s.endpoint_in_ ∧
      (receive_report (send_announce s)).endpoint_out_ = s.endpoint_out_ ∧
      (receive_report (send_announce s)).ep_in_buffer_ = s.ep_in_buffer_ := by
    rcases rcases_ with h | ⟨_, h⟩
    · exact ⟨[], by rw [h]; simp, Or.inl rfl, fun _ _ => rfl,
        fun hb => by rw [h]; exact hbusy1 hb, by rw [h, ai], by rw [h, ao],
        by rw [h, abi]⟩
    · refine ⟨_, by rw [h], Or.inr (by rw [ao, abo]), ?_, ?_, by rw [h, ai],
        by rw [h, ao], by rw [h, abi]⟩
      · intro hb heq
        have hb1 := hbusy1 hb
        rw [heq, ← ao] at hb1
        have h' := rbusy hb1
        rw [h] at h'
        have hc := congrArg (fun st : State => st.usbd.calls) h'
        simp at hc
      · intro hb
        have hb1 := hbusy1 hb
        rw [h]
        simp only [usbd_edpt_busy, decide_eq_true_eq] at hb1 ⊢
        exact List.mem_cons_of_mem _ hb1
  obtain ⟨lr, hlr, hlrshape, hlreq, hbusy2, ri, ro, rbi⟩ := hR
  by_cases hnew : gamepad.new_pad_in = true
  · obtain ⟨sbusy, scases⟩ := send_report_cases (receive_report (send_announce s))
      Mem.in_report_
      (XboxOneDevice.fill_report G X invert d gamepad.pad_in).in_report_.bytes 18
    have hp : (XboxOneDevice.process G X invert d s idx gamepad).2 =
        (send_report (receive_report (send_announce s)) Mem.in_report_
          (XboxOneDevice.fill_report G X invert d gamepad.pad_in).in_report_.bytes
          18).2 := by
      simp only [XboxOneDevice.process, hnew, if_true, Gamepad.get_pad_in]
    rw [hp]
    rcases scases with h | ⟨_, hfree, h⟩
    · refine ⟨la, lr, [], ?_, hlashape, hlrshape, Or.inl rfl, fun _ => rfl,
        fun hb => ⟨hlabusy hb, rfl⟩, hlreq, by rw [h, rbi], by rw [h, ri],
        by rw [h, ro]⟩
      rw [h, hlr, hla]
      simp
    · refine ⟨la, lr, _, ?_, hlashape, hlrshape, Or.inr rfl, ?_, ?_, hlreq,
        by rw [h, rbi], by rw [h, ri], by rw [h, ro]⟩
      · rw [h]
        simp only [hlr, hla, ri, List.append_assoc]
      · intro hn
        rw [hn] at hnew
        exact Bool.noConfusion hnew
      · intro hb
        have hb2 := hbusy2 hb
        rw [← ri, hfree] at hb2
        exact Bool.noConfusion hb2
  · have hn : gamepad.new_pad_in = false := by simpa using hnew
    have hp : (XboxOneDevice.process G X invert d s idx gamepad).2 =
        receive_report (send_announce s) := by
      simp [XboxOneDevice.process, hn]
    rw [hp]
    refine ⟨la, lr, [], ?_, hlashape, hlrshape, Or.inl rfl, fun _ => rfl,
      fun hb => ⟨hlabusy hb, rfl⟩, hlreq, rbi, ri, ro⟩
    rw [hlr, hla]
    simp

/-- The calls of `xfer_cb`: none unless an OUT transfer of at least one byte
completed; then the re-arm of the OUT endpoint, preceded by the identify
response or the ACK on the IN endpoint when one is sent. -/
theorem xfer_cb_shape (s : State) (rhport ep_addr result n : Nat) :
    ∃ l : List Call,
      (xfer_cb s rhport ep_addr result n).2.usbd.calls = s.usbd.calls ++ l ∧
      (¬ (ep_addr = s.endpoint_out_ ∧ 0 < n) → l = []) ∧
      ((ep_addr = s.endpoint_out_ ∧ 0 < n) →
        l = [Call.xfer s.endpoint_out_ Mem.ep_out_buffer_ 64
               (s.ep_out_buffer_.take 64)] ∨
        l = [Call.claim s.endpoint_in_,
             Call.xfer s.endpoint_in_ Mem.ep_in_buffer_ 24
               (IDENTIFY_RESPONSE.set 2 (s.ep_out_buffer_.getD 2 0)),
             Call.release s.endpoint_in_,
             Call.xfer s.endpoint_out_ Mem.ep_out_buffer_ 64
               (s.ep_out_buffer_.take 64)] ∨
        l = [Call.claim s.endpoint_in_,
             Call.xfer s.endpoint_in_ Mem.ep_in_buffer_ 5
               [0x01, 0x20, s.ep_out_buffer_.getD 2 0, 0x01,
                s.ep_out_buffer_.getD 0 0],
             Call.release s.endpoint_in_,
             Call.xfer s.endpoint_out_ Mem.ep_out_buffer_ 64
               (s.ep_out_buffer_.take 64)]) := by
  by_cases hc : ep_addr = s.endpoint_out_ ∧ 0 < n
  · obtain ⟨he, hn⟩ := hc
    subst he
    rw [xfer_cb_out s rhport result n hn]
    cases hb : usbd_edpt_busy s.usbd s.endpoint_in_
    · by_cases hcmd : s.ep_out_buffer_.getD 0 0 = GIP_CMD_IDENTIFY
      · refine ⟨_, ?_, fun h => absurd ⟨rfl, hn⟩ h, fun _ => Or.inr (Or.inl rfl)⟩
        simp only [hcmd, if_true, xfer_cb_identify_free s _ hb]
        simp [usbd_edpt_xfer, ENDPOINT_SIZE]
      · cases hf : (s.ep_out_buffer_.getD 1 0).testBit 4
        · refine ⟨_, ?_, fun h => absurd ⟨rfl, hn⟩ h, fun _ => Or.inl rfl⟩
          simp only [if_neg hcmd, xfer_cb_default_silent s _ _ _ hf]
          simp [usbd_edpt_xfer, ENDPOINT_SIZE]
        · refine ⟨_, ?_, fun h => absurd ⟨rfl, hn⟩ h, fun _ => Or.inr (Or.inr rfl)⟩
          simp only [if_neg hcmd, xfer_cb_default_ack s _ _ _ hf hb]
          simp [usbd_edpt_xfer, ENDPOINT_SIZE]
    · refine ⟨_, ?_, fun h => absurd ⟨rfl, hn⟩ h, fun _ => Or.inl rfl⟩
      simp only [xfer_cb_identify_busy s _ hb, xfer_cb_default_busy s _ _ _ hb, ite_self]
      simp [usbd_edpt_xfer, ENDPOINT_SIZE]
  · refine ⟨[], ?_, fun _ => rfl, fun h => absurd h hc⟩
    have hc' : ¬ (ep_addr = s.endpoint_out_ ∧ n > 0) := hc
    simp [xfer_cb, hc']

/-- C12: on a tick without new input, `XboxOneDevice::process` leaves the
device members unchanged (the whole `in_report_`, with `header.sequence`, and
`sequence_`) and submits no input report; `XInputGuitarDevice::process` leaves
`in_report_` unchanged and its only call is `tud_xinput::receive_report`: no
report is sent and no remote wakeup is requested. -/
theorem C12_no_new_input (G : Gamepad.Masks) (B : XInputGuitar.Bits)
    (X : XboxOne.Bits) (invert : Int → Int) (suspended : Bool)
    (rx : Bool × XInputGuitar.OutReport) (dg : XInputGuitarDevice)
    (dx : XboxOneDevice) (s : State) (idx : Nat) (gamepad : Gamepad)
    (hnone : gamepad.new_pad_in = false) :
    (XboxOneDevice.process G X invert dx s idx gamepad).1 = dx ∧
    inputReports (newCalls s (XboxOneDevice.process G X invert dx s idx gamepad).2) =
      0 ∧
    (XInputGuitarDevice.process G B invert suspended rx dg idx
        gamepad).1.in_report_ = dg.in_report_ ∧
    (XInputGuitarDevice.process G B invert suspended rx dg idx gamepad).2.2 =
      [XInputGuitar.Call.receive_report] := by
  obtain ⟨la, lr, li, hcalls, hla, hlr, -, hli, -⟩ :=
    process_calls G X invert dx s idx gamepad
  refine ⟨?_, ?_, ?_, ?_⟩
  · simp [XboxOneDevice.process, hnone]
  · rw [newCalls_of_append _ _ _ hcalls, hli hnone]
    rcases hla with h | h <;> rcases hlr with h' | h' <;>
      simp [h, h', inputReports]
  · simp only [XInputGuitarDevice.process, hnone]
    split <;> rfl
  · simp only [XInputGuitarDevice.process, hnone]
    split <;> rfl

/-- C12 at a concrete input: an idle tick on a ready device arms the OUT
endpoint and sends no input report. -/
theorem C12_no_new_input_witness :
    (XboxOneDevice.process Gamepad.Masks.oneBitEach XboxOne.Bits.gip (fun v => -v)
        freshDevice (sampleState false []) 0 idleGamepad).1 = freshDevice ∧
    inputReports (newCalls (sampleState false [])
      (XboxOneDevice.process Gamepad.Masks.oneBitEach XboxOne.Bits.gip (fun v => -v)
        freshDevice (sampleState false []) 0 idleGamepad).2) = 0 :=
  have h := C12_no_new_input Gamepad.Masks.oneBitEach XInputGuitar.Bits.xinput
    XboxOne.Bits.gip (fun v => -v) true
    (false, { report_id := 0, rumble_l := 0, rumble_r := 0 })
    { in_report_ :=
        { buttons0 := 0, buttons1 := 0, trigger_l := 0, trigger_r := 0
          joystick_lx := 0, joystick_ly := 0, joystick_rx := 0, joystick_ry := 0 }
      out_report_ := { report_id := 0, rumble_l := 0, rumble_r := 0 } }
    freshDevice (sampleState false []) 0 idleGamepad rfl
  ⟨h.1, h.2.1⟩

/-- C17: on every tick of `XInputGuitarDevice::process`, with or without new
input, `set_pad_out` is called if and only if `tud_xinput::receive_report`
returned true and the `report_id` of the received `out_report_` is 0; it is
then called once, with the `rumble_l` and `rumble_r` of the received report.
Otherwise the gamepad is left as it was. -/
theorem C17_guitar_rumble (G : Gamepad.Masks) (B : XInputGuitar.Bits)
    (invert : Int → Int) (suspended : Bool)
    (rx : Bool × XInputGuitar.OutReport) (d : XInputGuitarDevice) (idx : Nat)
    (gamepad : Gamepad) :
    (XInputGuitarDevice.process G B invert suspended rx d idx
        gamepad).1.out_report_ = rx.2 ∧
    ((rx.1 = true ∧ rx.2.report_id = 0) →
      (XInputGuitarDevice.process G B invert suspended rx d idx
          gamepad).2.1.pad_out_writes =
        gamepad.pad_out_writes ++
          [{ rumble_l := rx.2.rumble_l, rumble_r := rx.2.rumble_r }]) ∧
    (¬ (rx.1 = true ∧ rx.2.report_id = 0) →
      (XInputGuitarDevice.process G B invert suspended rx d idx gamepad).2.1 =
        gamepad) ∧
    ((XInputGuitarDevice.process G B invert suspended rx d idx
          gamepad).2.1.pad_out_writes.length =
        gamepad.pad_out_writes.length + 1 ↔
      (rx.1 = true ∧ rx.2.report_id = 0)) := by
  by_cases h : rx.1 = true ∧ rx.2.report_id = 0
  · have e : (XInputGuitarDevice.process G B invert suspended rx d idx gamepad).2.1 =
        gamepad.set_pad_out
          { rumble_l := rx.2.rumble_l, rumble_r := rx.2.rumble_r } := by
      simp only [XInputGuitarDevice.process]
      rw [if_pos h]
    have e1 : (XInputGuitarDevice.process G B invert suspended rx d idx
        gamepad).1.out_report_ = rx.2 := by
      simp only [XInputGuitarDevice.process]
      rw [if_pos h]
    refine ⟨e1, fun _ => by rw [e]; rfl, fun hn => absurd h hn, ?_⟩
    rw [e]
    simp [Gamepad.set_pad_out, h]
  · have e : (XInputGuitarDevice.process G B invert suspended rx d idx gamepad).2.1 =
        gamepad := by
      simp only [XInputGuitarDevice.process]
      rw [if_neg h]
    have e1 : (XInputGuitarDevice.process G B invert suspended rx d idx
        gamepad).1.out_report_ = rx.2 := by
      simp only [XInputGuitarDevice.process]
      rw [if_neg h]
    refine ⟨e1, fun hp => absurd hp h, fun _ => e, ?_⟩
    rw [e]
    constructor
    · intro hl; omega
    · intro hp; exact absurd hp h

/-- C18: `xfer_cb` called with `xferred_bytes` = 0, or for an endpoint address
other than `endpoint_out_`, returns true and leaves the whole state as it
was: no call into the stack, and the handles, the latch and both buffers
unchanged. -/
theorem C18_ignored_transfers (s : State) (rhport ep_addr result n : Nat)
    (h : n = 0 ∨ ep_addr ≠ s.endpoint_out_) :
    xfer_cb s rhport ep_addr result n = (true, s) ∧
    newCalls s (xfer_cb s rhport ep_addr result n).2 = [] := by
  have hc : ¬ (ep_addr = s.endpoint_out_ ∧ n > 0) := by
    rintro ⟨h1, h2⟩
    rcases h with h | h
    · omega
    · exact h h1
  have e : xfer_cb s rhport ep_addr result n = (true, s) := by
    simp [xfer_cb, hc]
  refine ⟨e, ?_⟩
  rw [e]
  simp [newCalls]

/-- C18 at concrete inputs: a zero-length completion on the OUT endpoint, and
a completion on the IN endpoint, of an ACK-requesting packet. -/
theorem C18_ignored_transfers_witness :
    xfer_cb (sampleState false [0x05, 0x10, 9]) 0 0x02 0 0 =
      (true, sampleState false [0x05, 0x10, 9]) ∧
    xfer_cb (sampleState false [0x05, 0x10, 9]) 0 0x82 0 5 =
      (true, sampleState false [0x05, 0x10, 9]) :=
  ⟨(C18_ignored_transfers (sampleState false [0x05, 0x10, 9]) 0 0x02 0 0
      (Or.inl rfl)).1,
   (C18_ignored_transfers (sampleState false [0x05, 0x10, 9]) 0 0x82 0 5
      (Or.inr (by decide))).1⟩

/-- C13, as stated, fails for the re-arm at the end of `xfer_cb`: after an
IDENTIFY packet with the IN endpoint free, the response on the IN endpoint is
submitted between claim and release, but the receive on the OUT endpoint
(0x02) is submitted without any claim of that endpoint. -/
theorem C13_counterexample :
    newCalls (sampleState false [0x04, 0x00, 7])
        (xfer_cb (sampleState false [0x04, 0x00, 7]) 0 0x02 0 3).2 =
      [Call.claim 0x82,
       Call.xfer 0x82 Mem.ep_in_buffer_ 24 (IDENTIFY_RESPONSE.set 2 7),
       Call.release 0x82,
       Call.xfer 0x02 Mem.ep_out_buffer_ 64 ([0x04, 0x00, 7] ++ memset0 61)] ∧
    claimsOn 0x02 (newCalls (sampleState false [0x04, 0x00, 7])
        (xfer_cb (sampleState false [0x04, 0x00, 7]) 0 0x02 0 3).2) = 0 ∧
    unclaimedXfers [] (newCalls (sampleState false [0x04, 0x00, 7])
        (xfer_cb (sampleState false [0x04, 0x00, 7]) 0 0x02 0 3).2) =
      [Call.xfer 0x02 Mem.ep_out_buffer_ 64 ([0x04, 0x00, 7] ++ memset0 61)] := by
  decide

/-- C13, amended: every submission made by `send_report`, `receive_report`,
`send_announce` and a whole tick of `XboxOneDevice::process` happens on an
endpoint the driver has claimed and not yet released, and so does every
submission of `xfer_cb` on the IN endpoint; the one submission `xfer_cb`
makes outside a claim is its final re-arm of the OUT endpoint, made exactly
when an OUT transfer of at least one byte completed. -/
theorem C13_claimed_submissions (G : Gamepad.Masks) (X : XboxOne.Bits)
    (invert : Int → Int) (d : XboxOneDevice) (s : State) (src : Mem)
    (report : List Nat) (len rhport ep_addr result n idx : Nat)
    (gamepad : Gamepad) :
    unclaimedXfers [] (newCalls s (send_report s src report len).2) = [] ∧
    unclaimedXfers [] (newCalls s (receive_report s)) = [] ∧
    unclaimedXfers [] (newCalls s (send_announce s)) = [] ∧
    unclaimedXfers []
      (newCalls s (XboxOneDevice.process G X invert d s idx gamepad).2) = [] ∧
    unclaimedXfers [] (newCalls s (xfer_cb s rhport ep_addr result n).2) =
      (if ep_addr = s.endpoint_out_ ∧ 0 < n then
        [Call.xfer s.endpoint_out_ Mem.ep_out_buffer_ 64
           (s.ep_out_buffer_.take 64)]
       else []) := by
  refine ⟨?_, ?_, ?_, ?_, ?_⟩
  · rcases (send_report_cases s src report len).2 with h | ⟨_, _, h⟩
    · rw [h]; simp [newCalls, unclaimedXfers]
    · rw [newCalls_of_append _ _ _ (by rw [h])]
      simp [unclaimedXfers]
  · rcases (receive_report_cases s).2 with h | ⟨_, h⟩
    · rw [h]; simp [newCalls, unclaimedXfers]
    · rw [newCalls_of_append _ _ _ (by rw [h])]
      simp [unclaimedXfers]
  · obtain ⟨-, -, -, -, -, h⟩ := send_announce_cases s
    rcases h with h | h
    · simp [newCalls, h, unclaimedXfers]
    · rw [newCalls_of_append _ _ _ (by rw [h])]
      simp [unclaimedXfers]
  · obtain ⟨la, lr, li, hcalls, hla, hlr, hli, -⟩ :=
      process_calls G X invert d s idx gamepad
    rw [newCalls_of_append _ _ _ hcalls]
    rcases hla with h | h <;> rcases hlr with h' | h' <;> rcases hli with h'' | h'' <;>
      simp [h, h', h'', unclaimedXfers]
  · obtain ⟨l, hcalls, hnot, hyes⟩ := xfer_cb_shape s rhport ep_addr result n
    rw [newCalls_of_append _ _ _ hcalls]
    by_cases hc : ep_addr = s.endpoint_out_ ∧ 0 < n
    · rw [if_pos hc]
      rcases hyes hc with h | h | h <;> simp [h, unclaimedXfers]
    · rw [if_neg hc, hnot hc]
      rfl

/-- C13 (amended) at a concrete input: a tick that announces, arms the OUT
endpoint and finds the IN endpoint busy for the input report submits nothing
outside a claim. -/
theorem C13_claimed_submissions_witness :
    unclaimedXfers []
      (newCalls { announcePending with
                  usbd := { ready := true, busy := [], calls := [] } }
        (XboxOneDevice.process Gamepad.Masks.oneBitEach XboxOne.Bits.gip
          (fun v => -v) freshDevice
          { announcePending with
            usbd := { ready := true, busy := [], calls := [] } }
          0 pressedGamepad).2) = [] :=
  (C13_claimed_submissions Gamepad.Masks.oneBitEach XboxOne.Bits.gip
    (fun v => -v) freshDevice
    { announcePending with usbd := { ready := true, busy := [], calls := [] } }
    Mem.in_report_ [] 0 0 0 0 0 0 pressedGamepad).2.2.2.1

/-- C14, as stated, fails for `in_report_`: a tick with new input submits
`in_report_` (sequence 1) on the IN endpoint 0x82, which stays busy; the next
tick with new input, before any completion, rewrites `in_report_` (its
sequence becomes 2, so its bytes differ from the bytes in flight) and then
skips the send because the endpoint is busy. -/
theorem C14_counterexample :
    xfersOn 0x82 (session Gamepad.Masks.oneBitEach XboxOne.Bits.gip (fun v => -v)
      (freshDevice, sampleState false [])
      [Stimulus.process 0 pressedGamepad]).2.usbd.calls =
      [(Mem.in_report_, 18,
        [0x20, 0, 1, 14, 0x10, 0x01, 0, 0, 0, 0, 100, 0, 56, 255, 212, 254, 144, 1])] ∧
    usbd_edpt_busy (session Gamepad.Masks.oneBitEach XboxOne.Bits.gip (fun v => -v)
      (freshDevice, sampleState false [])
      [Stimulus.process 0 pressedGamepad]).2.usbd 0x82 = true ∧
    (session Gamepad.Masks.oneBitEach XboxOne.Bits.gip (fun v => -v)
      (freshDevice, sampleState false [])
      [Stimulus.process 0 pressedGamepad]).1.in_report_.header.sequence = 1 ∧
    (session Gamepad.Masks.oneBitEach XboxOne.Bits.gip (fun v => -v)
      (freshDevice, sampleState false [])
      [Stimulus.process 0 pressedGamepad,
       Stimulus.process 0 pressedGamepad]).1.in_report_.header.sequence = 2 ∧
    (session Gamepad.Masks.oneBitEach XboxOne.Bits.gip (fun v => -v)
      (freshDevice, sampleState false [])
      [Stimulus.process 0 pressedGamepad,
       Stimulus.process 0 pressedGamepad]).1.in_report_.bytes =
      [0x20, 0, 2, 14, 0x10, 0x01, 0, 0, 0, 0, 100, 0, 56, 255, 212, 254, 144, 1] ∧
    xfersOn 0x82 (session Gamepad.Masks.oneBitEach XboxOne.Bits.gip (fun v => -v)
      (freshDevice, sampleState false [])
      [Stimulus.process 0 pressedGamepad,
       Stimulus.process 0 pressedGamepad]).2.usbd.calls =
      [(Mem.in_report_, 18,
        [0x20, 0, 1, 14, 0x10, 0x01, 0, 0, 0, 0, 100, 0, 56, 255, 212, 254, 144, 1])] := by
  decide

/-- No submission on an endpoint among the claim, submission and release on
another endpoint. -/
theorem xfersOn_other (ep other : Nat) (buf : Mem) (len : Nat) (snap : List Nat)
    (h : other ≠ ep) :
    xfersOn ep [Call.claim other, Call.xfer other buf len snap,
      Call.release other] = [] := by
  simp [xfersOn, h]

/-- C14, amended: with an endpoint busy from a submission until its
completion callback, while the IN endpoint is busy `xfer_cb` does not write
`ep_in_buffer_` and submits nothing on the IN endpoint, and a tick of
`XboxOneDevice::process` does not write `ep_in_buffer_` and submits nothing on
the IN endpoint either; but a tick with new input rebuilds `in_report_` from
the input, and increments its sequence, whether or not the IN endpoint is
busy. -/
theorem C14_busy_in_endpoint (G : Gamepad.Masks) (X : XboxOne.Bits)
    (invert : Int → Int) (d : XboxOneDevice) (s : State)
    (rhport ep_addr result n idx : Nat) (gamepad : Gamepad)
    (hbusy : usbd_edpt_busy s.usbd s.endpoint_in_ = true) :
    ((xfer_cb s rhport ep_addr result n).2.ep_in_buffer_ = s.ep_in_buffer_ ∧
      (s.endpoint_in_ ≠ s.endpoint_out_ →
        xfersOn s.endpoint_in_
          (newCalls s (xfer_cb s rhport ep_addr result n).2) = [])) ∧
    ((XboxOneDevice.process G X invert d s idx gamepad).2.ep_in_buffer_ =
        s.ep_in_buffer_ ∧
      xfersOn s.endpoint_in_
        (newCalls s (XboxOneDevice.process G X invert d s idx gamepad).2) = []) ∧
    (gamepad.new_pad_in = true →
      (XboxOneDevice.process G X invert d s idx gamepad).1 =
        XboxOneDevice.fill_report G X invert d gamepad.pad_in ∧
      (XboxOneDevice.process G X invert d s idx
          gamepad).1.in_report_.header.sequence =
        (d.in_report_.header.sequence + 1) % 256) := by
  refine ⟨⟨?_, ?_⟩, ⟨?_, ?_⟩, ?_⟩
  · by_cases hc : ep_addr = s.endpoint_out_ ∧ 0 < n
    · obtain ⟨he, hn⟩ := hc
      subst he
      exact (xfer_cb_calls_busy s rhport result n hn hbusy).2
    · have hc' : ¬ (ep_addr = s.endpoint_out_ ∧ n > 0) := hc
      simp [xfer_cb, hc']
  · intro hne
    by_cases hc : ep_addr = s.endpoint_out_ ∧ 0 < n
    · obtain ⟨he, hn⟩ := hc
      subst he
      rw [(xfer_cb_calls_busy s rhport result n hn hbusy).1]
      simp [xfersOn, Ne.symm hne]
    · have hc' : ¬ (ep_addr = s.endpoint_out_ ∧ n > 0) := hc
      simp [xfer_cb, hc', newCalls, xfersOn]
  · obtain ⟨la, lr, li, -, -, -, -, -, -, -, h, -⟩ :=
      process_calls G X invert d s idx gamepad
    exact h
  · obtain ⟨la, lr, li, hcalls, -, hlr, -, -, hb, heq, -⟩ :=
      process_calls G X invert d s idx gamepad
    rw [newCalls_of_append _ _ _ hcalls, (hb hbusy).1, (hb hbusy).2]
    by_cases hio : s.endpoint_in_ = s.endpoint_out_
    · rw [heq hbusy hio]
      rfl
    · rcases hlr with h | h
      · rw [h]; rfl
      · rw [h]
        simp only [List.nil_append, List.append_nil]
        exact xfersOn_other _ _ _ _ _ (Ne.symm hio)
  · intro hnew
    rw [xboxone_process_new G X invert d s idx gamepad hnew]
    exact ⟨rfl, rfl⟩

/-- C14 (amended) at a concrete input: a tick with new input that finds the IN
endpoint busy submits nothing on it, yet the sequence of `in_report_` has
moved from 0 to 1. -/
theorem C14_busy_in_endpoint_witness :
    xfersOn 0x82
      (newCalls (sampleState true [])
        (XboxOneDevice.process Gamepad.Masks.oneBitEach XboxOne.Bits.gip
          (fun v => -v) freshDevice (sampleState true []) 0 pressedGamepad).2) = [] ∧
    (XboxOneDevice.process Gamepad.Masks.oneBitEach XboxOne.Bits.gip
        (fun v => -v) freshDevice (sampleState true []) 0
        pressedGamepad).1.in_report_.header.sequence = 1 :=
  have h := C14_busy_in_endpoint Gamepad.Masks.oneBitEach XboxOne.Bits.gip
    (fun v => -v) freshDevice (sampleState true []) 0 0 0 0 0 pressedGamepad
    (by decide)
  ⟨h.2.1.2, (h.2.2 rfl).2⟩

/-- The device members after one stimulus: only a tick with new input changes
them. -/
theorem apply_device (G : Gamepad.Masks) (X : XboxOne.Bits)
    (invert : Int → Int) (sys : XboxOneDevice × State) (st : Stimulus) :
    (Stimulus.apply G X invert sys st).1 =
      match st with
      | Stimulus.process _ gamepad =>
          if gamepad.new_pad_in then
            XboxOneDevice.fill_report G X invert sys.1 gamepad.pad_in
          else sys.1
      | _ => sys.1 := by
  cases st with
  | process idx gamepad =>
    cases hn : gamepad.new_pad_in
    · simp [Stimulus.apply, XboxOneDevice.process, hn]
    · simp [Stimulus.apply, XboxOneDevice.process, hn, Gamepad.get_pad_in]
  | xfer_cb rhport ep_addr result n => rfl
  | opened a b => rfl
  | stack ready busy received => rfl

/-- The sequence counters along a session that starts with both at `a`. -/
theorem session_sequence (G : Gamepad.Masks) (X : XboxOne.Bits)
    (invert : Int → Int) (stimuli : List Stimulus) :
    ∀ (sys : XboxOneDevice × State) (a : Nat),
      sys.1.in_report_.header.sequence = a → sys.1.sequence_ = a → a < 256 →
      (session G X invert sys stimuli).1.in_report_.header.sequence =
        (a + newInputTicks stimuli) % 256 ∧
      (session G X invert sys stimuli).1.sequence_ =
        (a + newInputTicks stimuli) % 256 := by
  induction stimuli with
  | nil =>
    intro sys a h1 h2 ha
    simp only [session, List.foldl, newInputTicks, Nat.add_zero]
    rw [Nat.mod_eq_of_lt ha]
    exact ⟨h1, h2⟩
  | cons st rest ih =>
    intro sys a h1 h2 ha
    have e : session G X invert sys (st :: rest) =
        session G X invert (Stimulus.apply G X invert sys st) rest := rfl
    rw [e]
    have hd := apply_device G X invert sys st
    cases st with
    | process idx gamepad =>
      cases hn : gamepad.new_pad_in
      · simp only [hn] at hd
        have := ih (Stimulus.apply G X invert sys (Stimulus.process idx gamepad)) a
          (by rw [hd]; exact h1) (by rw [hd]; exact h2) ha
        simpa [newInputTicks, hn] using this
      · simp only [hn, if_true] at hd
        have h3 : (Stimulus.apply G X invert sys
            (Stimulus.process idx gamepad)).1.in_report_.header.sequence =
            (a + 1) % 256 := by
          rw [hd, ← h1]; rfl
        have h4 : (Stimulus.apply G X invert sys
            (Stimulus.process idx gamepad)).1.sequence_ = (a + 1) % 256 := by
          rw [hd, ← h1]; rfl
        have := ih (Stimulus.apply G X invert sys (Stimulus.process idx gamepad))
          ((a + 1) % 256) h3 h4 (Nat.mod_lt _ (by norm_num))
        simp only [newInputTicks, hn, if_true]
        rw [this.1, this.2]
        constructor <;> omega
    | xfer_cb rhport ep_addr result n =>
      have := ih (Stimulus.apply G X invert sys
        (Stimulus.xfer_cb rhport ep_addr result n)) a
        (by rw [hd]; exact h1) (by rw [hd]; exact h2) ha
      simpa [newInputTicks] using this
    | opened p q =>
      have := ih (Stimulus.apply G X invert sys (Stimulus.opened p q)) a
        (by rw [hd]; exact h1) (by rw [hd]; exact h2) ha
      simpa [newInputTicks] using this
    | stack ready busy received =>
      have := ih (Stimulus.apply G X invert sys
        (Stimulus.stack ready busy received)) a
        (by rw [hd]; exact h1) (by rw [hd]; exact h2) ha
      simpa [newInputTicks] using this

/-- The sequence counters along a session that starts with
`header.sequence` at `a`: the header counts the ticks with new input, and
`sequence_` follows it from the first such tick on, keeping its own value
before. -/
theorem session_header_sequence (G : Gamepad.Masks) (X : XboxOne.Bits)
    (invert : Int → Int) (stimuli : List Stimulus) :
    ∀ (sys : XboxOneDevice × State) (a : Nat),
      sys.1.in_report_.header.sequence = a → a < 256 →
      (session G X invert sys stimuli).1.in_report_.header.sequence =
        (a + newInputTicks stimuli) % 256 ∧
      (0 < newInputTicks stimuli →
        (session G X invert sys stimuli).1.sequence_ =
          (a + newInputTicks stimuli) % 256) ∧
      (newInputTicks stimuli = 0 →
        (session G X invert sys stimuli).1.sequence_ = sys.1.sequence_) := by
  induction stimuli with
  | nil =>
    intro sys a h1 ha
    have e : session G X invert sys [] = sys := rfl
    have n0 : newInputTicks [] = 0 := rfl
    rw [e, n0, Nat.add_zero, Nat.mod_eq_of_lt ha]
    exact ⟨h1, fun h => absurd h (Nat.lt_irrefl 0), fun _ => rfl⟩
  | cons st rest ih =>
    intro sys a h1 ha
    have e : session G X invert sys (st :: rest) =
        session G X invert (Stimulus.apply G X invert sys st) rest := rfl
    rw [e]
    have hd := apply_device G X invert sys st
    cases st with
    | process idx gamepad =>
      cases hn : gamepad.new_pad_in
      · simp only [hn] at hd
        have := ih (Stimulus.apply G X invert sys (Stimulus.process idx gamepad)) a
          (by rw [hd]; exact h1) ha
        rw [hd] at this
        simpa [newInputTicks, hn] using this
      · simp only [hn, if_true] at hd
        have h3 : (Stimulus.apply G X invert sys
            (Stimulus.process idx gamepad)).1.in_report_.header.sequence =
            (a + 1) % 256 := by
          rw [hd, ← h1]; rfl
        have h4 : (Stimulus.apply G X invert sys
            (Stimulus.process idx gamepad)).1.sequence_ = (a + 1) % 256 := by
          rw [hd, ← h1]; rfl
        have := session_sequence G X invert rest
          (Stimulus.apply G X invert sys (Stimulus.process idx gamepad))
          ((a + 1) % 256) h3 h4 (Nat.mod_lt _ (by norm_num))
        simp only [newInputTicks, hn, if_true]
        rw [this.1, this.2]
        refine ⟨by omega, fun _ => by omega, fun h => by omega⟩
    | xfer_cb rhport ep_addr result n =>
      have := ih (Stimulus.apply G X invert sys
        (Stimulus.xfer_cb rhport ep_addr result n)) a (by rw [hd]; exact h1) ha
      rw [hd] at this
      simpa [newInputTicks] using this
    | opened p q =>
      have := ih (Stimulus.apply G X invert sys (Stimulus.opened p q)) a
        (by rw [hd]; exact h1) ha
      rw [hd] at this
      simpa [newInputTicks] using this
    | stack ready busy received =>
      have := ih (Stimulus.apply G X invert sys
        (Stimulus.stack ready busy received)) a (by rw [hd]; exact h1) ha
      rw [hd] at this
      simpa [newInputTicks] using this

/-- C19, as stated, fails for `sequence_` before the first tick with new
input: `initialize()` does not assign `sequence_`. On a device that has seen
three ticks with new input, a second `initialize()` sets `header.sequence` to
0 and leaves `sequence_` at 3, and it is still 3 after a tick without new
input, although no tick with new input has followed (n = 0). -/
theorem C19_counterexample :
    usedDevice.sequence_ = 3 ∧
    ( XboxOneDevice.initialize usedDevice).in_report_.header.sequence = 0 ∧
    ( XboxOneDevice.initialize usedDevice).sequence_ = 3 ∧
    newInputTicks [Stimulus.process 0 idleGamepad] % 256 = 0 ∧
    (session Gamepad.Masks.oneBitEach XboxOne.Bits.gip (fun v => -v)
        ( XboxOneDevice.initialize usedDevice, sampleState false [])
        [Stimulus.process 0 idleGamepad]).1.in_report_.header.sequence = 0 ∧
    (session Gamepad.Masks.oneBitEach XboxOne.Bits.gip (fun v => -v)
        ( XboxOneDevice.initialize usedDevice, sampleState false [])
        [Stimulus.process 0 idleGamepad]).1.sequence_ = 3 := by
  decide

/-- C19, amended: after `XboxOneDevice::initialize` (which sets
`header.sequence` to 0 and does not touch `sequence_`) and after any session
(ticks, `xfer_cb` callbacks, `open`, moves of the stack and the host: the IN
endpoint busy or free, the device ready or not) of which `n` ticks had new
input, `in_report_.header.sequence` equals `n mod 256`; `sequence_` equals it
as soon as `n` is at least 1, and before that it keeps the value it had before
`initialize`, which is the 0 of its member initialiser on a device that was
just constructed. A tick with new input takes both counters from 255 to 0,
whatever the state of the driver. -/
theorem C19_sequence_counter (G : Gamepad.Masks) (X : XboxOne.Bits)
    (invert : Int → Int) (d : XboxOneDevice) (s : State)
    (stimuli : List Stimulus) :
    ( XboxOneDevice.initialize d).in_report_.header.sequence = 0 ∧
    ( XboxOneDevice.initialize d).sequence_ = d.sequence_ ∧
    (session G X invert ( XboxOneDevice.initialize d, s)
        stimuli).1.in_report_.header.sequence = newInputTicks stimuli % 256 ∧
    (0 < newInputTicks stimuli →
      (session G X invert ( XboxOneDevice.initialize d, s) stimuli).1.sequence_ =
        newInputTicks stimuli % 256) ∧
    (newInputTicks stimuli = 0 →
      (session G X invert ( XboxOneDevice.initialize d, s) stimuli).1.sequence_ =
        d.sequence_) ∧
    (d.sequence_ = 0 →
      (session G X invert ( XboxOneDevice.initialize d, s) stimuli).1.sequence_ =
        newInputTicks stimuli % 256) ∧
    (∀ (d2 : XboxOneDevice) (s2 : State) (idx : Nat) (gamepad : Gamepad),
      gamepad.new_pad_in = true → d2.in_report_.header.sequence = 255 →
      (XboxOneDevice.process G X invert d2 s2 idx
          gamepad).1.in_report_.header.sequence = 0 ∧
      (XboxOneDevice.process G X invert d2 s2 idx gamepad).1.sequence_ = 0) := by
  have h := session_header_sequence G X invert stimuli
    ( XboxOneDevice.initialize d, s) 0 rfl (by norm_num)
  simp only [Nat.zero_add] at h
  refine ⟨rfl, rfl, h.1, h.2.1, h.2.2, ?_, ?_⟩
  · intro hctor
    rcases Nat.eq_zero_or_pos (newInputTicks stimuli) with hz | hp
    · rw [h.2.2 hz, hz]
      exact hctor
    · exact h.2.1 hp
  · intro d2 s2 idx gamepad hnew h255
    rw [xboxone_process_new G X invert d2 s2 idx gamepad hnew]
    have e1 : (XboxOneDevice.fill_report G X invert d2
        gamepad.pad_in).in_report_.header.sequence =
        (d2.in_report_.header.sequence + 1) % 256 := rfl
    have e2 : (XboxOneDevice.fill_report G X invert d2 gamepad.pad_in).sequence_ =
        (d2.in_report_.header.sequence + 1) % 256 := rfl
    rw [e1, e2, h255]
    exact ⟨rfl, rfl⟩

/-- C19 (amended) at a concrete session: after a second `initialize()` on a
used device, three ticks with new input, the second and the third with the IN
endpoint still busy, and an idle tick give sequence 3 in both counters. -/
theorem C19_sequence_counter_witness :
    (session Gamepad.Masks.oneBitEach XboxOne.Bits.gip (fun v => -v)
        ( XboxOneDevice.initialize usedDevice, sampleState false [])
        [Stimulus.process 0 pressedGamepad, Stimulus.process 0 pressedGamepad,
         Stimulus.process 0 idleGamepad,
         Stimulus.process 0 pressedGamepad]).1.in_report_.header.sequence = 3 ∧
    (session Gamepad.Masks.oneBitEach XboxOne.Bits.gip (fun v => -v)
        ( XboxOneDevice.initialize usedDevice, sampleState false [])
        [Stimulus.process 0 pressedGamepad, Stimulus.process 0 pressedGamepad,
         Stimulus.process 0 idleGamepad,
         Stimulus.process 0 pressedGamepad]).1.sequence_ = 3 :=
  have h := C19_sequence_counter Gamepad.Masks.oneBitEach XboxOne.Bits.gip
    (fun v => -v) usedDevice (sampleState false [])
    [Stimulus.process 0 pressedGamepad, Stimulus.process 0 pressedGamepad,
     Stimulus.process 0 idleGamepad, Stimulus.process 0 pressedGamepad]
  ⟨h.2.2.1, h.2.2.2.1 (by decide)⟩

/-- The bytes of an input report whose header holds the command 0x20 and the
length 14 are a well-framed GIP packet of 18 bytes. -/
theorem in_report_framed (ep : Nat) (r : XboxOne.InReport)
    (hc : r.header.command = 0x20) (hl : r.header.length = 14) :
    GipFramed (Call.xfer ep Mem.in_report_ 18 (r.bytes.take 18)) := by
  simp [GipFramed, XboxOne.InReport.bytes, XboxOne.le16, hc, hl]

/-- Rebuilding the report keeps the command and the length of its header. -/
theorem fill_report_header (G : Gamepad.Masks) (X : XboxOne.Bits)
    (invert : Int → Int) (d : XboxOneDevice) (p : Gamepad.PadIn) :
    (XboxOneDevice.fill_report G X invert d p).in_report_.header.command =
      d.in_report_.header.command ∧
    (XboxOneDevice.fill_report G X invert d p).in_report_.header.length =
      d.in_report_.header.length :=
  ⟨rfl, rfl⟩

/-- One stimulus on a device whose header holds the command 0x20 and the
length 14 keeps that header and appends only well-framed calls. -/
theorem apply_framed (G : Gamepad.Masks) (X : XboxOne.Bits)
    (invert : Int → Int) (sys : XboxOneDevice × State) (st : Stimulus)
    (hc : sys.1.in_report_.header.command = 0x20)
    (hl : sys.1.in_report_.header.length = 14) :
    (Stimulus.apply G X invert sys st).1.in_report_.header.command = 0x20 ∧
    (Stimulus.apply G X invert sys st).1.in_report_.header.length = 14 ∧
    ∃ l, (Stimulus.apply G X invert sys st).2.usbd.calls = sys.2.usbd.calls ++ l ∧
      ∀ c ∈ l, GipFramed c := by
  have hd := apply_device G X invert sys st
  cases st with
  | process idx gamepad =>
    have hf := fill_report_header G X invert sys.1 gamepad.pad_in
    refine ⟨?_, ?_, ?_⟩
    · cases hn : gamepad.new_pad_in
      · simp only [hn] at hd
        rw [hd]; exact hc
      · simp only [hn, if_true] at hd
        rw [hd, hf.1]; exact hc
    · cases hn : gamepad.new_pad_in
      · simp only [hn] at hd
        rw [hd]; exact hl
      · simp only [hn, if_true] at hd
        rw [hd, hf.2]; exact hl
    · obtain ⟨la, lr, li, hcalls, hla, hlr, hli, -⟩ :=
        process_calls G X invert sys.1 sys.2 idx gamepad
      refine ⟨la ++ (lr ++ li), hcalls, ?_⟩
      have hrep := in_report_framed sys.2.endpoint_in_
        (XboxOneDevice.fill_report G X invert sys.1 gamepad.pad_in).in_report_
        (hf.1.trans hc) (hf.2.trans hl)
      intro c hcm
      simp only [List.mem_append] at hcm
      rcases hcm with hcm | hcm | hcm
      · rcases hla with h | h
        · rw [h] at hcm; exact absurd hcm (List.not_mem_nil _)
        · rw [h] at hcm
          simp only [List.mem_cons, List.mem_singleton, List.not_mem_nil,
            or_false] at hcm
          rcases hcm with h | h | h <;> rw [h] <;>
            simp [GipFramed, ANNOUNCE_PACKET, GIP_CMD_ANNOUNCE]
      · rcases hlr with h | h
        · rw [h] at hcm; exact absurd hcm (List.not_mem_nil _)
        · rw [h] at hcm
          simp only [List.mem_cons, List.mem_singleton, List.not_mem_nil,
            or_false] at hcm
          rcases hcm with h | h | h <;> rw [h] <;> simp [GipFramed]
      · rcases hli with h | h
        · rw [h] at hcm; exact absurd hcm (List.not_mem_nil _)
        · rw [h] at hcm
          simp only [List.mem_cons, List.mem_singleton, List.not_mem_nil,
            or_false] at hcm
          rcases hcm with h | h | h
          · rw [h]; simp [GipFramed]
          · rw [h]; exact hrep
          · rw [h]; simp [GipFramed]
  | xfer_cb rhport ep_addr result n =>
    refine ⟨by rw [hd]; exact hc, by rw [hd]; exact hl, ?_⟩
    obtain ⟨l, hcalls, hnot, hyes⟩ := xfer_cb_shape sys.2 rhport ep_addr result n
    refine ⟨l, hcalls, ?_⟩
    intro c hcm
    by_cases hcond : ep_addr = sys.2.endpoint_out_ ∧ 0 < n
    · rcases hyes hcond with h | h | h <;> rw [h] at hcm <;>
        simp only [List.mem_cons, List.mem_singleton, List.not_mem_nil,
          or_false] at hcm
      · rw [hcm]; simp [GipFramed]
      · rcases hcm with h | h | h | h <;> rw [h] <;>
          simp [GipFramed, IDENTIFY_RESPONSE, GIP_CMD_IDENTIFY]
      · rcases hcm with h | h | h | h <;> rw [h] <;> simp [GipFramed]
    · rw [hnot hcond] at hcm
      exact absurd hcm (List.not_mem_nil _)
  | opened a b =>
    exact ⟨by rw [hd]; exact hc, by rw [hd]; exact hl, [], by simp [Stimulus.apply],
      fun c h => absurd h (List.not_mem_nil _)⟩
  | stack ready busy received =>
    exact ⟨by rw [hd]; exact hc, by rw [hd]; exact hl, [], by simp [Stimulus.apply],
      fun c h => absurd h (List.not_mem_nil _)⟩

/-- A session on a device whose header holds the command 0x20 and the length
14 appends only well-framed calls. -/
theorem session_framed (G : Gamepad.Masks) (X : XboxOne.Bits)
    (invert : Int → Int) (stimuli : List Stimulus) :
    ∀ sys : XboxOneDevice × State,
      sys.1.in_report_.header.command = 0x20 →
      sys.1.in_report_.header.length = 14 →
      ∃ l, (session G X invert sys stimuli).2.usbd.calls = sys.2.usbd.calls ++ l ∧
        ∀ c ∈ l, GipFramed c := by
  induction stimuli with
  | nil =>
    intro sys _ _
    exact ⟨[], by simp [session], fun c h => absurd h (List.not_mem_nil _)⟩
  | cons st rest ih =>
    intro sys hc hl
    obtain ⟨hc1, hl1, l1, e1, f1⟩ := apply_framed G X invert sys st hc hl
    obtain ⟨l2, e2, f2⟩ := ih (Stimulus.apply G X invert sys st) hc1 hl1
    have e : session G X invert sys (st :: rest) =
        session G X invert (Stimulus.apply G X invert sys st) rest := rfl
    refine ⟨l1 ++ l2, by rw [e, e2, e1, List.append_assoc], ?_⟩
    intro c hcm
    rcases List.mem_append.1 hcm with h | h
    · exact f1 c h
    · exact f2 c h

/-- C20: every GIP packet the Xbox One driver submits in a session that
starts from `XboxOneDevice::initialize` is a 4-byte header followed by as many
payload bytes as its byte 3 says: the identify response (24 = 4 + 0x14, byte 0
= 0x04), the announce (24 = 4 + 0x14, byte 0 = 0x02), the ACK (5 = 4 + 1,
byte 0 = 0x01) and the input report (18 = 4 + 14, byte 0 = 0x20); the
constant packets and the report set up by `initialize` have these sizes and
header bytes. -/
theorem C20_gip_framing (G : Gamepad.Masks) (X : XboxOne.Bits)
    (invert : Int → Int) (d : XboxOneDevice) (s : State)
    (stimuli : List Stimulus) :
    (∀ c ∈ newCalls s
        (session G X invert ( XboxOneDevice.initialize d, s) stimuli).2,
      GipFramed c) ∧
    (IDENTIFY_RESPONSE.length = 24 ∧ IDENTIFY_RESPONSE.getD 3 0 = 0x14 ∧
      IDENTIFY_RESPONSE.getD 0 0 = 0x04) ∧
    (ANNOUNCE_PACKET.length = 24 ∧ ANNOUNCE_PACKET.getD 3 0 = 0x14 ∧
      ANNOUNCE_PACKET.getD 0 0 = 0x02) ∧
    (∀ seq cmd : Nat, [GIP_CMD_ACK, GIP_OPT_INTERNAL, seq, 0x01, cmd].length = 5 ∧
      [GIP_CMD_ACK, GIP_OPT_INTERNAL, seq, 0x01, cmd].getD 3 0 = 1 ∧
      [GIP_CMD_ACK, GIP_OPT_INTERNAL, seq, 0x01, cmd].getD 0 0 = 0x01) ∧
    (( XboxOneDevice.initialize d).in_report_.bytes.length = 18 ∧
      ( XboxOneDevice.initialize d).in_report_.bytes.getD 3 0 = 14 ∧
      ( XboxOneDevice.initialize d).in_report_.bytes.getD 0 0 = 0x20) := by
  refine ⟨?_, by decide, by decide, fun _ _ => ⟨rfl, rfl, rfl⟩, ⟨rfl, rfl, rfl⟩⟩
  obtain ⟨l, hcalls, hf⟩ := session_framed G X invert stimuli
    ( XboxOneDevice.initialize d, s) rfl rfl
  rw [newCalls_of_append _ _ _ hcalls]
  exact hf

/-- Reading a descriptor that lies in memory after `before`. -/
theorem getElem?_descriptor (before d after : List Nat) (i : Nat)
    (hi : i < d.length) :
    (before ++ (d ++ after))[before.length + i]? = some (d.getD i 0) := by
  rw [List.getElem?_append_right (Nat.le_add_right _ _)]
  simp only [Nat.add_sub_cancel_left]
  rw [List.getElem?_append_left hi, List.getD_eq_getElem?_getD,
    List.getElem?_eq_getElem hi]
  rfl

/-- The handles after a scan: the last visited address with bit 7 set, the
last visited address with bit 7 clear, or the previous handle when there is
none; nothing else in the session changes. -/
theorem assignHandles_spec (addrs : List Nat) :
    ∀ s : State,
      (assignHandles s addrs).endpoint_in_ =
        ((addrs.filter (fun a => a &&& 0x80 ≠ 0)).getLast?).getD s.endpoint_in_ ∧
      (assignHandles s addrs).endpoint_out_ =
        ((addrs.filter (fun a => a &&& 0x80 = 0)).getLast?).getD s.endpoint_out_ ∧
      (assignHandles s addrs).ep_in_buffer_ = s.ep_in_buffer_ ∧
      (assignHandles s addrs).ep_out_buffer_ = s.ep_out_buffer_ ∧
      (assignHandles s addrs).announced_ = s.announced_ ∧
      (assignHandles s addrs).usbd = s.usbd := by
  induction addrs with
  | nil => intro s; simp [assignHandles]
  | cons a rest ih =>
    intro s
    by_cases ha : a &&& 0x80 = 0
    · have h := ih { s with endpoint_out_ := a }
      simp only [assignHandles, ha, ne_eq, not_true_eq_false, if_false]
      refine ⟨?_, ?_, h.2.2.1, h.2.2.2.1, h.2.2.2.2.1, h.2.2.2.2.2⟩
      · rw [h.1]
        simp [List.filter, ha]
      · rw [h.2.1]
        simp [List.filter, ha, List.getLast?_cons]
    · have h := ih { s with endpoint_in_ := a }
      simp only [assignHandles, ha, ne_eq, not_false_eq_true, if_true]
      refine ⟨?_, ?_, h.2.2.1, h.2.2.2.1, h.2.2.2.2.1, h.2.2.2.2.2⟩
      · rw [h.1]
        simp [List.filter, ha, List.getLast?_cons]
      · rw [h.2.1]
        simp [List.filter, ha]

/-- The loop of `open` over a stream of descriptors: it ends after the
endpoint descriptors still missing have been visited. -/
theorem open_loop_scan (edpt_open : Nat → Bool) (n dl ml : Nat) (hdl : dl ≤ ml) :
    ∀ (descs : List (List Nat)) (before after : List Nat) (found : Nat)
      (s : State) (opened : List Nat) (fuel : Nat),
      (∀ d ∈ descs, IsDescriptor d) →
      found ≤ n → n - found ≤ (endpointAddresses descs).length →
      (∀ a ∈ (endpointAddresses descs).take (n - found), edpt_open a = true) →
      descs.length + 1 ≤ fuel →
      open_loop edpt_open (before ++ (descs.flatten ++ after)) n dl ml fuel
          before.length found s opened =
        some (dl, assignHandles s ((endpointAddresses descs).take (n - found)),
          opened ++ (endpointAddresses descs).take (n - found)) := by
  intro descs
  induction descs with
  | nil =>
    intro before after found s opened fuel _ hfound hcount _ hfuel
    have hfn : n - found = 0 := by simpa [endpointAddresses] using hcount
    obtain ⟨f, rfl⟩ : ∃ f, fuel = f + 1 := ⟨fuel - 1, by omega⟩
    have hnot : ¬ (found < n ∧ dl ≤ ml) := by omega
    simp [open_loop, hnot, hfn, assignHandles]
  | cons d ds ih =>
    intro before after found s opened fuel hdesc hfound hcount hopen hfuel
    obtain ⟨f, rfl⟩ : ∃ f, fuel = f + 1 := ⟨fuel - 1, by omega⟩
    have hf : ds.length + 1 ≤ f := by simpa using hfuel
    by_cases hfn : found < n
    · have hcond : found < n ∧ dl ≤ ml := ⟨hfn, hdl⟩
      obtain ⟨hd2, hd0, hd3⟩ := hdesc d (List.mem_cons_self _ _)
      have hmem : before ++ ((d :: ds).flatten ++ after) =
          before ++ (d ++ (ds.flatten ++ after)) := by
        simp [List.append_assoc]
      have hmem2 : before ++ ((d :: ds).flatten ++ after) =
          (before ++ d) ++ (ds.flatten ++ after) := by
        simp [List.append_assoc]
      have r0 : (before ++ ((d :: ds).flatten ++ after))[before.length]? =
          some d.length := by
        have := getElem?_descriptor before d (ds.flatten ++ after) 0 (by omega)
        rw [hd0] at this
        rw [hmem]
        simpa using this
      have r1 : (before ++ ((d :: ds).flatten ++ after))[before.length + 1]? =
          some (d.getD 1 0) := by
        rw [hmem]
        exact getElem?_descriptor before d (ds.flatten ++ after) 1 (by omega)
      have hds : ∀ d' ∈ ds, IsDescriptor d' :=
        fun d' h => hdesc d' (List.mem_cons_of_mem _ h)
      have hlen : (before ++ d).length = before.length + d.length := by simp
      by_cases hty : d.getD 1 0 = TUSB_DESC_ENDPOINT
      · have r2 : (before ++ ((d :: ds).flatten ++ after))[before.length + 2]? =
            some (d.getD 2 0) := by
          rw [hmem]
          exact getElem?_descriptor before d (ds.flatten ++ after) 2
            (by have := hd3 hty; omega)
        have hea : endpointAddresses (d :: ds) =
            d.getD 2 0 :: endpointAddresses ds := by
          simp only [endpointAddresses, hty, if_true]
        have hk : n - found = (n - (found + 1)) + 1 := by omega
        rw [hea, hk, List.take_succ_cons] at hopen ⊢
        have hok : edpt_open (d.getD 2 0) = true :=
          hopen _ (List.mem_cons_self _ _)
        have hcount' : n - (found + 1) ≤ (endpointAddresses ds).length := by
          rw [hea] at hcount
          simp only [List.length_cons] at hcount
          omega
        have hrec := ih (before ++ d) after (found + 1)
          (if d.getD 2 0 &&& 0x80 ≠ 0 then { s with endpoint_in_ := d.getD 2 0 }
           else { s with endpoint_out_ := d.getD 2 0 })
          (opened ++ [d.getD 2 0]) f hds (by omega) hcount'
          (fun a ha => hopen a (List.mem_cons_of_mem _ ha)) hf
        rw [hlen, ← hmem2] at hrec
        rw [open_loop, if_pos hcond, r1]
        simp only [hty, if_true, r2, hok, r0]
        rw [hrec]
        simp [assignHandles]
      · have hea : endpointAddresses (d :: ds) = endpointAddresses ds := by
          simp only [endpointAddresses, hty, if_false]
        rw [hea] at hcount hopen ⊢
        have hrec := ih (before ++ d) after found s opened f hds hfound hcount
          hopen hf
        rw [hlen, ← hmem2] at hrec
        have hty' : ¬ (TUSB_DESC_ENDPOINT = d.getD 1 0) := fun h => hty h.symm
        rw [open_loop, if_pos hcond, r1]
        simp only [hty', if_false, r0]
        exact hrec
    · have hz : n - found = 0 := by omega
      have hnot : ¬ (found < n ∧ dl ≤ ml) := fun h => hfn h.1
      simp [open_loop, hnot, hz, assignHandles]

/-- C15: `open` leaves the session alone unless the interface number is 0 and
`max_length` is at least 9 + 7 * `bNumEndpoints`. For an interface descriptor
in memory with `bNumEndpoints` = `n` (a byte): if `max_length` is smaller than
9 + 7 * `n`, `open` returns 0, opens no endpoint and leaves the session
unchanged; otherwise, if `bInterfaceNumber` is not 0, it returns 9 + 7 * `n`,
opens no endpoint and leaves the session unchanged. So whenever `open`
returns with a changed handle, the interface number is 0 and `max_length` is
large enough. -/
theorem C15_open_frame (edpt_open : Nat → Bool) (s : State) (rhport : Nat)
    (mem : List Nat) (itf max_length fuel n bLength bInterfaceNumber : Nat)
    (hn : mem[itf + 4]? = some n) (hlen : mem[itf]? = some bLength)
    (hif : mem[itf + 2]? = some bInterfaceNumber) (hbyte : n < 256) :
    (max_length < 9 + 7 * n →
      open_ edpt_open s rhport mem itf max_length fuel = some (0, s, [])) ∧
    (9 + 7 * n ≤ max_length → bInterfaceNumber ≠ 0 →
      open_ edpt_open s rhport mem itf max_length fuel =
        some (9 + 7 * n, s, [])) ∧
    (∀ (ret : Nat) (s2 : State) (opened : List Nat),
      open_ edpt_open s rhport mem itf max_length fuel = some (ret, s2, opened) →
      (s2.endpoint_in_ ≠ s.endpoint_in_ ∨ s2.endpoint_out_ ≠ s.endpoint_out_) →
      bInterfaceNumber = 0 ∧ 9 + 7 * n ≤ max_length) := by
  have hdl : (9 + n * 7) % 65536 = 9 + 7 * n := by omega
  have h1 : max_length < 9 + 7 * n →
      open_ edpt_open s rhport mem itf max_length fuel = some (0, s, []) := by
    intro hlt
    have hnot : ¬ (max_length ≥ 9 + 7 * n) := by omega
    simp only [open_, hn, hlen, hif, hdl]
    rw [if_pos hnot]
  have h2 : 9 + 7 * n ≤ max_length → bInterfaceNumber ≠ 0 →
      open_ edpt_open s rhport mem itf max_length fuel =
        some (9 + 7 * n, s, []) := by
    intro hge hne
    have hnn : ¬ ¬ (max_length ≥ 9 + 7 * n) := by omega
    simp only [open_, hn, hlen, hif, hdl]
    rw [if_neg hnn, if_neg hne]
  refine ⟨h1, h2, ?_⟩
  intro ret s2 opened hres hchg
  by_cases hlt : max_length < 9 + 7 * n
  · rw [h1 hlt] at hres
    simp only [Option.some.injEq, Prod.mk.injEq] at hres
    obtain ⟨-, hs, -⟩ := hres
    rw [← hs] at hchg
    rcases hchg with h | h <;> exact absurd rfl h
  · by_cases hz : bInterfaceNumber = 0
    · exact ⟨hz, by omega⟩
    · rw [h2 (by omega) hz] at hres
      simp only [Option.some.injEq, Prod.mk.injEq] at hres
      obtain ⟨-, hs, -⟩ := hres
      rw [← hs] at hchg
      rcases hchg with h | h <;> exact absurd rfl h

/-- C15 at concrete inputs: interface 1 (alternate setting 1, two endpoints,
at offset 41 of the configuration descriptor) is skipped with the handles
still unassigned and 23 returned; with `max_length` = 22 interface 0 is
refused with 0. -/
theorem C15_open_frame_witness :
    open_ (fun _ => true) (init (sampleState false [])) 0
        XboxOne.CONFIGURATION_DESCRIPTOR 41 55 0 =
      some (23, init (sampleState false []), []) ∧
    open_ (fun _ => true) (init (sampleState false [])) 0
        XboxOne.CONFIGURATION_DESCRIPTOR 9 22 100 =
      some (0, init (sampleState false []), []) :=
  ⟨(C15_open_frame (fun _ => true) (init (sampleState false [])) 0
      XboxOne.CONFIGURATION_DESCRIPTOR 41 55 0 2 9 1 (by decide) (by decide)
      (by decide) (by decide)).2.1 (by decide) (by decide),
   (C15_open_frame (fun _ => true) (init (sampleState false [])) 0
      XboxOne.CONFIGURATION_DESCRIPTOR 9 22 100 2 9 0 (by decide) (by decide)
      (by decide) (by decide)).1 (by decide)⟩

/-- C16: for an interface descriptor with `bInterfaceNumber` = 0 and
`bNumEndpoints` = `n`, with `max_length` at least 9 + 7 * `n`, followed in
memory by descriptors among which at least `n` are endpoint descriptors, each
of the first `n` being opened successfully: `open` returns (for every fuel
above the number of descriptors) the value 9 + 7 * `n`, after handing exactly
the first `n` endpoint addresses to `usbd_edpt_open`; `endpoint_in_` is the
last of these addresses with bit 7 (0x80) set and `endpoint_out_` the last
with bit 7 clear (each handle keeps its value when there is no such address),
and nothing else in the session changes. -/
theorem C16_open_scans_endpoints (edpt_open : Nat → Bool) (s : State)
    (rhport : Nat) (pre itfd : List Nat) (descs : List (List Nat))
    (post : List Nat) (max_length fuel : Nat)
    (hitf : 5 ≤ itfd.length ∧ itfd.getD 0 0 = itfd.length)
    (hzero : itfd.getD 2 0 = 0) (hbyte : itfd.getD 4 0 < 256)
    (hmax : 9 + 7 * itfd.getD 4 0 ≤ max_length)
    (hdescs : ∀ d ∈ descs, IsDescriptor d)
    (hcount : itfd.getD 4 0 ≤ (endpointAddresses descs).length)
    (hopen : ∀ a ∈ (endpointAddresses descs).take (itfd.getD 4 0),
      edpt_open a = true)
    (hfuel : descs.length + 1 ≤ fuel) :
    open_ edpt_open s rhport (pre ++ (itfd ++ (descs.flatten ++ post)))
        pre.length max_length fuel =
      some (9 + 7 * itfd.getD 4 0,
        assignHandles s ((endpointAddresses descs).take (itfd.getD 4 0)),
        (endpointAddresses descs).take (itfd.getD 4 0)) ∧
    (assignHandles s
        ((endpointAddresses descs).take (itfd.getD 4 0))).endpoint_in_ =
      ((((endpointAddresses descs).take (itfd.getD 4 0)).filter
        (fun a => a &&& 0x80 ≠ 0)).getLast?).getD s.endpoint_in_ ∧
    (assignHandles s
        ((endpointAddresses descs).take (itfd.getD 4 0))).endpoint_out_ =
      ((((endpointAddresses descs).take (itfd.getD 4 0)).filter
        (fun a => a &&& 0x80 = 0)).getLast?).getD s.endpoint_out_ ∧
    (assignHandles s
        ((endpointAddresses descs).take (itfd.getD 4 0))).ep_in_buffer_ =
      s.ep_in_buffer_ ∧
    (assignHandles s
        ((endpointAddresses descs).take (itfd.getD 4 0))).ep_out_buffer_ =
      s.ep_out_buffer_ ∧
    (assignHandles s
        ((endpointAddresses descs).take (itfd.getD 4 0))).announced_ =
      s.announced_ ∧
    (assignHandles s ((endpointAddresses descs).take (itfd.getD 4 0))).usbd =
      s.usbd := by
  refine ⟨?_, assignHandles_spec _ s⟩
  have r4 := getElem?_descriptor pre itfd (descs.flatten ++ post) 4 (by omega)
  have r2 := getElem?_descriptor pre itfd (descs.flatten ++ post) 2 (by omega)
  have r0 := getElem?_descriptor pre itfd (descs.flatten ++ post) 0 (by omega)
  rw [hitf.2] at r0
  rw [hzero] at r2
  rw [Nat.add_zero] at r0
  have hdl : (9 + itfd.getD 4 0 * 7) % 65536 = 9 + 7 * itfd.getD 4 0 := by omega
  have hnn : ¬ ¬ (max_length ≥ 9 + 7 * itfd.getD 4 0) := by omega
  have hscan := open_loop_scan edpt_open (itfd.getD 4 0) (9 + 7 * itfd.getD 4 0)
    max_length hmax descs (pre ++ itfd) post 0 s [] fuel hdescs (Nat.zero_le _)
    (by simpa using hcount) (by simpa using hopen) hfuel
  have hmem : pre ++ itfd ++ (descs.flatten ++ post) =
      pre ++ (itfd ++ (descs.flatten ++ post)) := by
    simp [List.append_assoc]
  have hlen : (pre ++ itfd).length = pre.length + itfd.length := by simp
  rw [hmem, hlen] at hscan
  simp only [Nat.sub_zero, List.nil_append] at hscan
  simp only [open_, r4, r2, r0, hdl]
  rw [if_neg hnn, if_pos trivial]
  exact hscan

/-- C16 on interface 0 of `XboxOne::CONFIGURATION_DESCRIPTOR` (offset 9, the
87 bytes up to the end of the configuration as `max_length`): `open` returns
23 with `endpoint_out_` = 0x02 and `endpoint_in_` = 0x82. -/
theorem C16_open_scans_endpoints_witness :
    open_ (fun _ => true) (init (sampleState false [])) 0
        XboxOne.CONFIGURATION_DESCRIPTOR 9 87 100 =
      some (23,
        { init (sampleState false []) with
          endpoint_in_ := 0x82, endpoint_out_ := 0x02 },
        [0x02, 0x82]) :=
  (C16_open_scans_endpoints (fun _ => true) (init (sampleState false [])) 0
    [9, 0x02, 0x60, 0x00, 0x03, 0x01, 0x00, 0xA0, 0xFA]
    [9, 0x04, 0x00, 0x00, 0x02, 0xFF, 0x47, 0xD0, 0x00]
    [[7, 0x05, 0x02, 0x03, 0x40, 0x00, 0x04],
     [7, 0x05, 0x82, 0x03, 0x40, 0x00, 0x01],
     [9, 0x04, 0x01, 0x00, 0x00, 0xFF, 0x47, 0xD0, 0x00],
     [9, 0x04, 0x01, 0x01, 0x02, 0xFF, 0x47, 0xD0, 0x00],
     [7, 0x05, 0x05, 0x01, 0xE4, 0x00, 0x01],
     [7, 0x05, 0x83, 0x01, 0xE4, 0x00, 0x01],
     [9, 0x04, 0x02, 0x00, 0x00, 0xFF, 0x47, 0xD0, 0x00],
     [9, 0x04, 0x02, 0x01, 0x02, 0xFF, 0x47, 0xD0, 0x00],
     [7, 0x05, 0x04, 0x02, 0x40, 0x00, 0x00],
     [7, 0x05, 0x84, 0x02, 0x40, 0x00, 0x00]]
    [] 87 100 (by decide) (by decide) (by decide) (by decide) (by decide)
    (by decide) (by decide) (by decide)).1

/-- C21 (the code at the failing inputs): with the PS3 guitar sources
Green=A, Red=B, Yellow=Y, Blue=X, Orange=LB, Green gives LT (`trigger_l` =
255), Red the LB bit and Orange the A bit, as the header comment documents;
but Yellow (canonical Y) gives RT (`trigger_r` = 255) and no RB bit, and Blue
(canonical X) gives the RB bit and leaves `trigger_r` at 0: the two are
exchanged with respect to the documented `Yellow = RB`, `Blue = RT`. -/
theorem C21_yellow_blue_exchanged :
    -- Green, Red, Orange: as documented
    ((fretReport Gamepad.Masks.oneBitEach.BUTTON_A).trigger_l = 255 ∧
      (fretReport Gamepad.Masks.oneBitEach.BUTTON_B).buttons1 =
        XInputGuitar.Bits.xinput.LB ∧
      (fretReport Gamepad.Masks.oneBitEach.BUTTON_LB).buttons1 =
        XInputGuitar.Bits.xinput.A) ∧
    -- Yellow: RT instead of the RB bit
    ((fretReport Gamepad.Masks.oneBitEach.BUTTON_Y).trigger_r = 255 ∧
      (fretReport Gamepad.Masks.oneBitEach.BUTTON_Y).buttons1 = 0 ∧
      (fretReport Gamepad.Masks.oneBitEach.BUTTON_Y).buttons1 &&&
        XInputGuitar.Bits.xinput.RB = 0) ∧
    -- Blue: the RB bit instead of RT
    ((fretReport Gamepad.Masks.oneBitEach.BUTTON_X).buttons1 =
        XInputGuitar.Bits.xinput.RB ∧
      (fretReport Gamepad.Masks.oneBitEach.BUTTON_X).trigger_r = 0) := by
  decide

/-- C22: whenever `xferred_bytes` > 0, `xfer_cb` does the same whatever the
number of bytes received (it is not compared with 3), and it answers according
to bytes 0, 1 and 2 of `ep_out_buffer_`. For a 1-byte transfer there are two
buffers that agree on the byte received (command 0x05) and give an ACK for one
and no response for the other (leftover byte 1 is 0x10 or 0x00); for a 2-byte
transfer there are two buffers that agree on the two bytes received and give
ACKs with different sequence bytes (leftover byte 2 is 9 or 7). -/
theorem C22_short_transfers_read_leftovers :
    (∀ (s : State) (rhport ep_addr result n m : Nat), 0 < n → 0 < m →
      xfer_cb s rhport ep_addr result n = xfer_cb s rhport ep_addr result m) ∧
    (∃ b₁ b₂ : List Nat,
      b₁.length = 64 ∧ b₂.length = 64 ∧ b₁.take 1 = b₂.take 1 ∧
      xfersOn 0x82
          (xfer_cb { sampleState false [] with ep_out_buffer_ := b₁ }
            0 0x02 0 1).2.usbd.calls =
        [(Mem.ep_in_buffer_, 5, [0x01, 0x20, 0, 0x01, 0x05])] ∧
      xfersOn 0x82
          (xfer_cb { sampleState false [] with ep_out_buffer_ := b₂ }
            0 0x02 0 1).2.usbd.calls = []) ∧
    (∃ b₁ b₂ : List Nat,
      b₁.length = 64 ∧ b₂.length = 64 ∧ b₁.take 2 = b₂.take 2 ∧
      xfersOn 0x82
          (xfer_cb { sampleState false [] with ep_out_buffer_ := b₁ }
            0 0x02 0 2).2.usbd.calls =
        [(Mem.ep_in_buffer_, 5, [0x01, 0x20, 9, 0x01, 0x05])] ∧
      xfersOn 0x82
          (xfer_cb { sampleState false [] with ep_out_buffer_ := b₂ }
            0 0x02 0 2).2.usbd.calls =
        [(Mem.ep_in_buffer_, 5, [0x01, 0x20, 7, 0x01, 0x05])]) := by
  refine ⟨?_, ?_, ?_⟩
  · intro s rhport ep_addr result n m hn hm
    have h1 : n > 0 := hn
    have h2 : m > 0 := hm
    simp only [xfer_cb, h1, h2]
  · exact ⟨[0x05, 0x10] ++ memset0 62, [0x05, 0x00] ++ memset0 62,
      by decide, by decide, by decide, by decide, by decide⟩
  · exact ⟨[0x05, 0x10, 9] ++ memset0 61, [0x05, 0x10, 7] ++ memset0 61,
      by decide, by decide, by decide, by decide, by decide⟩

/-- C22 at a concrete input: the same ACK-requesting packet is answered alike
whether 1 or 64 bytes are reported as received. -/
theorem C22_short_transfers_read_leftovers_witness :
    xfer_cb (sampleState false [0x05, 0x10, 9]) 0 0x02 0 1 =
      xfer_cb (sampleState false [0x05, 0x10, 9]) 0 0x02 0 64 :=
  C22_short_transfers_read_leftovers.1 (sampleState false [0x05, 0x10, 9]) 0 0x02
    0 1 64 (by decide) (by decide)
